import Mathlib

/-!
Verification of the MiniOSGB binary scene-graph reader (src/include/miniosgb.h)
against its natural-language specification.

The C++ reader is shallowly embedded as a state monad over an explicit
reader state.  Machine integers are modelled as `Nat` (values read
little-endian from the byte buffer); `float`/`double` fields are kept as
their raw little-endian bit patterns (the reader never interprets them
numerically).  `shared_ptr` identity is modelled by an arena (`heap`):
creating an object appends it to the heap and its index is its identity;
the three registries map `uniqueId` to heap indices.  Errors mirror
`Reader::Error` (offset plus message); messages are modelled by the
inductive `ErrMsg`, one constructor per distinct `throw` message in the
source, carrying the dynamic parts the C++ concatenates into the string.
-/

set_option maxRecDepth 4000

namespace MiniOsgb

/-- Error messages of `Reader::Error`, one constructor per throw site
message in miniosgb.h.  `readBeyond` is "read beyond data length",
`invalidBool` is "invalid bool value", `invalidStringLength` is
"invalid string length", `invalidMagic` is "invalid data magic",
`invalidDataType` is "invalid data type: <n>", `unsupportedAttribute` is
"unsupported attribute: <n>" (the C++ appends `type`, not `attributes`,
and we keep that payload), `unsupportedCompressor` carries the compressor
name bytes, `unsupportedClass` carries the class tag bytes,
`unsupportedArrayType` carries the type tag, `invalidImageDecision`
carries the decision value, `unsupportedIndices` is "unsupported feature:
array with indices".  `outOfFuel` is an artifact of the embedding (the
C++ recursion is bounded by the buffer; the model uses explicit fuel
large enough that this constructor is never produced by `dataRead`). -/
inductive ErrMsg where
  | readBeyond
  | invalidBool
  | invalidStringLength
  | invalidMagic
  | invalidDataType (t : Nat)
  | unsupportedAttribute (t : Nat)
  | unsupportedCompressor (name : List UInt8)
  | unsupportedClass (name : List UInt8)
  | unsupportedArrayType (t : Int)
  | invalidImageDecision (d : Nat)
  | unsupportedIndices
  | outOfFuel
  deriving DecidableEq, Repr

/-- A reader error: byte offset at detection plus message, as in
`Reader::Error(offset, message)`. -/
structure Err where
  offset : Nat
  msg : ErrMsg
  deriving DecidableEq, Repr

/-- One `PagedLOD::RangeData` entry: filename bytes plus the raw float
bits of priorityOffset and priorityScale. -/
structure RangeData where
  filename : List UInt8 := []
  priorityOffset : Nat := 0
  priorityScale : Nat := 0
  deriving DecidableEq, Repr, Inhabited

/-- Retained fields of an `osg::Group` (Node layer stateSet plus
children). References are heap indices; a null `shared_ptr` is `none`. -/
structure GroupD where
  stateSet : Option Nat := none
  children : List (Option Nat) := []
  deriving DecidableEq, Repr, Inhabited

/-- Retained fields of an `osg::Geode`. -/
structure GeodeD where
  stateSet : Option Nat := none
  drawables : List (Option Nat) := []
  deriving DecidableEq, Repr, Inhabited

/-- Retained fields of an `osg::PagedLOD` (flattened LOD and Group
layers).  Doubles and floats are raw bit patterns. -/
structure PagedD where
  stateSet : Option Nat := none
  children : List (Option Nat) := []
  centerMode : Int := 0
  userDefinedCenter : Nat × Nat × Nat := (0, 0, 0)
  userDefinedRadius : Nat := 0
  rangeList : List (Nat × Nat) := []
  rangeDataList : List RangeData := []
  deriving DecidableEq, Repr, Inhabited

/-- Retained fields of an `osg::Geometry` (Drawable layer stateSet plus
the geometry references). -/
structure GeomD where
  stateSet : Option Nat := none
  primitives : List (Option Nat) := []
  vertexData : Option Nat := none
  normalData : Option Nat := none
  colorData : Option Nat := none
  secondaryColorData : Option Nat := none
  fogCoordData : Option Nat := none
  texCoordDataList : List (Option Nat) := []
  deriving DecidableEq, Repr, Inhabited

/-- Retained fields of an `osg::StateSet`. Attribute entries pair a heap
index with the uint32 value; null downcasts were dropped as in the
source. -/
structure StateSetD where
  modes : List (Nat × Nat) := []
  attributes : List (Nat × Nat) := []
  textureModesList : List (List (Nat × Nat)) := []
  textureAttributesList : List (List (Nat × Nat)) := []
  renderingHint : Nat := 0
  deriving DecidableEq, Repr, Inhabited

/-- One front/back material property; payloads are raw float bits. -/
structure MatProp where
  frontAndBack : Bool := false
  front : Nat × Nat × Nat × Nat := (0, 0, 0, 0)
  back : Nat × Nat × Nat × Nat := (0, 0, 0, 0)
  deriving DecidableEq, Repr, Inhabited

/-- Shininess property (scalar floats). -/
structure ShinProp where
  frontAndBack : Bool := false
  front : Nat := 0
  back : Nat := 0
  deriving DecidableEq, Repr, Inhabited

/-- Retained fields of an `osg::Material`. -/
structure MaterialD where
  ambient : MatProp := {}
  diffuse : MatProp := {}
  specular : MatProp := {}
  emission : MatProp := {}
  shininess : ShinProp := {}
  deriving DecidableEq, Repr, Inhabited

/-- Retained fields of an `osg::Texture2D` (Texture layer wrap modes
plus the image reference).  Wrap defaults are ClampToEdge = 0x812F. -/
structure Tex2DD where
  wrapS : Nat := 0x812F
  wrapT : Nat := 0x812F
  wrapR : Nat := 0x812F
  image : Option Nat := none
  deriving DecidableEq, Repr, Inhabited

/-- Retained fields of an `osg::Image`: the zero-copy slice into the
input buffer.  `data = nullptr` is modelled as `dataStart = 0` with
`dataLength = 0` (the initial state before the payload is captured). -/
structure ImageD where
  dataStart : Nat := 0
  dataLength : Nat := 0
  deriving DecidableEq, Repr, Inhabited

/-- Retained fields of a `PrimitiveSet` / `DrawElementsUInt`:
mode, index count and the zero-copy index slice (`none` = nullptr). -/
structure PrimD where
  mode : Nat := 0
  indexCount : Nat := 0
  indexData : Option Nat := none
  deriving DecidableEq, Repr, Inhabited

/-- Retained fields of an `Array` subobject: fixed type tag and element
size (Vec2f 27/8, Vec3f 28/12, Vec4f 29/16), element count, the
zero-copy element slice (`none` = nullptr), binding and normalize. -/
structure ArrD where
  arrayType : Nat
  elementSize : Nat
  elementCount : Nat := 0
  elementData : Option Nat := none
  binding : Nat := 0
  normalize : Bool := false
  deriving DecidableEq, Repr

/-- Default-constructed `Vec2Array`. -/
def vec2ArrD : ArrD := { arrayType := 27, elementSize := 8 }

/-- Default-constructed `Vec3Array`. -/
def vec3ArrD : ArrD := { arrayType := 28, elementSize := 12 }

/-- Default-constructed `Vec4Array`. -/
def vec4ArrD : ArrD := { arrayType := 29, elementSize := 16 }

instance : Inhabited ArrD := ⟨vec2ArrD⟩

/-- Class-discriminated body of a heap object, one constructor per
concrete class the reader instantiates. -/
inductive ObjBody where
  | group (g : GroupD)
  | geode (g : GeodeD)
  | pagedLOD (p : PagedD)
  | geometry (g : GeomD)
  | stateSet (s : StateSetD)
  | material (m : MaterialD)
  | texture2D (t : Tex2DD)
  | defaultUDC
  | drawElementsUInt (p : PrimD)
  | primitiveSet (p : PrimD)
  | vec2Array (a : ArrD)
  | vec3Array (a : ArrD)
  | vec4Array (a : ArrD)
  | image (i : ImageD)
  deriving DecidableEq, Repr, Inhabited

/-- A heap (arena) object: `Object::uniqueId` plus the class body.  Heap
indices model `shared_ptr` identity. -/
structure HObj where
  uid : Nat := 0
  body : ObjBody
  deriving DecidableEq, Repr

instance : Inhabited HObj := ⟨{ body := ObjBody.defaultUDC }⟩

/-- Reader state: the borrowed input buffer, forward cursor `_pos`,
header-recorded `_version` and `_useBinaryBrackets`, the three
identity registries (`_objects`, `_images`, `_arrays`, newest binding
first so insertion overwrites as `unordered_map::operator[]` does), and
the arena of allocated instances. -/
structure St where
  buf : List UInt8
  pos : Nat := 0
  version : Nat := 0
  bb : Bool := false
  objects : List (Nat × Nat) := []
  images : List (Nat × Nat) := []
  arrays : List (Nat × Nat) := []
  heap : List HObj := []
  deriving DecidableEq, Repr

/-- Registry lookup (first binding wins, i.e. the most recent insertion,
matching `unordered_map` update semantics with `ainsert`). -/
def alookup : List (Nat × Nat) → Nat → Option Nat
  | [], _ => none
  | (k, v) :: t, u => if k = u then some v else alookup t u

/-- Registry insertion/overwrite, as `_map[key] = value`. -/
def ainsert (l : List (Nat × Nat)) (k v : Nat) : List (Nat × Nat) :=
  (k, v) :: l

/-- The reader monad: state plus `Reader::Error` short-circuiting. -/
def M (α : Type) : Type := St → Except Err (α × St)

/-- Monadic return. -/
def M.pure (a : α) : M α := fun s => Except.ok (a, s)

/-- Monadic bind. -/
def M.bind (x : M α) (f : α → M β) : M β := fun s =>
  match x s with
  | Except.error e => Except.error e
  | Except.ok (a, s1) => f a s1

instance : Monad M where
  pure := M.pure
  bind := M.bind

/-- Throw `Reader::Error(_pos, msg)` at the current offset. -/
def throwCur (m : ErrMsg) : M α := fun s => Except.error ⟨s.pos, m⟩

/-- Current cursor position (`_pos`). -/
def getPos : M Nat := fun s => Except.ok (s.pos, s)

/-- Header-recorded format version (`_version`). -/
def getVersion : M Nat := fun s => Except.ok (s.version, s)

/-- Record the format version (assignment in `readHeader`). -/
def setVersion (v : Nat) : M Unit := fun s => Except.ok ((), { s with version := v })

/-- Record the binary-bracket attribute (assignment in `readHeader`). -/
def setBB (b : Bool) : M Unit := fun s => Except.ok ((), { s with bb := b })

/-- Bounds-checked read of `n` raw bytes, the common core of every
`read<T>` in the source: fails with "read beyond data length" at the
current offset when `_pos + n > _length`. -/
def readBytes (n : Nat) : M (List UInt8) := fun s =>
  if s.buf.length < s.pos + n then Except.error ⟨s.pos, ErrMsg.readBeyond⟩
  else Except.ok ((s.buf.drop s.pos).take n, { s with pos := s.pos + n })

/-- Little-endian value of a byte list. -/
def leNat : List UInt8 → Nat
  | [] => 0
  | b :: t => b.toNat + 256 * leNat t

/-- The checked skip `read(T*, count)` used for discarded blocks
(`double dummy[6]`, border colors, ...): one bounds check for the whole
block, contents discarded. -/
def readSkip (n : Nat) : M Unit := fun s =>
  if s.buf.length < s.pos + n then Except.error ⟨s.pos, ErrMsg.readBeyond⟩
  else Except.ok ((), { s with pos := s.pos + n })

/-- Unchecked cursor advance (`_pos += n` without a bounds test), used by
bracket skips and zero-copy payload skips. -/
def skipN (n : Nat) : M Unit := fun s => Except.ok ((), { s with pos := s.pos + n })

/-- The specialized `read<bool>`: one byte, must be exactly 0 or 1,
otherwise "invalid bool value" at the byte's offset. -/
def readBool : M Bool := fun s =>
  if s.buf.length < s.pos + 1 then Except.error ⟨s.pos, ErrMsg.readBeyond⟩
  else if s.buf.getD s.pos 0 ≠ 0 ∧ s.buf.getD s.pos 0 ≠ 1 then
    Except.error ⟨s.pos, ErrMsg.invalidBool⟩
  else Except.ok (s.buf.getD s.pos 0 = 1, { s with pos := s.pos + 1 })

/-- The 4-byte `read<unsigned int>` (also used for 4-byte enum reads). -/
def readU32 : M Nat := do
  let bs ← readBytes 4
  pure (leNat bs)

/-- Two's-complement reinterpretation of a 32-bit value. -/
def toSigned32 (n : Nat) : Int :=
  if n < 2 ^ 31 then (n : Int) else (n : Int) - 2 ^ 32

/-- The 4-byte `read<int>`. -/
def readI32 : M Int := do
  let n ← readU32
  pure (toSigned32 n)

/-- The 8-byte `read<long long>` (also `read<double>` as raw bits). -/
def readU64 : M Nat := do
  let bs ← readBytes 8
  pure (leNat bs)

/-- The 4-byte `read<float>`, kept as raw bits. -/
def readF32 : M Nat := readU32

/-- The 8-byte `read<double>`, kept as raw bits. -/
def readF64 : M Nat := readU64

/-- The 24-byte `read<Vec3d>`: one bounds check, three doubles as bits. -/
def readVec3d : M (Nat × Nat × Nat) := fun s =>
  if s.buf.length < s.pos + 24 then Except.error ⟨s.pos, ErrMsg.readBeyond⟩
  else
    let at8 := fun (k : Nat) => leNat ((s.buf.drop (s.pos + 8 * k)).take 8)
    Except.ok ((at8 0, at8 1, at8 2), { s with pos := s.pos + 24 })

/-- The 16-byte `read<Vec4f>`: one bounds check, four floats as bits. -/
def readVec4f : M (Nat × Nat × Nat × Nat) := fun s =>
  if s.buf.length < s.pos + 16 then Except.error ⟨s.pos, ErrMsg.readBeyond⟩
  else
    let at4 := fun (k : Nat) => leNat ((s.buf.drop (s.pos + 4 * k)).take 4)
    Except.ok ((at4 0, at4 1, at4 2, at4 3), { s with pos := s.pos + 16 })

/-- The `read<std::string>` specialization: int32 length (negative fails
with "invalid string length" at the offset after the length field), then
that many raw bytes with a single bounds check. -/
def readStr : M (List UInt8) := do
  let size ← readI32
  if size < 0 then throwCur ErrMsg.invalidStringLength
  else readBytes size.toNat

/-- The `ReadBeginBracket` skip: when binary brackets are enabled,
advance (unchecked) past the 8-byte prefix for versions > 148, else the
4-byte prefix. -/
def readBeginBracket : M Unit := fun s =>
  if s.bb then
    if 148 < s.version then Except.ok ((), { s with pos := s.pos + 8 })
    else Except.ok ((), { s with pos := s.pos + 4 })
  else Except.ok ((), s)

/-- The `ReadEndBracket` no-op. -/
def readEndBracket : M Unit := M.pure ()

/-- Lookup in the `_objects` registry. -/
def findObj (u : Nat) : M (Option Nat) := fun s => Except.ok (alookup s.objects u, s)

/-- Lookup in the `_images` registry. -/
def findImg (u : Nat) : M (Option Nat) := fun s => Except.ok (alookup s.images u, s)

/-- Lookup in the `_arrays` registry. -/
def findArr (u : Nat) : M (Option Nat) := fun s => Except.ok (alookup s.arrays u, s)

/-- Insert/overwrite a binding in the `_objects` registry. -/
def insertObj (u i : Nat) : M Unit := fun s =>
  Except.ok ((), { s with objects := ainsert s.objects u i })

/-- Insert/overwrite a binding in the `_images` registry. -/
def insertImg (u i : Nat) : M Unit := fun s =>
  Except.ok ((), { s with images := ainsert s.images u i })

/-- Insert/overwrite a binding in the `_arrays` registry. -/
def insertArr (u i : Nat) : M Unit := fun s =>
  Except.ok ((), { s with arrays := ainsert s.arrays u i })

/-- Allocate a fresh instance (`std::make_shared`): append to the heap
and return its index, which models the pointer identity. -/
def alloc (o : HObj) : M Nat := fun s =>
  Except.ok (s.heap.length, { s with heap := s.heap ++ [o] })

/-- Overwrite the heap cell of instance `i` (mutation through a shared
pointer). -/
def setHeap (i : Nat) (o : HObj) : M HObj := fun s =>
  Except.ok (o, { s with heap := s.heap.set i o })

/-- Read the heap cell of instance `i`. -/
def getHeap (i : Nat) : M HObj := fun s => Except.ok (s.heap.getD i default, s)

/-- Whether a body is an `osg::Node` (for `dynamic_pointer_cast<Node>`). -/
def isNode : ObjBody → Bool
  | ObjBody.group _ => true
  | ObjBody.geode _ => true
  | ObjBody.pagedLOD _ => true
  | ObjBody.geometry _ => true
  | _ => false

/-- Whether a body is a `Drawable`. -/
def isDrawable : ObjBody → Bool
  | ObjBody.geometry _ => true
  | _ => false

/-- Whether a body is a `StateSet`. -/
def isStateSet : ObjBody → Bool
  | ObjBody.stateSet _ => true
  | _ => false

/-- Whether a body is a `StateAttribute`. -/
def isStateAttribute : ObjBody → Bool
  | ObjBody.material _ => true
  | ObjBody.texture2D _ => true
  | _ => false

/-- Whether a body is a `PrimitiveSet`. -/
def isPrimitiveSet : ObjBody → Bool
  | ObjBody.drawElementsUInt _ => true
  | ObjBody.primitiveSet _ => true
  | _ => false

/-- Whether a body is an `Array`. -/
def isArray : ObjBody → Bool
  | ObjBody.vec2Array _ => true
  | ObjBody.vec3Array _ => true
  | ObjBody.vec4Array _ => true
  | _ => false

/-- The `dynamic_pointer_cast` pattern: keep the reference when its heap
object satisfies the class test, otherwise null. -/
def castIf (p : ObjBody → Bool) (r : Option Nat) : M (Option Nat) := fun s =>
  Except.ok (r.bind fun i => if p (s.heap.getD i default).body then some i else none, s)

/-- A conditional reader step (the monadic form of the source's
`if (...) { ... }` blocks, with `y` the implicit empty else branch). -/
def mIf (c : Prop) [Decidable c] (x y : M α) : M α := if c then x else y

/-- Run `act` a fixed number of times, collecting the results in order
(the shape of the `for (i = 0; i < size; ++i)` loops that only
accumulate or discard). -/
def repN (act : M α) : Nat → M (List α)
  | 0 => M.pure []
  | n + 1 => do
    let a ← act
    let t ← repN act n
    pure (a :: t)

/-- Run `act` for indices `i, i+1, ..., i+n-1`, storing `upd a l[j]` into
slot `j` each round (the shape of the `resize` + indexed-assignment
loops).  Also returns, as a ghost observation, the list of values `act`
produced, in order; this is exactly the sequence of values the C++ loop
read from the stream. -/
def setN (act : M α) (upd : α → β → β) : Nat → Nat → List β → M (List β × List α)
  | _, 0, l => M.pure (l, [])
  | i, n + 1, l => do
    let a ← act
    let l2 := match l[i]? with
      | some b => l.set i (upd a b)
      | none => l
    let (l3, gs) ← setN act upd (i + 1) n l2
    pure (l3, a :: gs)

/-- The `std::vector::resize` operation: truncate or pad with `dflt`. -/
def resizeL (dflt : β) (l : List β) (n : Nat) : List β :=
  l.take n ++ List.replicate (n - l.length) dflt

/-- Byte list of an ASCII string literal (the way the source compares
`std::string` against class-tag literals byte by byte). -/
def lit (s : String) : List UInt8 := s.data.map fun c => UInt8.ofNat c.toNat

/-- The `readObjectIfTrue` helper: a boolean flag, then an object read
(through the recursion callback `rec`) or null. -/
def readObjectIfTrue (rec : M (Option Nat)) : M (Option Nat) := do
  let b ← readBool
  if b then rec else pure none

/-- The `readObjectFields<Object>` layer: name (discarded), dataVariance
(discarded), then the user-data read - unconditional object read below
version 77, flag-gated otherwise (all discarded). -/
def fieldsObject (rec : M (Option Nat)) : M Unit := do
  let _name ← readStr
  let _dataVariance ← readU32
  let v ← getVersion
  if v < 77 then do
    let _ ← rec
    pure ()
  else do
    let _ ← readObjectIfTrue rec
    pure ()

/-- The `readObjectFields<Node>` layer; returns the StateSet reference
assigned to `obj.stateSet` at its end. -/
def fieldsNode (rec : M (Option Nat)) : M (Option Nat) := do
  let b ← readBool
  let _ ← mIf b (do
    readBeginBracket
    let _centerX ← readF64
    let _centerY ← readF64
    let _centerZ ← readF64
    let _radius ← readF32
    readEndBracket) (pure ())
  let _ ← readObjectIfTrue rec
  let _ ← readObjectIfTrue rec
  let _ ← readObjectIfTrue rec
  let _ ← readObjectIfTrue rec
  let _cullingActive ← readBool
  let _nodeMask ← readU32
  let v ← getVersion
  let _ ← mIf (v < 77) (do
    let d ← readBool
    mIf d (do
      let size ← readU32
      readBeginBracket
      let _ ← repN readStr size
      readEndBracket) (pure ())) (pure ())
  let r ← readObjectIfTrue rec
  castIf isStateSet r

/-- The child-reading loop shared by the Group and PagedLOD layers:
`children[i] = dynamic_pointer_cast<Node>(readObject())`. -/
def readNodeRefs (rec : M (Option Nat)) (l : List (Option Nat)) (n : Nat) :
    M (List (Option Nat) × List (Option Nat)) :=
  setN (do
    let r ← rec
    castIf isNode r) (fun a _ => a) 0 n l

/-- The drawable-reading loop of the Geode layer. -/
def readDrawableRefs (rec : M (Option Nat)) (l : List (Option Nat)) (n : Nat) :
    M (List (Option Nat) × List (Option Nat)) :=
  setN (do
    let r ← rec
    castIf isDrawable r) (fun a _ => a) 0 n l

/-- The `readObjectFields<Group>` layer: optional resize-and-fill of the
children sequence. -/
def fieldsGroup (rec : M (Option Nat)) (obj : GroupD) : M GroupD := do
  let b ← readBool
  if b then do
    let size ← readU32
    let cs := resizeL none obj.children size
    readBeginBracket
    let (cs, _) ← readNodeRefs rec cs size
    readEndBracket
    pure { obj with children := cs }
  else pure obj

/-- The `readObjectFields<LOD>` layer (on the flattened PagedLOD data). -/
def fieldsLOD (obj : PagedD) : M PagedD := do
  let cm ← readI32
  let obj := { obj with centerMode := cm }
  let b ← readBool
  let obj ← mIf b (do
      let c ← readVec3d
      let r ← readF64
      pure { obj with userDefinedCenter := c, userDefinedRadius := r })
    (pure obj)
  let _rangeMode ← readU32
  let b2 ← readBool
  if b2 then do
    let size ← readU32
    let rl := resizeL (0, 0) obj.rangeList size
    readBeginBracket
    let (rl, _) ← setN (do
      let mn ← readF32
      let mx ← readF32
      pure (mn, mx)) (fun a _ => a) 0 size rl
    readEndBracket
    pure { obj with rangeList := rl }
  else pure obj

/-- The RangedDataList block of the PagedLOD layer (the body of the
`if (read<bool>())` at the `// RangedDataList` comment): fsize filenames
into a list resized to fsize, then psize priority pairs into the list
grown to psize when psize > fsize.  The first component of the result is
a ghost observation: the counts, the filename strings and the priority
pairs the block read from the stream (the loop bodies read exactly these
values); the second component is the resulting `rangeDataList`. -/
def readRangedDataList (rd0 : List RangeData) :
    M ((Nat × Nat × List (List UInt8) × List (Nat × Nat)) × List RangeData) := do
  let fsize ← readU32
  let rd := resizeL default rd0 fsize
  readBeginBracket
  let (rd, fnames) ← setN readStr (fun fn e => { e with filename := fn }) 0 fsize rd
  readEndBracket
  let psize ← readU32
  let rd := if psize > fsize then resizeL default rd psize else rd
  readBeginBracket
  let (rd, pairs) ← setN (do
    let po ← readF32
    let ps ← readF32
    pure (po, ps)) (fun a e => { e with priorityOffset := a.1, priorityScale := a.2 }) 0 psize rd
  readEndBracket
  pure ((fsize, psize, fnames, pairs), rd)

/-- The `readObjectFields<PagedLOD>` layer. -/
def fieldsPagedLOD (rec : M (Option Nat)) (obj : PagedD) : M PagedD := do
  let b ← readBool
  let _ ← mIf b (do
    let hasDatabasePath ← readBool
    mIf hasDatabasePath (do
      let _databasePath ← readStr
      pure ()) (pure ())) (pure ())
  let v ← getVersion
  let _ ← mIf (v < 70) (do
    let _frameNumber ← readU32
    pure ()) (pure ())
  let _numChildrenThatCannotBeExpired ← readU32
  let _disableExternalChildrenPaging ← readBool
  let b2 ← readBool
  let obj ← mIf b2 (do
      let (_, rd) ← readRangedDataList obj.rangeDataList
      pure { obj with rangeDataList := rd })
    (pure obj)
  let b3 ← readBool
  if b3 then do
    let size ← readU32
    let cs := resizeL none obj.children size
    readBeginBracket
    let (cs, _) ← readNodeRefs rec cs size
    readEndBracket
    pure { obj with children := cs }
  else pure obj

/-- The `readObjectFields<Geode>` layer. -/
def fieldsGeode (rec : M (Option Nat)) (obj : GeodeD) : M GeodeD := do
  let b ← readBool
  if b then do
    let size ← readU32
    let ds := resizeL none obj.drawables size
    readBeginBracket
    let (ds, _) ← readDrawableRefs rec ds size
    readEndBracket
    pure { obj with drawables := ds }
  else pure obj

/-- The `readObjectFields<Drawable>` layer; returns the StateSet
reference assigned to `obj.stateSet` at its start.  Order as in the
source: state set, optional 6-double initial bound,
computeBoundingBoxCallback, shape, the three display-list booleans, and
then update/event/cull/draw callbacks. -/
def fieldsDrawable (rec : M (Option Nat)) : M (Option Nat) := do
  let r ← readObjectIfTrue rec
  let ss ← castIf isStateSet r
  let b ← readBool
  let _ ← mIf b (readSkip 48) (pure ())
  let _ ← readObjectIfTrue rec
  let _ ← readObjectIfTrue rec
  let _supportsDisplayList ← readBool
  let _useDisplayList ← readBool
  let _useVertexBufferObjects ← readBool
  let _ ← readObjectIfTrue rec
  let _ ← readObjectIfTrue rec
  let _ ← readObjectIfTrue rec
  let _ ← readObjectIfTrue rec
  pure ss

/-- The `readObjectFields<PrimitiveSet>` layer: numInstances (discarded),
mode, indexCount, and the zero-copy index slice at the current cursor. -/
def fieldsPrimitiveSet (obj : PrimD) : M PrimD := do
  let _numInstances ← readI32
  let mode ← readU32
  let c ← readU32
  let p ← getPos
  pure { obj with mode := mode, indexCount := c, indexData := some p }

/-- The `readObjectFields<DrawElementsUInt>` layer: unchecked advance
past `indexCount * 4` payload bytes. -/
def fieldsDrawElementsUInt (obj : PrimD) : M PrimD := do
  skipN (obj.indexCount * 4)
  pure obj

/-- The `readObjectFields<Array>` layer: binding, normalize,
preserveDataType (discarded), elementCount, and the zero-copy element
slice at the current cursor. -/
def fieldsArray (obj : ArrD) : M ArrD := do
  let bd ← readU32
  let nz ← readBool
  let _preserveDataType ← readBool
  let c ← readU32
  let p ← getPos
  pure { obj with binding := bd, normalize := nz, elementCount := c, elementData := some p }

/-- The `readObjectFields<Vec2Array>` layer: unchecked advance past
`elementCount * sizeof(float) * 2` payload bytes. -/
def fieldsVec2Array (obj : ArrD) : M ArrD := do
  skipN (obj.elementCount * 4 * 2)
  pure obj

/-- The `readObjectFields<Vec3Array>` layer: unchecked advance past
`elementCount * sizeof(float) * 3` payload bytes. -/
def fieldsVec3Array (obj : ArrD) : M ArrD := do
  skipN (obj.elementCount * 4 * 3)
  pure obj

/-- Map the `ArrD` payload of an array body, other bodies unchanged. -/
def withArr (f : ArrD → ArrD) : ObjBody → ObjBody
  | ObjBody.vec2Array a => ObjBody.vec2Array (f a)
  | ObjBody.vec3Array a => ObjBody.vec3Array (f a)
  | ObjBody.vec4Array a => ObjBody.vec4Array (f a)
  | b => b

/-- The `ArrD` payload of an array body, if any. -/
def arrOf : ObjBody → Option ArrD
  | ObjBody.vec2Array a => some a
  | ObjBody.vec3Array a => some a
  | ObjBody.vec4Array a => some a
  | _ => none

/-- The element-count/element-data store of the inline `ReadArray`. -/
def payloadUpd (c p : Nat) : ArrD → ArrD := fun a =>
  { a with elementCount := c, elementData := if 0 < c then some p else none }

/-- The binding/normalize store of the inline `ReadArray`. -/
def bindNormUpd (bd : Nat) (nz : Bool) : ArrD → ArrD := fun a =>
  { a with binding := bd, normalize := nz }

/-- The element-payload capture of the inline `ReadArray`:
`arr->elementCount = c; if (c > 0) arr->elementData = _buffer + _pos;
_pos += c * arr->elementSize;` as one state step (no reads occur in
between in the source). -/
def arrPayload (i c : Nat) : M Unit := fun s =>
  Except.ok ((), { s with
    heap := s.heap.set i
      { s.heap.getD i default with body := withArr (payloadUpd c s.pos) (s.heap.getD i default).body },
    pos := s.pos + c * (((arrOf (s.heap.getD i default).body).map ArrD.elementSize).getD 0) })

/-- The final binding/normalize stores of the inline `ReadArray`. -/
def arrFinish (i : Nat) (bd : Nat) (nz : Bool) : M Unit := fun s =>
  Except.ok ((), { s with
    heap := s.heap.set i
      { s.heap.getD i default with body := withArr (bindNormUpd bd nz) (s.heap.getD i default).body } })

/-- The tail of the inline `ReadArray` after the new array instance has
been allocated and registered: element count, payload capture and
unchecked skip, the unsupported-indices check, binding and normalize. -/
def readArrayTail (inst : Nat) : M (Option Nat) := do
  let c ← readU32
  arrPayload inst c
  let hasIndices ← readBool
  if hasIndices then throwCur ErrMsg.unsupportedIndices
  else do
    let bd ← readU32
    let nzv ← readU32
    arrFinish inst bd (nzv ≠ 0)
    pure (some inst)

/-- The inline array reader `Reader::ReadArray` (legacy Geometry form):
flag, identity with registry hit, type tag (15/16/17), then
registration of the fresh instance before its payload is read. -/
def readArray : M (Option Nat) := do
  let b ← readBool
  if b then do
    let u ← readU32
    match ← findArr u with
    | some i => pure (some i)
    | none => do
      let t ← readI32
      let body ← mIf (t = 15) (pure (ObjBody.vec2Array vec2ArrD))
        (mIf (t = 16) (pure (ObjBody.vec3Array vec3ArrD))
          (mIf (t = 17) (pure (ObjBody.vec4Array vec4ArrD))
            (throwCur (ErrMsg.unsupportedArrayType t))))
      let inst ← alloc { uid := u, body := body }
      insertArr u inst
      readArrayTail inst
  else pure none

/-- The image-payload capture of `readImage`: `image->data = _buffer +
_pos; image->dataLength = size; _pos += size;` as one state step (no
reads occur in between in the source). -/
def imgPayload (i size : Nat) : M Unit := fun s =>
  Except.ok ((), { s with
    heap := s.heap.set i { s.heap.getD i default with body := ObjBody.image ⟨s.pos, size⟩ },
    pos := s.pos + size })

/-- The tail of `readImage` after the new image instance has been
allocated and registered: name and writeHint (discarded), the decision
check (only 1 = IMAGE_INLINE_FILE is supported), the zero-copy payload
capture with unchecked skip, and finally the Object field layer run
against the image. -/
def readImageTail (rec : M (Option Nat)) (inst : Nat) : M (Option Nat) := do
  let _name ← readStr
  let _writeHint ← readU32
  let decision ← readU32
  if decision = 1 then do
    let size ← readU32
    imgPayload inst size
    fieldsObject rec
    pure (some inst)
  else throwCur (ErrMsg.invalidImageDecision decision)

/-- The inline image reader `Reader::readImage`: flag, optional class
name (version > 94), identity with registry hit, then registration of
the fresh instance before the rest of its fields are read. -/
def readImage (rec : M (Option Nat)) : M (Option Nat) := do
  let b ← readBool
  if b then do
    let v ← getVersion
    let _ ← mIf (94 < v) (do
      let _className ← readStr
      pure ()) (pure ())
    let u ← readU32
    match ← findImg u with
    | some i => pure (some i)
    | none => do
      let inst ← alloc { uid := u, body := ObjBody.image {} }
      insertImg u inst
      readImageTail rec inst
  else pure none

/-- One legacy inline primitive of the Geometry layer (version < 112):
numInstances (discarded), mode, indexCount, conditional zero-copy index
slice with unchecked skip; the fresh `PrimitiveSet` instance is
allocated and its heap index returned. -/
def legacyPrim : M (Option Nat) := do
  let _numInstances ← readU32
  let mode ← readU32
  let indexCount ← readU32
  let p ← getPos
  let prim : PrimD :=
    if 0 < indexCount then { mode := mode, indexCount := indexCount, indexData := some p }
    else { mode := mode, indexCount := indexCount, indexData := none }
  let _ ← mIf (0 < indexCount) (skipN (indexCount * 4)) (pure ())
  let i ← alloc { body := ObjBody.primitiveSet prim }
  pure (some i)

/-- The `readObjectFields<Geometry>` layer, with its legacy (version <
112) and modern branches. -/
def fieldsGeometry (rec : M (Option Nat)) (obj : GeomD) : M GeomD := do
  let size ← readU32
  let v ← getVersion
  let obj ← mIf (v < 112) (do
      readBeginBracket
      let prims := resizeL none obj.primitives size
      let (prims, _) ← setN legacyPrim (fun a _ => a) 0 size prims
      readEndBracket
      pure { obj with primitives := prims })
    (do
      let prims := resizeL none obj.primitives size
      let (prims, _) ← setN (do
        let r ← rec
        castIf isPrimitiveSet r) (fun a _ => a) 0 size prims
      pure { obj with primitives := prims })
  if v < 112 then do
    let b1 ← readBool
    let obj ← mIf b1 (do
        readBeginBracket
        let a ← readArray
        readEndBracket
        pure { obj with vertexData := a })
      (pure obj)
    let b2 ← readBool
    let _ ← mIf b2 (do
      readBeginBracket
      let _ ← readArray
      readEndBracket) (pure ())
    let b3 ← readBool
    let _ ← mIf b3 (do
      readBeginBracket
      let _ ← readArray
      readEndBracket) (pure ())
    let b4 ← readBool
    let _ ← mIf b4 (do
      readBeginBracket
      let _ ← readArray
      readEndBracket) (pure ())
    let b5 ← readBool
    let _ ← mIf b5 (do
      readBeginBracket
      let _ ← readArray
      readEndBracket) (pure ())
    let b6 ← readBool
    let obj ← mIf b6 (do
        let tsize ← readU32
        let tl := resizeL none obj.texCoordDataList tsize
        readBeginBracket
        let (tl, _) ← setN (do
          readBeginBracket
          let a ← readArray
          readEndBracket
          pure a) (fun a _ => a) 0 tsize tl
        readEndBracket
        pure { obj with texCoordDataList := tl })
      (pure obj)
    let b7 ← readBool
    let obj ← mIf b7 (do
        let asize ← readU32
        let tl := resizeL none obj.texCoordDataList asize
        readBeginBracket
        let _ ← repN (do
          readBeginBracket
          let _ ← readArray
          readEndBracket
          pure ()) asize
        readEndBracket
        pure { obj with texCoordDataList := tl })
      (pure obj)
    let _fastPathHint ← readBool
    pure obj
  else do
    let r1 ← readObjectIfTrue rec
    let vd ← castIf isArray r1
    let r2 ← readObjectIfTrue rec
    let nd ← castIf isArray r2
    let r3 ← readObjectIfTrue rec
    let cd ← castIf isArray r3
    let r4 ← readObjectIfTrue rec
    let scd ← castIf isArray r4
    let r5 ← readObjectIfTrue rec
    let fcd ← castIf isArray r5
    let obj := { obj with vertexData := vd, normalData := nd, colorData := cd,
                          secondaryColorData := scd, fogCoordData := fcd }
    let tsize ← readU32
    let tl := resizeL none obj.texCoordDataList tsize
    let (tl, _) ← setN (do
      let r ← rec
      castIf isArray r) (fun a _ => a) 0 tsize tl
    let obj := { obj with texCoordDataList := tl }
    let asize ← readU32
    let _ ← repN (do
      let r ← rec
      let _ ← castIf isArray r
      pure ()) asize
    pure obj

/-- The `readObjectFields<StateSet>` layer. -/
def fieldsStateSet (rec : M (Option Nat)) (obj : StateSetD) : M StateSetD := do
  let b1 ← readBool
  let obj ← mIf b1 (do
      let size ← readU32
      readBeginBracket
      let ms ← repN (do
        let m ← readU32
        let v ← readU32
        pure (m, v)) size
      readEndBracket
      pure { obj with modes := obj.modes ++ ms })
    (pure obj)
  let b2 ← readBool
  let obj ← mIf b2 (do
      let size ← readU32
      readBeginBracket
      let avs ← repN (do
        let r ← rec
        let a ← castIf isStateAttribute r
        let v ← readU32
        pure (a, v)) size
      readEndBracket
      pure { obj with attributes :=
        obj.attributes ++ avs.filterMap fun av => av.1.map fun i => (i, av.2) })
    (pure obj)
  let b3 ← readBool
  let obj ← mIf b3 (do
      let size ← readU32
      readBeginBracket
      let tls ← repN (do
        let sz ← readU32
        readBeginBracket
        let ms ← repN (do
          let m ← readU32
          let v ← readU32
          pure (m, v)) sz
        readEndBracket
        pure ms) size
      readEndBracket
      pure { obj with textureModesList := obj.textureModesList ++ tls })
    (pure obj)
  let b4 ← readBool
  let obj ← mIf b4 (do
      let size ← readU32
      readBeginBracket
      let tls ← repN (do
        let sz ← readU32
        readBeginBracket
        let avs ← repN (do
          let r ← rec
          let a ← castIf isStateAttribute r
          let v ← readU32
          pure (a, v)) sz
        readEndBracket
        pure (avs.filterMap fun av => av.1.map fun i => (i, av.2))) size
      readEndBracket
      pure { obj with textureAttributesList := obj.textureAttributesList ++ tls })
    (pure obj)
  let b5 ← readBool
  let _ ← mIf b5 (do
    let size ← readU32
    readBeginBracket
    let _ ← repN (do
      let _ ← rec
      let _value ← readU32
      pure ()) size
    readEndBracket) (pure ())
  let rh ← readU32
  let obj := { obj with renderingHint := rh }
  let _renderBinMode ← readU32
  let _binNumber ← readU32
  let _binName ← readStr
  let _nestRenderBins ← readBool
  let _ ← readObjectIfTrue rec
  let _ ← readObjectIfTrue rec
  let v ← getVersion
  let _ ← mIf (151 ≤ v) (do
    let b6 ← readBool
    mIf b6 (do
      let size ← readU32
      readBeginBracket
      let _ ← repN (do
        let _ ← readStr
        let _ ← readStr
        let _ ← readI32
        pure ()) size
      readEndBracket) (pure ())) (pure ())
  pure obj

/-- The `readObjectFields<StateAttribute>` layer: two flag-gated object
reads (discarded). -/
def fieldsStateAttribute (rec : M (Option Nat)) : M Unit := do
  let _ ← readObjectIfTrue rec
  let _ ← readObjectIfTrue rec
  pure ()

/-- The `readObjectFields<Material>` layer. -/
def fieldsMaterial (obj : MaterialD) : M MaterialD := do
  let _colorMode ← readU32
  let b1 ← readBool
  let obj ← mIf b1 (do
      let fab ← readBool
      let fr ← readVec4f
      let bk ← readVec4f
      pure { obj with ambient := ⟨fab, fr, bk⟩ })
    (pure obj)
  let b2 ← readBool
  let obj ← mIf b2 (do
      let fab ← readBool
      let fr ← readVec4f
      let bk ← readVec4f
      pure { obj with diffuse := ⟨fab, fr, bk⟩ })
    (pure obj)
  let b3 ← readBool
  let obj ← mIf b3 (do
      let fab ← readBool
      let fr ← readVec4f
      let bk ← readVec4f
      pure { obj with specular := ⟨fab, fr, bk⟩ })
    (pure obj)
  let b4 ← readBool
  let obj ← mIf b4 (do
      let fab ← readBool
      let fr ← readVec4f
      let bk ← readVec4f
      pure { obj with emission := ⟨fab, fr, bk⟩ })
    (pure obj)
  let b5 ← readBool
  let obj ← mIf b5 (do
      let fab ← readBool
      let fr ← readF32
      let bk ← readF32
      pure { obj with shininess := ⟨fab, fr, bk⟩ })
    (pure obj)
  pure obj

/-- The `readObjectFields<Texture>` layer (wrap modes retained, the rest
consumed and discarded, with the documented version branches). -/
def fieldsTexture (obj : Tex2DD) : M Tex2DD := do
  let b1 ← readBool
  let obj ← mIf b1 (do
      let w ← readU32
      pure { obj with wrapS := w })
    (pure obj)
  let b2 ← readBool
  let obj ← mIf b2 (do
      let w ← readU32
      pure { obj with wrapT := w })
    (pure obj)
  let b3 ← readBool
  let obj ← mIf b3 (do
      let w ← readU32
      pure { obj with wrapR := w })
    (pure obj)
  let b4 ← readBool
  let _ ← mIf b4 (do
    let _minFilter ← readU32
    pure ()) (pure ())
  let b5 ← readBool
  let _ ← mIf b5 (do
    let _maxFilter ← readU32
    pure ()) (pure ())
  let _maxAnisotropy ← readF32
  let _useHardwareMipMapGeneration ← readBool
  let _unRefImageDataAfterApply ← readBool
  let _clientStorageHint ← readBool
  let _resizeNonPowerOfTwoHint ← readBool
  readSkip 32
  let _borderWidth ← readI32
  let _internalFormatMode ← readI32
  let b6 ← readBool
  let _ ← mIf b6 (do
    let _internalFormat ← readU32
    pure ()) (pure ())
  let b7 ← readBool
  let _ ← mIf b7 (do
    let _sourceFormat ← readU32
    pure ()) (pure ())
  let b8 ← readBool
  let _ ← mIf b8 (do
    let _sourceType ← readU32
    pure ()) (pure ())
  let _shadowComparison ← readBool
  let _shadowComparisonFunc ← readU32
  let _shadowTextureMode ← readU32
  let _shadowAmbient ← readF32
  let v ← getVersion
  let _ ← mIf (95 ≤ v ∧ v < 154) (do
    let b9 ← readBool
    mIf b9 (readSkip 24) (pure ())) (pure ())
  let _ ← mIf (98 ≤ v) (do
    let b10 ← readBool
    mIf b10 (do
      let _swizzle ← readStr
      pure ()) (pure ())) (pure ())
  let _ ← mIf (155 ≤ v) (do
    let _minLOD ← readF32
    let _maxLOD ← readF32
    let _lodBias ← readF32
    pure ()) (pure ())
  pure obj

/-- The `readObjectFields<Texture2D>` layer: inline image, then the
discarded texture width and height. -/
def fieldsTexture2D (rec : M (Option Nat)) (obj : Tex2DD) : M Tex2DD := do
  let img ← readImage rec
  let _textureWidth ← readU32
  let _textureHeight ← readU32
  pure { obj with image := img }

/-- The `readObjectFields<DefaultUserDataContainer>` layer (all three
blocks consumed and discarded). -/
def fieldsDefaultUDC (rec : M (Option Nat)) : M Unit := do
  let b1 ← readBool
  let _ ← mIf b1 (do
    readBeginBracket
    let _ ← rec
    readEndBracket) (pure ())
  let b2 ← readBool
  let _ ← mIf b2 (do
    let size ← readU32
    readBeginBracket
    let _ ← repN readStr size
    readEndBracket) (pure ())
  let b3 ← readBool
  let _ ← mIf b3 (do
    let size ← readU32
    readBeginBracket
    let _ ← repN rec size
    readEndBracket) (pure ())
  pure ()

/-- The `readObjectData<PagedLOD>` chain: Object, Node, LOD, PagedLOD. -/
def readDataPagedLOD (rec : M (Option Nat)) : M HObj := do
  fieldsObject rec
  let ss ← fieldsNode rec
  let obj : PagedD := { stateSet := ss }
  let obj ← fieldsLOD obj
  let obj ← fieldsPagedLOD rec obj
  pure { body := ObjBody.pagedLOD obj }

/-- The `readObjectData<Group>` chain: Object, Node, Group. -/
def readDataGroup (rec : M (Option Nat)) : M HObj := do
  fieldsObject rec
  let ss ← fieldsNode rec
  let obj : GroupD := { stateSet := ss }
  let obj ← fieldsGroup rec obj
  pure { body := ObjBody.group obj }

/-- The `readObjectData<Geode>` chain: Object, Node, Geode. -/
def readDataGeode (rec : M (Option Nat)) : M HObj := do
  fieldsObject rec
  let ss ← fieldsNode rec
  let obj : GeodeD := { stateSet := ss }
  let obj ← fieldsGeode rec obj
  pure { body := ObjBody.geode obj }

/-- The `readObjectData<Geometry>` chain: Object, Node (version >= 154),
Drawable, Geometry.  The Drawable layer's stateSet store overwrites the
Node layer's, as in the source. -/
def readDataGeometry (rec : M (Option Nat)) : M HObj := do
  fieldsObject rec
  let v ← getVersion
  let ssN ← mIf (154 ≤ v) (fieldsNode rec) (pure none)
  let ssD ← fieldsDrawable rec
  let obj : GeomD := { stateSet := ssN }
  let obj := { obj with stateSet := ssD }
  let obj ← fieldsGeometry rec obj
  pure { body := ObjBody.geometry obj }

/-- The `readObjectData<DrawElementsUInt>` chain: Object, PrimitiveSet,
DrawElementsUInt. -/
def readDataDrawElementsUInt (rec : M (Option Nat)) : M HObj := do
  fieldsObject rec
  let p ← fieldsPrimitiveSet {}
  let p ← fieldsDrawElementsUInt p
  pure { body := ObjBody.drawElementsUInt p }

/-- The `readObjectData<StateSet>` chain: Object, StateSet. -/
def readDataStateSet (rec : M (Option Nat)) : M HObj := do
  fieldsObject rec
  let ss ← fieldsStateSet rec {}
  pure { body := ObjBody.stateSet ss }

/-- The `readObjectData<Material>` chain: Object, StateAttribute,
Material. -/
def readDataMaterial (rec : M (Option Nat)) : M HObj := do
  fieldsObject rec
  fieldsStateAttribute rec
  let m ← fieldsMaterial {}
  pure { body := ObjBody.material m }

/-- The `readObjectData<Texture2D>` chain: Object, StateAttribute,
Texture, Texture2D. -/
def readDataTexture2D (rec : M (Option Nat)) : M HObj := do
  fieldsObject rec
  fieldsStateAttribute rec
  let t ← fieldsTexture {}
  let t ← fieldsTexture2D rec t
  pure { body := ObjBody.texture2D t }

/-- The `readObjectData<DefaultUserDataContainer>` chain. -/
def readDataDefaultUDC (rec : M (Option Nat)) : M HObj := do
  fieldsObject rec
  fieldsDefaultUDC rec
  pure { body := ObjBody.defaultUDC }

/-- The `readObjectData<Vec3Array>` chain: Object, Array, Vec3Array. -/
def readDataVec3Array (rec : M (Option Nat)) : M HObj := do
  fieldsObject rec
  let a ← fieldsArray vec3ArrD
  let a ← fieldsVec3Array a
  pure { body := ObjBody.vec3Array a }

/-- The `readObjectData<Vec2Array>` chain: Object, Array, Vec2Array. -/
def readDataVec2Array (rec : M (Option Nat)) : M HObj := do
  fieldsObject rec
  let a ← fieldsArray vec2ArrD
  let a ← fieldsVec2Array a
  pure { body := ObjBody.vec2Array a }

/-- The class-tag dispatch of `readObject` (the if/else-if chain over
the eleven supported tags; any other tag fails with
"unsupported object class"). -/
def dispatchClass (rec : M (Option Nat)) (cn : List UInt8) : M HObj :=
  if cn = lit "osg::PagedLOD" then readDataPagedLOD rec
  else if cn = lit "osg::Group" then readDataGroup rec
  else if cn = lit "osg::Geode" then readDataGeode rec
  else if cn = lit "osg::Geometry" then readDataGeometry rec
  else if cn = lit "osg::StateSet" then readDataStateSet rec
  else if cn = lit "osg::Material" then readDataMaterial rec
  else if cn = lit "osg::Texture2D" then readDataTexture2D rec
  else if cn = lit "osg::DefaultUserDataContainer" then readDataDefaultUDC rec
  else if cn = lit "osg::DrawElementsUInt" then readDataDrawElementsUInt rec
  else if cn = lit "osg::Vec3Array" then readDataVec3Array rec
  else if cn = lit "osg::Vec2Array" then readDataVec2Array rec
  else throwCur (ErrMsg.unsupportedClass cn)

/-- The object dispatcher `Reader::readObject`: class name (empty means
null with nothing further consumed), begin bracket, 32-bit identity,
registry hit returns the cached instance, otherwise dispatch to the
field-reader chain; the completed instance is installed into the
registry under its identity after its field readers return.  `rec` is
the recursive entry used by nested object reads. -/
def readObjectStep (rec : M (Option Nat)) : M (Option Nat) := do
  let cn ← readStr
  if cn = [] then pure none
  else do
    readBeginBracket
    let u ← readU32
    match ← findObj u with
    | some i => pure (some i)
    | none => do
      let obj ← dispatchClass rec cn
      readEndBracket
      let inst ← alloc { obj with uid := u }
      insertObj u inst
      pure (some inst)

/-- The fueled dispatcher, tied through `Nat.rec` (each nesting level of
object reads consumes one unit of fuel; the step itself is
`readObjectStep`). -/
def readObjectF : Nat → M (Option Nat) := fun fuel =>
  Nat.rec (motive := fun _ => M (Option Nat)) (throwCur ErrMsg.outOfFuel)
    (fun _ ih => readObjectStep ih) fuel

/-- The header reader `Reader::readHeader`: magic, container kind,
version, attribute bits (bits 0 and 1 rejected, bit 2 enables binary
brackets), compressor name (must be "0").  Note the source reports the
container kind value, not the attribute value, in the
unsupported-attribute message. -/
def readHeader : M Unit := do
  let magic ← readU64
  if magic ≠ 0x1AFB45456C910EA1 then throwCur ErrMsg.invalidMagic
  else do
    let t ← readU32
    if t = 0 then throwCur (ErrMsg.invalidDataType t)
    else do
      let v ← readU32
      setVersion v
      let attrs ← readU32
      if attrs.testBit 0 ∨ attrs.testBit 1 then throwCur (ErrMsg.unsupportedAttribute t)
      else do
        setBB (attrs.testBit 2)
        let comp ← readStr
        if comp ≠ lit "0" then throwCur (ErrMsg.unsupportedCompressor comp)
        else pure ()

/-- The `Reader::ended` test: the cursor consumed the buffer exactly. -/
def ended (s : St) : Bool := s.pos == s.buf.length

/-- A successful parse: the root instance plus the final reader state
(registries and heap), standing for the `Data` object together with the
shared object graph it owns. -/
structure ParseOut where
  root : Nat
  final : St
  deriving DecidableEq, Repr

/-- Run header reading and the single top-level object read on a fresh
reader over `buf` (the body of `Data::read` before the result checks).
The fuel `buf.length + 1` exceeds any possible object-nesting depth
(each nested dispatch first consumes a nonempty class name). -/
def runParse (buf : List UInt8) : Except Err (Option Nat × St) :=
  (do
    readHeader
    readObjectF (buf.length + 1)) { buf := buf }

/-- The public `Data::read`: null on a reader error, null when the root
is null or the cursor did not end exactly at the buffer end, otherwise
the root entity with its graph. -/
def dataRead (buf : List UInt8) : Option ParseOut :=
  match runParse buf with
  | Except.error _ => none
  | Except.ok (r, s) =>
    match r with
    | some root => if ended s then some ⟨root, s⟩ else none
    | none => none

/-- The error out-parameter of `Data::read`: set exactly when the reader
threw (a null result with no error means a null root or trailing
bytes). -/
def dataReadError (buf : List UInt8) : Option Err :=
  match runParse buf with
  | Except.error e => some e
  | Except.ok _ => none

/-! ### Field-order schemas

A tiny reference interpreter for flat field layers, used to state (and
refute) claims about the order in which a layer consumes its fields.
The `fieldsDrawable` transcription above is compared against schemas
written from the specification's wording. -/

/-- One step of a flat field layer. -/
inductive FieldStep where
  | stateSetRef
  | condBound48
  | objFlag
  | boolField
  deriving DecidableEq, Repr

/-- Interpret a schema: `stateSetRef` is a flag-gated object read
downcast to StateSet and kept as the result, `condBound48` is a
flag-gated 48-byte (6 double) bound, `objFlag` is a flag-gated object
read that is discarded, `boolField` is one boolean. -/
def interpSteps (rec : M (Option Nat)) : List FieldStep → Option Nat → M (Option Nat)
  | [], acc => M.pure acc
  | FieldStep.stateSetRef :: rest, _ => do
    let r ← readObjectIfTrue rec
    let ss ← castIf isStateSet r
    interpSteps rec rest ss
  | FieldStep.condBound48 :: rest, acc => do
    let b ← readBool
    let _ ← mIf b (readSkip 48) (pure ())
    interpSteps rec rest acc
  | FieldStep.objFlag :: rest, acc => do
    let _ ← readObjectIfTrue rec
    interpSteps rec rest acc
  | FieldStep.boolField :: rest, acc => do
    let _ ← readBool
    interpSteps rec rest acc

/-- The Drawable-layer order asserted by the specification: state set,
bound, all six callback reads (compute-bounding-box, shape, update,
event, cull, draw), and only then the three display-list booleans. -/
def claimDrawableOrder : List FieldStep :=
  [FieldStep.stateSetRef, FieldStep.condBound48,
   FieldStep.objFlag, FieldStep.objFlag, FieldStep.objFlag,
   FieldStep.objFlag, FieldStep.objFlag, FieldStep.objFlag,
   FieldStep.boolField, FieldStep.boolField, FieldStep.boolField]

/-- The Drawable-layer order of the source: state set, bound,
compute-bounding-box and shape callbacks, the three display-list
booleans, then the update/event/cull/draw callbacks. -/
def codeDrawableOrder : List FieldStep :=
  [FieldStep.stateSetRef, FieldStep.condBound48,
   FieldStep.objFlag, FieldStep.objFlag,
   FieldStep.boolField, FieldStep.boolField, FieldStep.boolField,
   FieldStep.objFlag, FieldStep.objFlag, FieldStep.objFlag, FieldStep.objFlag]

/-! ### A register-before-fields dispatcher, from the spec's wording

The specification's lifecycle sentence says every entity is "inserted
into the appropriate registry before their fields are parsed (so that
self-reference would resolve)".  `readObjectSpecF` follows those words
for the object dispatcher: it allocates a placeholder instance, installs
it under its identity first, then runs the field readers and overwrites
the placeholder.  It exists only to be compared against the source's
`readObjectF`, which installs the instance after the field readers. -/

/-- Placeholder body for a class tag (spec-side helper). -/
def bodyDefaultFor (cn : List UInt8) : ObjBody :=
  if cn = lit "osg::PagedLOD" then ObjBody.pagedLOD {}
  else if cn = lit "osg::Group" then ObjBody.group {}
  else if cn = lit "osg::Geode" then ObjBody.geode {}
  else if cn = lit "osg::Geometry" then ObjBody.geometry {}
  else if cn = lit "osg::StateSet" then ObjBody.stateSet {}
  else if cn = lit "osg::Material" then ObjBody.material {}
  else if cn = lit "osg::Texture2D" then ObjBody.texture2D {}
  else if cn = lit "osg::DrawElementsUInt" then ObjBody.drawElementsUInt {}
  else if cn = lit "osg::Vec3Array" then ObjBody.vec3Array vec3ArrD
  else if cn = lit "osg::Vec2Array" then ObjBody.vec2Array vec2ArrD
  else ObjBody.defaultUDC

/-- Modelled from the spec: the dispatcher with registration moved
before the field readers, per the lifecycle sentence quoted above.
Identical to `readObjectF` except for the registration point. -/
def readObjectSpecStep (rec : M (Option Nat)) : M (Option Nat) := do
  let cn ← readStr
  if cn = [] then pure none
  else do
    readBeginBracket
    let u ← readU32
    match ← findObj u with
    | some i => pure (some i)
    | none => do
      let inst ← alloc { uid := u, body := bodyDefaultFor cn }
      insertObj u inst
      let obj ← dispatchClass rec cn
      readEndBracket
      let _ ← setHeap inst { obj with uid := u }
      pure (some inst)

/-- Modelled from the spec: the fueled register-before-fields
dispatcher. -/
def readObjectSpecF : Nat → M (Option Nat) := fun fuel =>
  Nat.rec (motive := fun _ => M (Option Nat)) (throwCur ErrMsg.outOfFuel)
    (fun _ ih => readObjectSpecStep ih) fuel

/-- Modelled from the spec: `Data::read` over the register-before-fields
dispatcher. -/
def dataReadSpec (buf : List UInt8) : Option ParseOut :=
  match (do
      readHeader
      readObjectSpecF (buf.length + 1)) { buf := buf } with
  | Except.error _ => none
  | Except.ok (r, s) =>
    match r with
    | some root => if ended s then some ⟨root, s⟩ else none
    | none => none

/-! ### Observers over parse results -/

/-- Body of heap instance `i`. -/
def heapBody (s : St) (i : Nat) : ObjBody := (s.heap.getD i default).body

/-- Unique id recorded on heap instance `i`. -/
def heapUid (s : St) (i : Nat) : Nat := (s.heap.getD i default).uid

/-- Children list of a Group/PagedLOD instance. -/
def childrenOf (s : St) (i : Nat) : List (Option Nat) :=
  match heapBody s i with
  | ObjBody.group g => g.children
  | ObjBody.pagedLOD p => p.children
  | _ => []

/-- Image reference of a Texture2D instance. -/
def imageRefOf (s : St) (i : Nat) : Option Nat :=
  match heapBody s i with
  | ObjBody.texture2D t => t.image
  | _ => none

/-- End offset of the zero-copy slice recorded in a body (0 when the
body holds no slice or a null slice). -/
def bodySliceEnd : ObjBody → Nat
  | ObjBody.vec2Array a | ObjBody.vec3Array a | ObjBody.vec4Array a =>
    match a.elementData with
    | some st => st + a.elementCount * a.elementSize
    | none => 0
  | ObjBody.drawElementsUInt p | ObjBody.primitiveSet p =>
    match p.indexData with
    | some st => st + p.indexCount * 4
    | none => 0
  | ObjBody.image i => i.dataStart + i.dataLength
  | _ => 0

/-- Heap invariant: every recorded slice ends at or before the cursor. -/
def heapOk (s : St) : Prop := ∀ o ∈ s.heap, bodySliceEnd o.body ≤ s.pos

/-- Whether an Array body's element slice of `elementCount * elementSize`
bytes lies entirely within a buffer of length `len`. -/
def arrSliceOk (len : Nat) : ObjBody → Bool
  | ObjBody.vec2Array a | ObjBody.vec3Array a | ObjBody.vec4Array a =>
    match a.elementData with
    | some st => decide (st + a.elementCount * a.elementSize ≤ len)
    | none => true
  | _ => true

/-- Whether a DrawElementsUInt body's index slice of `indexCount * 4`
bytes lies entirely within a buffer of length `len`. -/
def deuSliceOk (len : Nat) : ObjBody → Bool
  | ObjBody.drawElementsUInt p =>
    match p.indexData with
    | some st => decide (st + p.indexCount * 4 ≤ len)
    | none => true
  | _ => true

/-! ### Concrete byte buffers for the end-to-end tests -/

/-- Little-endian bytes of a 32-bit value. -/
def u32b (n : Nat) : List UInt8 :=
  [UInt8.ofNat n, UInt8.ofNat (n / 256), UInt8.ofNat (n / 65536), UInt8.ofNat (n / 16777216)]

/-- Little-endian bytes of a 64-bit value. -/
def u64b (n : Nat) : List UInt8 := u32b (n % 2 ^ 32) ++ u32b (n / 2 ^ 32)

/-- Serialized string: int32 length then ASCII bytes. -/
def strb (s : String) : List UInt8 := u32b s.length ++ lit s

/-- Serialized header: magic, kind, version, attributes, compressor "0". -/
def headerB (kind version attrs : Nat) : List UInt8 :=
  u64b 0x1AFB45456C910EA1 ++ u32b kind ++ u32b version ++ u32b attrs ++ strb "0"

/-- Object field layer bytes at version >= 77: empty name, dataVariance,
no user-data container. -/
def objFieldsB : List UInt8 := strb "" ++ u32b 0 ++ [0]

/-- Node field layer bytes at version >= 77: no bound, four absent
callbacks, cullingActive 0, nodeMask 0, no state set. -/
def nodeFieldsB : List UInt8 := [0] ++ [0, 0, 0, 0] ++ [0] ++ u32b 0 ++ [0]

/-- Drawable field layer bytes: no state set, no bound, two absent
callbacks, three display-list booleans 0, four absent callbacks. -/
def drawableFieldsB : List UInt8 := [0, 0] ++ [0, 0] ++ [0, 0, 0] ++ [0, 0, 0, 0]

/-- Minimal StateSet field layer bytes at version 100: five absent
blocks, renderingHint 0, renderBinMode 0, binNumber 0, empty binName,
nestRenderBins 0, two absent callback objects. -/
def stateSetFieldsB : List UInt8 :=
  [0, 0, 0, 0, 0] ++ u32b 0 ++ u32b 0 ++ u32b 0 ++ strb "" ++ [0] ++ [0, 0]

/-- A scene whose root Group (uniqueId 5) contains, as its only child, a
second full Group payload that reuses uniqueId 5.  Both occurrences of
identity 5 parse successfully; the parse succeeds. -/
def bufDupId : List UInt8 :=
  headerB 1 100 0 ++ strb "osg::Group" ++ u32b 5 ++ objFieldsB ++ nodeFieldsB ++
    [1] ++ u32b 1 ++
    (strb "osg::Group" ++ u32b 5 ++ objFieldsB ++ nodeFieldsB ++ [0])

/-- The spec's empty-scene buffer: header with kind 1, version 100,
attributes 4 (binary brackets), compressor "0", then a bracket word 0
and an empty class string. -/
def bufEmptyScene : List UInt8 := headerB 1 100 4 ++ u32b 0 ++ u32b 0

/-- A scene whose root Group (uniqueId 7) contains, as its only child, a
bare back-reference to identity 7 (class name and identity only, no
payload), ending exactly there.  Under register-before-fields semantics
this resolves to the root itself and the parse succeeds; the source
re-parses and runs off the end of the buffer. -/
def bufSelfRef : List UInt8 :=
  headerB 1 100 0 ++ strb "osg::Group" ++ u32b 7 ++ objFieldsB ++ nodeFieldsB ++
    [1] ++ u32b 1 ++ strb "osg::Group" ++ u32b 7

/-- A scene whose root is a Vec3Array (uniqueId 3) with binding 4,
normalize 0, preserveDataType 0, elementCount 2 and 24 payload bytes. -/
def bufVec3Root : List UInt8 :=
  headerB 1 100 0 ++ strb "osg::Vec3Array" ++ u32b 3 ++ objFieldsB ++
    u32b 4 ++ [0, 0] ++ u32b 2 ++ List.replicate 24 0

/-- A scene whose root Group (uniqueId 1) contains one child that is an
osg::StateSet (uniqueId 2) - not a Node. -/
def bufNonNodeChild : List UInt8 :=
  headerB 1 100 0 ++ strb "osg::Group" ++ u32b 1 ++ objFieldsB ++ nodeFieldsB ++
    [1] ++ u32b 1 ++
    (strb "osg::StateSet" ++ u32b 2 ++ objFieldsB ++ stateSetFieldsB)

/-- A root Vec3Array whose declared elementCount is 1000000 with no
payload bytes behind it: the element skip runs far past the buffer end
without an error; the parse then fails only because `ended()` is false. -/
def bufOvershootEnd : List UInt8 :=
  headerB 1 100 0 ++ strb "osg::Vec3Array" ++ u32b 3 ++ objFieldsB ++
    u32b 4 ++ [0, 0] ++ u32b 1000000

/-- The Vec3Array element-skip followed by the next primitive read of
the surrounding layer, as one composite run: the unchecked skip moves
the cursor far past the buffer end without an error, and the following
one-byte read then throws "read beyond data length" at the overshot
offset. -/
def overshootThenRead (obj : ArrD) : M ArrD := do
  let o ← fieldsVec3Array obj
  let _ ← readBool
  pure o

/-- A state for the overshoot demonstration: 12-byte buffer, cursor at
offset 10. -/
def stOvershoot : St := { buf := List.replicate 12 0, pos := 10, version := 112 }

/-- A state exercising the Drawable field layer: the three display-list
boolean bytes sit where the specification's order would instead attempt
callback object reads. -/
def stDrawable : St := { buf := [0, 0, 0, 0, 1, 1, 1, 0, 0, 0, 0], version := 100 }

/-- Result observer for runs of the header-plus-root phase: reader
error, or root reference with the `ended()` flag and final offset. -/
def runObs (buf : List UInt8) : Option (Option Nat × Bool × Nat) :=
  match runParse buf with
  | Except.error _ => none
  | Except.ok (r, s) => some (r, ended s, s.pos)

/-- A state for the bracket-skip demonstration: 20-byte buffer, cursor
at 18, binary brackets enabled at version 100 (4-byte prefix). -/
def stBracket : St := { buf := List.replicate 20 0, pos := 18, version := 100, bb := true }

/-- A dispatcher state sitting on a bare back-reference: class name
"osg::Group" then uniqueId 9, with identity 9 already registered as
instance 3. -/
def cachedStC1 : St :=
  { buf := strb "osg::Group" ++ u32b 9, version := 100, objects := [(9, 3)] }

/-- Reader states along the `bufDupId` parse (offset `p`, version 100,
empty registries). -/
def dupS (p : Nat) : St := { buf := bufDupId, pos := p, version := 100 }

/-- The instance the nested (second) occurrence of uniqueId 5 in
`bufDupId` builds: a fresh childless Group carrying uniqueId 5. -/
def hInnerC1 : HObj := { uid := 5, body := ObjBody.group {} }

/-- The root instance of the `bufDupId` parse: a Group with uniqueId 5
whose single child is heap instance 0. -/
def hOuterC1 : HObj := { uid := 5, body := ObjBody.group { children := [some 0] } }

/-- Reader states along the `bufDupId` parse after the nested object has
been allocated (instance 0) and registered under identity 5. -/
def dupT (p : Nat) : St :=
  { buf := bufDupId, pos := p, version := 100, objects := [(5, 0)], heap := [hInnerC1] }

/-- The final reader state of the `bufDupId` parse: two distinct Group
instances, both with uniqueId 5, identity 5 now bound to the root. -/
def sFinC1 : St :=
  { buf := bufDupId, pos := 107, version := 100, objects := [(5, 1), (5, 0)],
    heap := [hInnerC1, hOuterC1] }

/-- A child-slot payload that is an osg::StateSet (uniqueId 2) - not a
Node - as it would appear inside a Group's children block. -/
def bufC9 : List UInt8 := strb "osg::StateSet" ++ u32b 2 ++ objFieldsB ++ stateSetFieldsB

/-- Reader states along the `bufC9` child read (offset `p`, version
100). -/
def c9S (p : Nat) : St := { buf := bufC9, pos := p, version := 100 }

/-- The spec's RangedDataList example block: fsize 2 with filenames
"a.osgb" and "b.osgb", psize 3 with priority pairs (0.0, 1.0),
(0.5, 1.5), (0.25, 1.25) as little-endian float bytes. -/
def bufC6 : List UInt8 :=
  u32b 2 ++ strb "a.osgb" ++ strb "b.osgb" ++ u32b 3 ++
    [0, 0, 0, 0, 0, 0, 128, 63] ++ [0, 0, 0, 63, 0, 0, 192, 63] ++
    [0, 0, 128, 62, 0, 0, 160, 63]

/-- The priority pairs of `bufC6` as raw float bit patterns. -/
def pairsC6 : List (Nat × Nat) :=
  [(0, 0x3F800000), (0x3F000000, 0x3FC00000), (0x3E800000, 0x3FA00000)]

/-- The resulting rangeDataList of the `bufC6` block: three entries, the
third with an empty filename. -/
def rdC6 : List RangeData :=
  [{ filename := lit "a.osgb", priorityOffset := 0, priorityScale := 0x3F800000 },
   { filename := lit "b.osgb", priorityOffset := 0x3F000000, priorityScale := 0x3FC00000 },
   { filename := [], priorityOffset := 0x3E800000, priorityScale := 0x3FA00000 }]

/-- Reader states along the `bufC6` block (offset `p`). -/
def c6S (p : Nat) : St := { buf := bufC6, pos := p }

/-- The priority-pair loop body of the RangedDataList block. -/
def act2C6 : M (Nat × Nat) := do
  let po ← readF32
  let ps ← readF32
  pure (po, ps)

/-- The priority-pair store of the RangedDataList block. -/
def upd2C6 : Nat × Nat → RangeData → RangeData := fun a e =>
  { e with priorityOffset := a.1, priorityScale := a.2 }

/-- First entry of `rdC6`. -/
def r1C6 : RangeData :=
  { filename := lit "a.osgb", priorityOffset := 0, priorityScale := 0x3F800000 }

/-- Second entry of `rdC6`. -/
def r2C6 : RangeData :=
  { filename := lit "b.osgb", priorityOffset := 0x3F000000, priorityScale := 0x3FC00000 }

/-- Third entry of `rdC6` (filename left at its default). -/
def r3C6 : RangeData :=
  { filename := [], priorityOffset := 0x3E800000, priorityScale := 0x3FA00000 }

/-- Reader states along the `bufSelfRef` parse (offset `p`, version 100,
empty registries). -/
def selS (p : Nat) : St := { buf := bufSelfRef, pos := p, version := 100 }

/-- The placeholder instance the spec-modelled dispatcher allocates and
registers for identity 7 before the root's fields run. -/
def hPlaceC3 : HObj := { uid := 7, body := ObjBody.group {} }

/-- Reader states along the spec-modelled `bufSelfRef` parse after the
placeholder root has been registered under identity 7. -/
def selT (p : Nat) : St :=
  { buf := bufSelfRef, pos := p, version := 100, objects := [(7, 0)], heap := [hPlaceC3] }

/-- The final state of the spec-modelled `bufSelfRef` parse: one Group
instance whose only child is itself. -/
def specFinC3 : St :=
  { buf := bufSelfRef, pos := 86, version := 100, objects := [(7, 0)],
    heap := [{ uid := 7, body := ObjBody.group { children := [some 0] } }] }

/-- A complete childless Group payload (identity 4) for exercising the
dispatcher's registration point. -/
def wObjC3 : List UInt8 := strb "osg::Group" ++ u32b 4 ++ objFieldsB ++ nodeFieldsB ++ [0]

/-- An inline-image prefix: flag 1, class name "im", identity 9. -/
def wImgC3 : List UInt8 := [1] ++ strb "im" ++ u32b 9

/-- An inline-array prefix: flag 1, identity 3, type tag 16 (Vec3). -/
def wArrC3 : List UInt8 := [1] ++ u32b 3 ++ [16, 0, 0, 0]

/-- The state after running the child loop once over `bufC9`: all 54
payload bytes consumed, the StateSet parsed, allocated and registered
under identity 2, even though the child slot itself stays null. -/
def stC9Fin : St :=
  { buf := bufC9, pos := 54, version := 100, objects := [(2, 0)],
    heap := [{ uid := 2, body := ObjBody.stateSet {} }] }

/-! ## Proof toolkit: monad unfolding and inversion lemmas -/

theorem bindM_def (x : M α) (f : α → M β) : (x >>= f) = M.bind x f := rfl

theorem pureM_def (a : α) : (pure a : M α) = M.pure a := rfl

theorem bind_eq_of_ok {x : M α} {f : α → M β} {s : St} {a : α} {s1 : St}
    (h : x s = Except.ok (a, s1)) : M.bind x f s = f a s1 := by
  unfold M.bind
  rw [h]

theorem bind_eq_of_error {x : M α} {f : α → M β} {s : St} {e : Err}
    (h : x s = Except.error e) : M.bind x f s = Except.error e := by
  unfold M.bind
  rw [h]

theorem bind_ok {x : M α} {f : α → M β} {s : St} {b : β} {s2 : St}
    (h : M.bind x f s = Except.ok (b, s2)) :
    ∃ a s1, x s = Except.ok (a, s1) ∧ f a s1 = Except.ok (b, s2) := by
  unfold M.bind at h
  revert h
  cases x s with
  | error e =>
    intro h
    cases h
  | ok p =>
    obtain ⟨a, s1⟩ := p
    intro h
    exact ⟨a, s1, rfl, h⟩

theorem readBytes_ok {n : Nat} {s : St} {v : List UInt8} {s' : St}
    (h : readBytes n s = Except.ok (v, s')) :
    s' = { s with pos := s.pos + n } ∧ s.pos + n ≤ s.buf.length := by
  unfold readBytes at h
  split at h
  · cases h
  · cases h
    constructor
    · rfl
    · omega

theorem readSkip_ok {n : Nat} {s : St} {s' : St}
    (h : readSkip n s = Except.ok ((), s')) :
    s' = { s with pos := s.pos + n } ∧ s.pos + n ≤ s.buf.length := by
  unfold readSkip at h
  split at h
  · cases h
  · cases h
    constructor
    · rfl
    · omega

theorem skipN_ok {n : Nat} {s : St} {v : Unit} {s' : St}
    (h : skipN n s = Except.ok (v, s')) :
    s' = { s with pos := s.pos + n } := by
  unfold skipN at h
  cases h
  rfl

theorem readBool_ok {s : St} {v : Bool} {s' : St}
    (h : readBool s = Except.ok (v, s')) :
    s' = { s with pos := s.pos + 1 } ∧ s.pos + 1 ≤ s.buf.length := by
  unfold readBool at h
  split at h
  · cases h
  · split at h
    · cases h
    · cases h
      constructor
      · rfl
      · omega

theorem readU32_ok {s : St} {v : Nat} {s' : St}
    (h : readU32 s = Except.ok (v, s')) :
    s' = { s with pos := s.pos + 4 } ∧ s.pos + 4 ≤ s.buf.length := by
  unfold readU32 at h
  obtain ⟨a, s1, h1, h2⟩ := bind_ok h
  obtain ⟨rfl, hle⟩ := readBytes_ok h1
  cases h2
  exact ⟨rfl, hle⟩

theorem readU64_ok {s : St} {v : Nat} {s' : St}
    (h : readU64 s = Except.ok (v, s')) :
    s' = { s with pos := s.pos + 8 } ∧ s.pos + 8 ≤ s.buf.length := by
  unfold readU64 at h
  obtain ⟨a, s1, h1, h2⟩ := bind_ok h
  obtain ⟨rfl, hle⟩ := readBytes_ok h1
  cases h2
  exact ⟨rfl, hle⟩

theorem readI32_ok {s : St} {v : Int} {s' : St}
    (h : readI32 s = Except.ok (v, s')) :
    s' = { s with pos := s.pos + 4 } ∧ s.pos + 4 ≤ s.buf.length := by
  unfold readI32 at h
  obtain ⟨a, s1, h1, h2⟩ := bind_ok h
  obtain ⟨rfl, hle⟩ := readU32_ok h1
  cases h2
  exact ⟨rfl, hle⟩

theorem readF32_ok {s : St} {v : Nat} {s' : St}
    (h : readF32 s = Except.ok (v, s')) :
    s' = { s with pos := s.pos + 4 } ∧ s.pos + 4 ≤ s.buf.length := readU32_ok h

theorem readF64_ok {s : St} {v : Nat} {s' : St}
    (h : readF64 s = Except.ok (v, s')) :
    s' = { s with pos := s.pos + 8 } ∧ s.pos + 8 ≤ s.buf.length := readU64_ok h

theorem readVec3d_ok {s : St} {v : Nat × Nat × Nat} {s' : St}
    (h : readVec3d s = Except.ok (v, s')) :
    s' = { s with pos := s.pos + 24 } ∧ s.pos + 24 ≤ s.buf.length := by
  unfold readVec3d at h
  split at h
  · cases h
  · cases h
    constructor
    · rfl
    · omega

theorem readVec4f_ok {s : St} {v : Nat × Nat × Nat × Nat} {s' : St}
    (h : readVec4f s = Except.ok (v, s')) :
    s' = { s with pos := s.pos + 16 } ∧ s.pos + 16 ≤ s.buf.length := by
  unfold readVec4f at h
  split at h
  · cases h
  · cases h
    constructor
    · rfl
    · omega

theorem readStr_ok {s : St} {v : List UInt8} {s' : St}
    (h : readStr s = Except.ok (v, s')) :
    ∃ k, s' = { s with pos := s.pos + 4 + k } ∧ s.pos + 4 + k ≤ s.buf.length := by
  unfold readStr at h
  obtain ⟨a, s1, h1, h2⟩ := bind_ok h
  obtain ⟨rfl, hle1⟩ := readI32_ok h1
  split at h2
  · cases h2
  · obtain ⟨rfl, hle2⟩ := readBytes_ok h2
    exact ⟨a.toNat, rfl, by simpa using hle2⟩

theorem readBeginBracket_ok {s : St} {v : Unit} {s' : St}
    (h : readBeginBracket s = Except.ok (v, s')) :
    s' = { s with pos := s.pos + (if s.bb then (if 148 < s.version then 8 else 4) else 0) } := by
  unfold readBeginBracket at h
  by_cases hb : s.bb
  · by_cases hv : 148 < s.version
    · rw [if_pos hb, if_pos hv] at h
      cases h
      rw [if_pos hb, if_pos hv]
    · rw [if_pos hb, if_neg hv] at h
      cases h
      rw [if_pos hb, if_neg hv]
  · rw [if_neg hb] at h
    cases h
    rw [if_neg hb]
    rfl

theorem getPos_ok {s : St} {v : Nat} {s' : St}
    (h : getPos s = Except.ok (v, s')) : v = s.pos ∧ s' = s := by
  cases h
  exact ⟨rfl, rfl⟩

theorem getVersion_ok {s : St} {v : Nat} {s' : St}
    (h : getVersion s = Except.ok (v, s')) : v = s.version ∧ s' = s := by
  cases h
  exact ⟨rfl, rfl⟩

theorem findObj_ok {u : Nat} {s : St} {v : Option Nat} {s' : St}
    (h : findObj u s = Except.ok (v, s')) : v = alookup s.objects u ∧ s' = s := by
  cases h
  exact ⟨rfl, rfl⟩

theorem castIf_ok {p : ObjBody → Bool} {r : Option Nat} {s : St} {v : Option Nat} {s' : St}
    (h : castIf p r s = Except.ok (v, s')) : s' = s := by
  cases h
  rfl

theorem pure_ok {a : α} {s : St} {v : α} {s' : St}
    (h : M.pure a s = Except.ok (v, s')) : v = a ∧ s' = s := by
  cases h
  exact ⟨rfl, rfl⟩

/-! ## Cursor monotonicity and the slice invariant -/

/-- A reader step is well behaved when, on success, the cursor does not
move backwards, the buffer is unchanged, and every heap slice that ended
at or before the old cursor still ends at or before the new cursor
(`heapOk` is preserved). -/
def stepOK (x : M α) : Prop := ∀ s a s', x s = Except.ok (a, s') →
  s.pos ≤ s'.pos ∧ s'.buf = s.buf ∧ (heapOk s → heapOk s')

theorem stepOK_bind {x : M α} {f : α → M β} (hx : stepOK x) (hf : ∀ a, stepOK (f a)) :
    stepOK (M.bind x f) := by
  intro s b s2 h
  obtain ⟨a, s1, h1, h2⟩ := bind_ok h
  have p1 := hx s a s1 h1
  have p2 := hf a s1 b s2 h2
  exact ⟨le_trans p1.1 p2.1, p2.2.1.trans p1.2.1, fun hh => p2.2.2 (p1.2.2 hh)⟩

theorem stepOK_bind' {x : M α} {f : α → M β} (hx : stepOK x) (hf : ∀ a, stepOK (f a)) :
    stepOK (x >>= f) := stepOK_bind hx hf

theorem stepOK_pure (a : α) : stepOK (M.pure a) := by
  intro s v s' h
  cases h
  exact ⟨le_refl _, rfl, id⟩

theorem stepOK_pure' (a : α) : stepOK (pure a : M α) := stepOK_pure a

theorem stepOK_throwCur (m : ErrMsg) : stepOK (throwCur m : M α) := by
  intro s v s' h
  cases h

theorem stepOK_ite {c : Prop} [Decidable c] {x y : M α}
    (hx : stepOK x) (hy : stepOK y) : stepOK (if c then x else y) := by
  split
  · exact hx
  · exact hy

/-- Advancing the cursor preserves `heapOk`. -/
theorem heapOk_advance {s : St} {n : Nat} (h : heapOk s) :
    heapOk { s with pos := s.pos + n } := by
  intro o ho
  exact le_trans (h o ho) (Nat.le_add_right _ _)

/-- Changing only registry fields preserves `heapOk`. -/
theorem heapOk_of_eq {s s' : St} (h : heapOk s) (hh : s'.heap = s.heap)
    (hp : s.pos ≤ s'.pos) : heapOk s' := by
  intro o ho
  rw [hh] at ho
  exact le_trans (h o ho) hp

/-- Most primitives only advance the cursor, keeping buffer and heap. -/
theorem stepOK_of_advance {x : M α}
    (hx : ∀ s a s', x s = Except.ok (a, s') →
      s.pos ≤ s'.pos ∧ s'.buf = s.buf ∧ s'.heap = s.heap) : stepOK x := by
  intro s a s' h
  obtain ⟨h1, h2, h3⟩ := hx s a s' h
  exact ⟨h1, h2, fun hh => heapOk_of_eq hh h3 h1⟩

theorem stepOK_readBytes (n : Nat) : stepOK (readBytes n) :=
  stepOK_of_advance fun s a s' h => by
    obtain ⟨rfl, _⟩ := readBytes_ok h
    exact ⟨Nat.le_add_right _ _, rfl, rfl⟩

theorem stepOK_readSkip (n : Nat) : stepOK (readSkip n) :=
  stepOK_of_advance fun s a s' h => by
    obtain ⟨rfl, _⟩ := readSkip_ok h
    exact ⟨Nat.le_add_right _ _, rfl, rfl⟩

theorem stepOK_skipN (n : Nat) : stepOK (skipN n) :=
  stepOK_of_advance fun s a s' h => by
    rw [skipN_ok h]
    exact ⟨Nat.le_add_right _ _, rfl, rfl⟩

theorem stepOK_readBool : stepOK readBool :=
  stepOK_of_advance fun s a s' h => by
    obtain ⟨rfl, _⟩ := readBool_ok h
    exact ⟨Nat.le_add_right _ _, rfl, rfl⟩

theorem stepOK_readU32 : stepOK readU32 :=
  stepOK_of_advance fun s a s' h => by
    obtain ⟨rfl, _⟩ := readU32_ok h
    exact ⟨Nat.le_add_right _ _, rfl, rfl⟩

theorem stepOK_readU64 : stepOK readU64 :=
  stepOK_of_advance fun s a s' h => by
    obtain ⟨rfl, _⟩ := readU64_ok h
    exact ⟨Nat.le_add_right _ _, rfl, rfl⟩

theorem stepOK_readI32 : stepOK readI32 :=
  stepOK_of_advance fun s a s' h => by
    obtain ⟨rfl, _⟩ := readI32_ok h
    exact ⟨Nat.le_add_right _ _, rfl, rfl⟩

theorem stepOK_readF32 : stepOK readF32 := stepOK_readU32

theorem stepOK_readF64 : stepOK readF64 := stepOK_readU64

theorem stepOK_readVec3d : stepOK readVec3d :=
  stepOK_of_advance fun s a s' h => by
    obtain ⟨rfl, _⟩ := readVec3d_ok h
    exact ⟨Nat.le_add_right _ _, rfl, rfl⟩

theorem stepOK_readVec4f : stepOK readVec4f :=
  stepOK_of_advance fun s a s' h => by
    obtain ⟨rfl, _⟩ := readVec4f_ok h
    exact ⟨Nat.le_add_right _ _, rfl, rfl⟩

theorem stepOK_readStr : stepOK readStr :=
  stepOK_of_advance fun s a s' h => by
    obtain ⟨k, rfl, _⟩ := readStr_ok h
    refine ⟨?_, rfl, rfl⟩
    show s.pos ≤ s.pos + 4 + k
    omega

theorem stepOK_readBeginBracket : stepOK readBeginBracket :=
  stepOK_of_advance fun s a s' h => by
    rw [readBeginBracket_ok h]
    exact ⟨Nat.le_add_right _ _, rfl, rfl⟩

theorem stepOK_readEndBracket : stepOK readEndBracket := stepOK_pure ()

theorem stepOK_getPos : stepOK getPos := by
  intro s v s' h
  cases h
  exact ⟨le_refl _, rfl, id⟩

theorem stepOK_getVersion : stepOK getVersion := by
  intro s v s' h
  cases h
  exact ⟨le_refl _, rfl, id⟩

theorem stepOK_setVersion (v : Nat) : stepOK (setVersion v) := by
  intro s a s' h
  cases h
  exact ⟨le_refl _, rfl, fun hh o ho => hh o ho⟩

theorem stepOK_setBB (b : Bool) : stepOK (setBB b) := by
  intro s a s' h
  cases h
  exact ⟨le_refl _, rfl, fun hh o ho => hh o ho⟩

theorem stepOK_findObj (u : Nat) : stepOK (findObj u) := by
  intro s v s' h
  cases h
  exact ⟨le_refl _, rfl, id⟩

theorem stepOK_findImg (u : Nat) : stepOK (findImg u) := by
  intro s v s' h
  cases h
  exact ⟨le_refl _, rfl, id⟩

theorem stepOK_findArr (u : Nat) : stepOK (findArr u) := by
  intro s v s' h
  cases h
  exact ⟨le_refl _, rfl, id⟩

theorem stepOK_insertObj (u i : Nat) : stepOK (insertObj u i) := by
  intro s v s' h
  cases h
  exact ⟨le_refl _, rfl, fun hh o ho => hh o ho⟩

theorem stepOK_insertImg (u i : Nat) : stepOK (insertImg u i) := by
  intro s v s' h
  cases h
  exact ⟨le_refl _, rfl, fun hh o ho => hh o ho⟩

theorem stepOK_insertArr (u i : Nat) : stepOK (insertArr u i) := by
  intro s v s' h
  cases h
  exact ⟨le_refl _, rfl, fun hh o ho => hh o ho⟩

theorem stepOK_castIf (p : ObjBody → Bool) (r : Option Nat) : stepOK (castIf p r) := by
  intro s v s' h
  cases h
  exact ⟨le_refl _, rfl, id⟩

/-- Allocation of an object with no recorded slice. -/
theorem stepOK_alloc_zero {o : HObj} (hz : bodySliceEnd o.body = 0) : stepOK (alloc o) := by
  intro s v s' h
  cases h
  refine ⟨le_refl _, rfl, fun hh o2 ho2 => ?_⟩
  rcases List.mem_append.1 ho2 with h1 | h1
  · exact hh o2 h1
  · simp at h1
    rw [h1, hz]
    omega

theorem alloc_ok {o : HObj} {s : St} {v : Nat} {s' : St}
    (h : alloc o s = Except.ok (v, s')) :
    v = s.heap.length ∧ s' = { s with heap := s.heap ++ [o] } := by
  cases h
  exact ⟨rfl, rfl⟩

theorem setHeap_ok {i : Nat} {o : HObj} {s : St} {v : HObj} {s' : St}
    (h : setHeap i o s = Except.ok (v, s')) :
    v = o ∧ s' = { s with heap := s.heap.set i o } := by
  cases h
  exact ⟨rfl, rfl⟩

theorem insertObj_ok {u i : Nat} {s : St} {v : Unit} {s' : St}
    (h : insertObj u i s = Except.ok (v, s')) :
    s' = { s with objects := ainsert s.objects u i } := by
  cases h
  rfl

/-- Pushing an object whose slice already ends at or before the cursor
preserves the heap invariant. -/
theorem heapOk_push {s : St} {o : HObj} (hh : heapOk s)
    (hb : bodySliceEnd o.body ≤ s.pos) :
    heapOk { s with heap := s.heap ++ [o] } := by
  intro o2 ho2
  rcases List.mem_append.1 ho2 with h1 | h1
  · exact hh o2 h1
  · simp at h1
    rw [h1]
    exact hb

/-- The binding/normalize store keeps every slice unchanged. -/
theorem sliceEnd_withArr_bindNorm (b : ObjBody) (bd : Nat) (nz : Bool) :
    bodySliceEnd (withArr (bindNormUpd bd nz) b) = bodySliceEnd b := by
  cases b <;> rfl

/-- The payload store bounds the new slice end by `p + c * elementSize`
or keeps the slice unchanged (non-array bodies). -/
theorem sliceEnd_withArr_payload (b : ObjBody) (c p : Nat) :
    bodySliceEnd (withArr (payloadUpd c p) b)
      ≤ p + c * (((arrOf b).map ArrD.elementSize).getD 0) ∨
    bodySliceEnd (withArr (payloadUpd c p) b) = bodySliceEnd b := by
  cases b <;> try (right; rfl)
  all_goals
    left
    by_cases hc : 0 < c <;>
      simp [withArr, payloadUpd, bodySliceEnd, arrOf, hc]

/-- An element of the heap read back with `getD` is bounded like any
heap element (out-of-range reads give the sliceless default). -/
theorem sliceEnd_getD_le {s : St} (hh : heapOk s) (i : Nat) :
    bodySliceEnd (s.heap.getD i default).body ≤ s.pos := by
  by_cases hi : i < s.heap.length
  · exact hh _ (List.getD_eq_getElem s.heap default hi ▸ List.getElem_mem hi)
  · rw [List.getD_eq_default s.heap default (by omega)]
    show (0 : Nat) ≤ s.pos
    omega

theorem stepOK_arrFinish (i bd : Nat) (nz : Bool) : stepOK (arrFinish i bd nz) := by
  intro s v s' h
  unfold arrFinish at h
  cases h
  refine ⟨le_refl _, rfl, fun hh o2 ho2 => ?_⟩
  rcases List.mem_or_eq_of_mem_set ho2 with h1 | h1
  · exact hh o2 h1
  · rw [h1]
    show bodySliceEnd (withArr (bindNormUpd bd nz) (s.heap.getD i default).body) ≤ s.pos
    rw [sliceEnd_withArr_bindNorm]
    exact sliceEnd_getD_le hh i

theorem stepOK_arrPayload (i c : Nat) : stepOK (arrPayload i c) := by
  intro s v s' h
  unfold arrPayload at h
  cases h
  refine ⟨Nat.le_add_right _ _, rfl, fun hh o2 ho2 => ?_⟩
  show bodySliceEnd o2.body ≤
    s.pos + c * (((arrOf (s.heap.getD i default).body).map ArrD.elementSize).getD 0)
  rcases List.mem_or_eq_of_mem_set ho2 with h1 | h1
  · exact le_trans (hh o2 h1) (Nat.le_add_right _ _)
  · rw [h1]
    rcases sliceEnd_withArr_payload (s.heap.getD i default).body c s.pos with h2 | h2
    · exact h2
    · show bodySliceEnd (withArr (payloadUpd c s.pos) (s.heap.getD i default).body) ≤ _
      rw [h2]
      exact le_trans (sliceEnd_getD_le hh i) (Nat.le_add_right _ _)

theorem stepOK_imgPayload (i n : Nat) : stepOK (imgPayload i n) := by
  intro s v s' h
  unfold imgPayload at h
  cases h
  refine ⟨Nat.le_add_right _ _, rfl, fun hh o2 ho2 => ?_⟩
  show bodySliceEnd o2.body ≤ s.pos + n
  rcases List.mem_or_eq_of_mem_set ho2 with h1 | h1
  · exact le_trans (hh o2 h1) (Nat.le_add_right _ _)
  · rw [h1]
    show bodySliceEnd (ObjBody.image ⟨s.pos, n⟩) ≤ s.pos + n
    simp [bodySliceEnd]

/-! ## Loop lemmas -/

theorem stepOK_repN {act : M α} (hact : stepOK act) : ∀ n, stepOK (repN act n) := by
  intro n
  induction n with
  | zero => exact stepOK_pure []
  | succ n ih =>
    exact stepOK_bind hact fun a => stepOK_bind ih fun t => stepOK_pure _

theorem repN_length {act : M α} :
    ∀ {n : Nat} {s : St} {r : List α} {s' : St},
      repN act n s = Except.ok (r, s') → r.length = n := by
  intro n
  induction n with
  | zero =>
    intro s r s' h
    obtain ⟨rfl, rfl⟩ := pure_ok h
    rfl
  | succ n ih =>
    intro s r s' h
    obtain ⟨a, s1, _, h2⟩ := bind_ok h
    obtain ⟨t, s2, h3, h4⟩ := bind_ok h2
    obtain ⟨rfl, rfl⟩ := pure_ok h4
    simp [ih h3]

theorem stepOK_setN {act : M α} {upd : α → β → β} (hact : stepOK act) :
    ∀ (n i : Nat) (l : List β), stepOK (setN act upd i n l) := by
  intro n
  induction n with
  | zero => intro i l; exact stepOK_pure _
  | succ n ih =>
    intro i l
    exact stepOK_bind hact fun a => stepOK_bind (ih _ _) fun p => stepOK_pure _

/-- Indexed-assignment loops are updated zips: starting from
`pre ++ rest` at index `pre.length`, with `rest` exactly `n` long, the
loop rewrites `rest` to `zipWith upd gs rest` where `gs` are the `n`
values the loop body produced, in order. -/
theorem setN_zip {act : M α} {upd : α → β → β} :
    ∀ {n : Nat} {pre rest : List β} {s : St} {r : List β × List α} {s' : St},
      setN act upd pre.length n (pre ++ rest) s = Except.ok (r, s') →
      rest.length = n →
      r.2.length = n ∧ r.1 = pre ++ List.zipWith upd r.2 rest := by
  intro n
  induction n with
  | zero =>
    intro pre rest s r s' h hl
    obtain ⟨rfl, rfl⟩ := pure_ok h
    have : rest = [] := List.eq_nil_of_length_eq_zero hl
    subst this
    simp
  | succ n ih =>
    intro pre rest s r s' h hl
    cases rest with
    | nil => simp at hl
    | cons b rest2 =>
      obtain ⟨a, s1, h1, h2⟩ := bind_ok h
      obtain ⟨p, s2, h3, h4⟩ := bind_ok h2
      obtain ⟨rfl, rfl⟩ := pure_ok h4
      have hget : (pre ++ b :: rest2)[pre.length]? = some b := by
        rw [List.getElem?_append_right (le_refl _)]
        simp
      rw [hget] at h3
      have hset : (pre ++ b :: rest2).set pre.length (upd a b) = pre ++ upd a b :: rest2 := by
        clear h3 h hl
        induction pre with
        | nil => rfl
        | cons x xs ihp => simpa [List.set] using ihp
      have h3a : setN act upd (pre.length + 1) n
          ((pre ++ b :: rest2).set pre.length (upd a b)) s1 = Except.ok (p, s') := h3
      rw [hset] at h3a
      have hlen2 : rest2.length = n := by simpa using hl
      have e1 : pre.length + 1 = (pre ++ [upd a b]).length := by simp
      have e2 : pre ++ upd a b :: rest2 = (pre ++ [upd a b]) ++ rest2 := by simp
      rw [e1, e2] at h3a
      obtain ⟨hg, hp⟩ := ih h3a hlen2
      constructor
      · simp [hg]
      · simp [hp]

/-! ## stepOK for every reader component -/

/-- The relation `stepOK` asserts between initial and final states. -/
def S3 (s s' : St) : Prop :=
  s.pos ≤ s'.pos ∧ s'.buf = s.buf ∧ (heapOk s → heapOk s')

theorem S3.refl (s : St) : S3 s s := ⟨le_refl _, rfl, id⟩

theorem S3.trans {s1 s2 s3 : St} (h1 : S3 s1 s2) (h2 : S3 s2 s3) : S3 s1 s3 :=
  ⟨le_trans h1.1 h2.1, h2.2.1.trans h1.2.1, fun hh => h2.2.2 (h1.2.2 hh)⟩

theorem S3.of_step {x : M α} (hx : stepOK x) {s : St} {a : α} {s' : St}
    (h : x s = Except.ok (a, s')) : S3 s s' := hx s a s' h

theorem stepOK_mIf (c : Prop) [Decidable c] {x y : M α}
    (hx : stepOK x) (hy : stepOK y) : stepOK (mIf c x y) := by
  unfold mIf
  split
  · exact hx
  · exact hy

theorem stepOK_readObjectIfTrue {rec : M (Option Nat)} (hrec : stepOK rec) :
    stepOK (readObjectIfTrue rec) :=
  stepOK_bind stepOK_readBool fun b => stepOK_ite hrec (stepOK_pure _)

theorem stepOK_fieldsObject {rec : M (Option Nat)} (hrec : stepOK rec) :
    stepOK (fieldsObject rec) := by
  unfold fieldsObject
  refine stepOK_bind stepOK_readStr fun _ => ?_
  refine stepOK_bind stepOK_readU32 fun _ => ?_
  refine stepOK_bind stepOK_getVersion fun v => ?_
  exact stepOK_ite (stepOK_bind hrec fun _ => stepOK_pure _)
    (stepOK_bind (stepOK_readObjectIfTrue hrec) fun _ => stepOK_pure _)

theorem stepOK_fieldsNode {rec : M (Option Nat)} (hrec : stepOK rec) :
    stepOK (fieldsNode rec) := by
  unfold fieldsNode
  refine stepOK_bind stepOK_readBool fun b => ?_
  refine stepOK_bind (stepOK_mIf _ ?_ (stepOK_pure _)) fun _ => ?_
  · refine stepOK_bind stepOK_readBeginBracket fun _ => ?_
    refine stepOK_bind stepOK_readF64 fun _ => ?_
    refine stepOK_bind stepOK_readF64 fun _ => ?_
    refine stepOK_bind stepOK_readF64 fun _ => ?_
    refine stepOK_bind stepOK_readF32 fun _ => ?_
    exact stepOK_readEndBracket
  refine stepOK_bind (stepOK_readObjectIfTrue hrec) fun _ => ?_
  refine stepOK_bind (stepOK_readObjectIfTrue hrec) fun _ => ?_
  refine stepOK_bind (stepOK_readObjectIfTrue hrec) fun _ => ?_
  refine stepOK_bind (stepOK_readObjectIfTrue hrec) fun _ => ?_
  refine stepOK_bind stepOK_readBool fun _ => ?_
  refine stepOK_bind stepOK_readU32 fun _ => ?_
  refine stepOK_bind stepOK_getVersion fun v => ?_
  refine stepOK_bind (stepOK_mIf _ ?_ (stepOK_pure _)) fun _ => ?_
  · refine stepOK_bind stepOK_readBool fun d => ?_
    refine stepOK_mIf _ ?_ (stepOK_pure _)
    refine stepOK_bind stepOK_readU32 fun size => ?_
    refine stepOK_bind stepOK_readBeginBracket fun _ => ?_
    exact stepOK_bind (stepOK_repN stepOK_readStr size) fun _ => stepOK_readEndBracket
  refine stepOK_bind (stepOK_readObjectIfTrue hrec) fun r => ?_
  exact stepOK_castIf _ _

theorem stepOK_readNodeRefs {rec : M (Option Nat)} (hrec : stepOK rec)
    (l : List (Option Nat)) (n : Nat) : stepOK (readNodeRefs rec l n) :=
  stepOK_setN (stepOK_bind hrec fun r => stepOK_castIf _ _) n 0 l

theorem stepOK_readDrawableRefs {rec : M (Option Nat)} (hrec : stepOK rec)
    (l : List (Option Nat)) (n : Nat) : stepOK (readDrawableRefs rec l n) :=
  stepOK_setN (stepOK_bind hrec fun r => stepOK_castIf _ _) n 0 l

theorem stepOK_fieldsGroup {rec : M (Option Nat)} (hrec : stepOK rec) (obj : GroupD) :
    stepOK (fieldsGroup rec obj) := by
  unfold fieldsGroup
  refine stepOK_bind stepOK_readBool fun b => ?_
  split
  · refine stepOK_bind stepOK_readU32 fun size => ?_
    refine stepOK_bind stepOK_readBeginBracket fun _ => ?_
    refine stepOK_bind (stepOK_readNodeRefs hrec _ _) fun p => ?_
    obtain ⟨cs, gs⟩ := p
    exact stepOK_bind stepOK_readEndBracket fun _ => stepOK_pure _
  · exact stepOK_pure _

theorem stepOK_fieldsLOD (obj : PagedD) : stepOK (fieldsLOD obj) := by
  unfold fieldsLOD
  refine stepOK_bind stepOK_readI32 fun cm => ?_
  refine stepOK_bind stepOK_readBool fun b => ?_
  refine stepOK_bind (stepOK_mIf _ ?_ (stepOK_pure _)) fun obj2 => ?_
  · refine stepOK_bind stepOK_readVec3d fun c => ?_
    exact stepOK_bind stepOK_readF64 fun r => stepOK_pure _
  refine stepOK_bind stepOK_readU32 fun _ => ?_
  refine stepOK_bind stepOK_readBool fun b2 => ?_
  split
  · refine stepOK_bind stepOK_readU32 fun size => ?_
    refine stepOK_bind stepOK_readBeginBracket fun _ => ?_
    refine stepOK_bind (stepOK_setN ?_ _ _ _) fun p => ?_
    · exact stepOK_bind stepOK_readF32 fun _ => stepOK_bind stepOK_readF32 fun _ => stepOK_pure _
    obtain ⟨rl, gs⟩ := p
    exact stepOK_bind stepOK_readEndBracket fun _ => stepOK_pure _
  · exact stepOK_pure _

theorem stepOK_readRangedDataList (rd0 : List RangeData) :
    stepOK (readRangedDataList rd0) := by
  unfold readRangedDataList
  refine stepOK_bind stepOK_readU32 fun fsize => ?_
  refine stepOK_bind stepOK_readBeginBracket fun _ => ?_
  refine stepOK_bind (stepOK_setN stepOK_readStr _ _ _) fun p => ?_
  obtain ⟨rd, fnames⟩ := p
  refine stepOK_bind stepOK_readEndBracket fun _ => ?_
  refine stepOK_bind stepOK_readU32 fun psize => ?_
  refine stepOK_bind stepOK_readBeginBracket fun _ => ?_
  refine stepOK_bind (stepOK_setN ?_ _ _ _) fun p2 => ?_
  · exact stepOK_bind stepOK_readF32 fun _ => stepOK_bind stepOK_readF32 fun _ => stepOK_pure _
  obtain ⟨rd2, pairs⟩ := p2
  exact stepOK_bind stepOK_readEndBracket fun _ => stepOK_pure _

theorem stepOK_fieldsPagedLOD {rec : M (Option Nat)} (hrec : stepOK rec) (obj : PagedD) :
    stepOK (fieldsPagedLOD rec obj) := by
  unfold fieldsPagedLOD
  refine stepOK_bind stepOK_readBool fun b => ?_
  refine stepOK_bind (stepOK_mIf _ ?_ (stepOK_pure _)) fun _ => ?_
  · refine stepOK_bind stepOK_readBool fun hdb => ?_
    exact stepOK_mIf _ (stepOK_bind stepOK_readStr fun _ => stepOK_pure _) (stepOK_pure _)
  refine stepOK_bind stepOK_getVersion fun v => ?_
  refine stepOK_bind (stepOK_mIf _ (stepOK_bind stepOK_readU32 fun _ => stepOK_pure _)
    (stepOK_pure _)) fun _ => ?_
  refine stepOK_bind stepOK_readU32 fun _ => ?_
  refine stepOK_bind stepOK_readBool fun _ => ?_
  refine stepOK_bind stepOK_readBool fun b2 => ?_
  refine stepOK_bind (stepOK_mIf _ ?_ (stepOK_pure _)) fun obj2 => ?_
  · refine stepOK_bind (stepOK_readRangedDataList _) fun p => ?_
    obtain ⟨g, rd⟩ := p
    exact stepOK_pure _
  refine stepOK_bind stepOK_readBool fun b3 => ?_
  split
  · refine stepOK_bind stepOK_readU32 fun size => ?_
    refine stepOK_bind stepOK_readBeginBracket fun _ => ?_
    refine stepOK_bind (stepOK_readNodeRefs hrec _ _) fun p => ?_
    obtain ⟨cs, gs⟩ := p
    exact stepOK_bind stepOK_readEndBracket fun _ => stepOK_pure _
  · exact stepOK_pure _

theorem stepOK_fieldsGeode {rec : M (Option Nat)} (hrec : stepOK rec) (obj : GeodeD) :
    stepOK (fieldsGeode rec obj) := by
  unfold fieldsGeode
  refine stepOK_bind stepOK_readBool fun b => ?_
  split
  · refine stepOK_bind stepOK_readU32 fun size => ?_
    refine stepOK_bind stepOK_readBeginBracket fun _ => ?_
    refine stepOK_bind (stepOK_readDrawableRefs hrec _ _) fun p => ?_
    obtain ⟨ds, gs⟩ := p
    exact stepOK_bind stepOK_readEndBracket fun _ => stepOK_pure _
  · exact stepOK_pure _

theorem stepOK_fieldsDrawable {rec : M (Option Nat)} (hrec : stepOK rec) :
    stepOK (fieldsDrawable rec) := by
  unfold fieldsDrawable
  refine stepOK_bind (stepOK_readObjectIfTrue hrec) fun r => ?_
  refine stepOK_bind (stepOK_castIf _ _) fun ss => ?_
  refine stepOK_bind stepOK_readBool fun b => ?_
  refine stepOK_bind (stepOK_mIf _ (stepOK_readSkip 48) (stepOK_pure _)) fun _ => ?_
  refine stepOK_bind (stepOK_readObjectIfTrue hrec) fun _ => ?_
  refine stepOK_bind (stepOK_readObjectIfTrue hrec) fun _ => ?_
  refine stepOK_bind stepOK_readBool fun _ => ?_
  refine stepOK_bind stepOK_readBool fun _ => ?_
  refine stepOK_bind stepOK_readBool fun _ => ?_
  refine stepOK_bind (stepOK_readObjectIfTrue hrec) fun _ => ?_
  refine stepOK_bind (stepOK_readObjectIfTrue hrec) fun _ => ?_
  refine stepOK_bind (stepOK_readObjectIfTrue hrec) fun _ => ?_
  exact stepOK_bind (stepOK_readObjectIfTrue hrec) fun _ => stepOK_pure _

theorem stepOK_fieldsPrimitiveSet (obj : PrimD) : stepOK (fieldsPrimitiveSet obj) := by
  unfold fieldsPrimitiveSet
  refine stepOK_bind stepOK_readI32 fun _ => ?_
  refine stepOK_bind stepOK_readU32 fun mode => ?_
  refine stepOK_bind stepOK_readU32 fun c => ?_
  exact stepOK_bind stepOK_getPos fun p => stepOK_pure _

theorem stepOK_fieldsDrawElementsUInt (obj : PrimD) : stepOK (fieldsDrawElementsUInt obj) :=
  stepOK_bind (stepOK_skipN _) fun _ => stepOK_pure _

theorem stepOK_fieldsArray (obj : ArrD) : stepOK (fieldsArray obj) := by
  unfold fieldsArray
  refine stepOK_bind stepOK_readU32 fun bd => ?_
  refine stepOK_bind stepOK_readBool fun nz => ?_
  refine stepOK_bind stepOK_readBool fun _ => ?_
  refine stepOK_bind stepOK_readU32 fun c => ?_
  exact stepOK_bind stepOK_getPos fun p => stepOK_pure _

theorem stepOK_fieldsVec2Array (obj : ArrD) : stepOK (fieldsVec2Array obj) :=
  stepOK_bind (stepOK_skipN _) fun _ => stepOK_pure _

theorem stepOK_fieldsVec3Array (obj : ArrD) : stepOK (fieldsVec3Array obj) :=
  stepOK_bind (stepOK_skipN _) fun _ => stepOK_pure _

theorem stepOK_readArrayTail (inst : Nat) : stepOK (readArrayTail inst) := by
  unfold readArrayTail
  refine stepOK_bind stepOK_readU32 fun c => ?_
  refine stepOK_bind (stepOK_arrPayload _ _) fun _ => ?_
  refine stepOK_bind stepOK_readBool fun hi => ?_
  refine stepOK_ite (stepOK_throwCur _) ?_
  refine stepOK_bind stepOK_readU32 fun bd => ?_
  refine stepOK_bind stepOK_readU32 fun nzv => ?_
  exact stepOK_bind (stepOK_arrFinish _ _ _) fun _ => stepOK_pure _

theorem stepOK_readArray : stepOK readArray := by
  unfold readArray
  refine stepOK_bind stepOK_readBool fun b => ?_
  refine stepOK_ite ?_ (stepOK_pure _)
  refine stepOK_bind stepOK_readU32 fun u => ?_
  refine stepOK_bind (stepOK_findArr u) fun fo => ?_
  cases fo with
  | some i => exact stepOK_pure _
  | none =>
    refine stepOK_bind stepOK_readI32 fun t => ?_
    intro s v s' h
    obtain ⟨body, s1, h1, h2⟩ := bind_ok h
    have hb1 : bodySliceEnd body = 0 ∧ s1 = s := by
      unfold mIf at h1
      split at h1
      · obtain ⟨rfl, rfl⟩ := pure_ok h1
        exact ⟨rfl, rfl⟩
      · split at h1
        · obtain ⟨rfl, rfl⟩ := pure_ok h1
          exact ⟨rfl, rfl⟩
        · split at h1
          · obtain ⟨rfl, rfl⟩ := pure_ok h1
            exact ⟨rfl, rfl⟩
          · cases h1
    obtain ⟨hbz, rfl⟩ := hb1
    obtain ⟨inst, s2, h3, h4⟩ := bind_ok h2
    have hs2 := S3.of_step (stepOK_alloc_zero hbz) h3
    obtain ⟨u2, s3, h5, h6⟩ := bind_ok h4
    have hs3 := S3.of_step (stepOK_insertArr _ _) h5
    have hs4 := S3.of_step (stepOK_readArrayTail inst) h6
    exact hs2.trans (hs3.trans hs4)

theorem stepOK_readImageTail {rec : M (Option Nat)} (hrec : stepOK rec) (inst : Nat) :
    stepOK (readImageTail rec inst) := by
  unfold readImageTail
  refine stepOK_bind stepOK_readStr fun _ => ?_
  refine stepOK_bind stepOK_readU32 fun _ => ?_
  refine stepOK_bind stepOK_readU32 fun decision => ?_
  refine stepOK_ite ?_ (stepOK_throwCur _)
  refine stepOK_bind stepOK_readU32 fun size => ?_
  refine stepOK_bind (stepOK_imgPayload _ _) fun _ => ?_
  exact stepOK_bind (stepOK_fieldsObject hrec) fun _ => stepOK_pure _

theorem stepOK_readImage {rec : M (Option Nat)} (hrec : stepOK rec) :
    stepOK (readImage rec) := by
  unfold readImage
  refine stepOK_bind stepOK_readBool fun b => ?_
  refine stepOK_ite ?_ (stepOK_pure _)
  refine stepOK_bind stepOK_getVersion fun v => ?_
  refine stepOK_bind (stepOK_mIf _ (stepOK_bind stepOK_readStr fun _ => stepOK_pure _)
    (stepOK_pure _)) fun _ => ?_
  refine stepOK_bind stepOK_readU32 fun u => ?_
  refine stepOK_bind (stepOK_findImg u) fun fo => ?_
  cases fo with
  | some i => exact stepOK_pure _
  | none =>
    refine stepOK_bind (stepOK_alloc_zero ?_) fun inst => ?_
    · show bodySliceEnd (ObjBody.image {}) = 0
      rfl
    exact stepOK_bind (stepOK_insertImg _ _) fun _ => stepOK_readImageTail hrec inst

theorem stepOK_legacyPrim : stepOK legacyPrim := by
  unfold legacyPrim
  refine stepOK_bind stepOK_readU32 fun _ => ?_
  refine stepOK_bind stepOK_readU32 fun mode => ?_
  refine stepOK_bind stepOK_readU32 fun c => ?_
  intro s v s' h
  obtain ⟨p, s1, h1, h2⟩ := bind_ok h
  obtain ⟨rfl, rfl⟩ := getPos_ok h1
  obtain ⟨u1, s2, h3, h4⟩ := bind_ok h2
  obtain ⟨inst, s3, h5, h6⟩ := bind_ok h4
  obtain ⟨rfl, rfl⟩ := alloc_ok h5
  obtain ⟨rfl, rfl⟩ := pure_ok h6
  unfold mIf at h3
  by_cases hc : 0 < c
  · rw [if_pos hc] at h3
    rw [skipN_ok h3]
    refine ⟨Nat.le_add_right _ _, rfl, fun hh => heapOk_push (heapOk_advance hh) ?_⟩
    simp [bodySliceEnd, hc]
  · rw [if_neg hc] at h3
    obtain ⟨rfl, rfl⟩ := pure_ok h3
    refine ⟨le_refl _, rfl, fun hh => heapOk_push hh ?_⟩
    simp [bodySliceEnd, hc]

theorem stepOK_fieldsGeometry {rec : M (Option Nat)} (hrec : stepOK rec) (obj : GeomD) :
    stepOK (fieldsGeometry rec obj) := by
  unfold fieldsGeometry
  refine stepOK_bind stepOK_readU32 fun size => ?_
  refine stepOK_bind stepOK_getVersion fun v => ?_
  refine stepOK_bind (stepOK_mIf _ ?_ ?_) fun obj1 => ?_
  · refine stepOK_bind stepOK_readBeginBracket fun _ => ?_
    refine stepOK_bind (stepOK_setN stepOK_legacyPrim _ _ _) fun p => ?_
    obtain ⟨prims, gs⟩ := p
    exact stepOK_bind stepOK_readEndBracket fun _ => stepOK_pure _
  · refine stepOK_bind (stepOK_setN (stepOK_bind hrec fun r => stepOK_castIf _ _) _ _ _)
      fun p => ?_
    obtain ⟨prims, gs⟩ := p
    exact stepOK_pure _
  split
  · refine stepOK_bind stepOK_readBool fun b1 => ?_
    refine stepOK_bind (stepOK_mIf _ ?_ (stepOK_pure _)) fun obj2 => ?_
    · refine stepOK_bind stepOK_readBeginBracket fun _ => ?_
      refine stepOK_bind stepOK_readArray fun a => ?_
      exact stepOK_bind stepOK_readEndBracket fun _ => stepOK_pure _
    refine stepOK_bind stepOK_readBool fun b2 => ?_
    refine stepOK_bind (stepOK_mIf _ ?_ (stepOK_pure _)) fun _ => ?_
    · refine stepOK_bind stepOK_readBeginBracket fun _ => ?_
      exact stepOK_bind stepOK_readArray fun _ => stepOK_readEndBracket
    refine stepOK_bind stepOK_readBool fun b3 => ?_
    refine stepOK_bind (stepOK_mIf _ ?_ (stepOK_pure _)) fun _ => ?_
    · refine stepOK_bind stepOK_readBeginBracket fun _ => ?_
      exact stepOK_bind stepOK_readArray fun _ => stepOK_readEndBracket
    refine stepOK_bind stepOK_readBool fun b4 => ?_
    refine stepOK_bind (stepOK_mIf _ ?_ (stepOK_pure _)) fun _ => ?_
    · refine stepOK_bind stepOK_readBeginBracket fun _ => ?_
      exact stepOK_bind stepOK_readArray fun _ => stepOK_readEndBracket
    refine stepOK_bind stepOK_readBool fun b5 => ?_
    refine stepOK_bind (stepOK_mIf _ ?_ (stepOK_pure _)) fun _ => ?_
    · refine stepOK_bind stepOK_readBeginBracket fun _ => ?_
      exact stepOK_bind stepOK_readArray fun _ => stepOK_readEndBracket
    refine stepOK_bind stepOK_readBool fun b6 => ?_
    refine stepOK_bind (stepOK_mIf _ ?_ (stepOK_pure _)) fun obj3 => ?_
    · refine stepOK_bind stepOK_readU32 fun tsize => ?_
      refine stepOK_bind stepOK_readBeginBracket fun _ => ?_
      refine stepOK_bind (stepOK_setN ?_ _ _ _) fun p => ?_
      · refine stepOK_bind stepOK_readBeginBracket fun _ => ?_
        refine stepOK_bind stepOK_readArray fun a => ?_
        exact stepOK_bind stepOK_readEndBracket fun _ => stepOK_pure _
      obtain ⟨tl, gs⟩ := p
      exact stepOK_bind stepOK_readEndBracket fun _ => stepOK_pure _
    refine stepOK_bind stepOK_readBool fun b7 => ?_
    refine stepOK_bind (stepOK_mIf _ ?_ (stepOK_pure _)) fun obj4 => ?_
    · refine stepOK_bind stepOK_readU32 fun asize => ?_
      refine stepOK_bind stepOK_readBeginBracket fun _ => ?_
      refine stepOK_bind (stepOK_repN ?_ asize) fun _ => ?_
      · refine stepOK_bind stepOK_readBeginBracket fun _ => ?_
        refine stepOK_bind stepOK_readArray fun _ => ?_
        exact stepOK_bind stepOK_readEndBracket fun _ => stepOK_pure _
      exact stepOK_bind stepOK_readEndBracket fun _ => stepOK_pure _
    exact stepOK_bind stepOK_readBool fun _ => stepOK_pure _
  · refine stepOK_bind (stepOK_readObjectIfTrue hrec) fun r1 => ?_
    refine stepOK_bind (stepOK_castIf _ _) fun vd => ?_
    refine stepOK_bind (stepOK_readObjectIfTrue hrec) fun r2 => ?_
    refine stepOK_bind (stepOK_castIf _ _) fun nd => ?_
    refine stepOK_bind (stepOK_readObjectIfTrue hrec) fun r3 => ?_
    refine stepOK_bind (stepOK_castIf _ _) fun cd => ?_
    refine stepOK_bind (stepOK_readObjectIfTrue hrec) fun r4 => ?_
    refine stepOK_bind (stepOK_castIf _ _) fun scd => ?_
    refine stepOK_bind (stepOK_readObjectIfTrue hrec) fun r5 => ?_
    refine stepOK_bind (stepOK_castIf _ _) fun fcd => ?_
    refine stepOK_bind stepOK_readU32 fun tsize => ?_
    refine stepOK_bind (stepOK_setN (stepOK_bind hrec fun r => stepOK_castIf _ _) _ _ _)
      fun p => ?_
    obtain ⟨tl, gs⟩ := p
    refine stepOK_bind stepOK_readU32 fun asize => ?_
    refine stepOK_bind (stepOK_repN ?_ asize) fun _ => ?_
    · exact stepOK_bind hrec fun r => stepOK_bind (stepOK_castIf _ _) fun _ => stepOK_pure _
    exact stepOK_pure _

theorem stepOK_fieldsStateSet {rec : M (Option Nat)} (hrec : stepOK rec) (obj : StateSetD) :
    stepOK (fieldsStateSet rec obj) := by
  unfold fieldsStateSet
  refine stepOK_bind stepOK_readBool fun b1 => ?_
  refine stepOK_bind (stepOK_mIf _ ?_ (stepOK_pure _)) fun obj1 => ?_
  · refine stepOK_bind stepOK_readU32 fun size => ?_
    refine stepOK_bind stepOK_readBeginBracket fun _ => ?_
    refine stepOK_bind (stepOK_repN (stepOK_bind stepOK_readU32 fun m =>
      stepOK_bind stepOK_readU32 fun v => stepOK_pure _) size) fun ms => ?_
    exact stepOK_bind stepOK_readEndBracket fun _ => stepOK_pure _
  refine stepOK_bind stepOK_readBool fun b2 => ?_
  refine stepOK_bind (stepOK_mIf _ ?_ (stepOK_pure _)) fun obj2 => ?_
  · refine stepOK_bind stepOK_readU32 fun size => ?_
    refine stepOK_bind stepOK_readBeginBracket fun _ => ?_
    refine stepOK_bind (stepOK_repN (stepOK_bind hrec fun r =>
      stepOK_bind (stepOK_castIf _ _) fun a =>
      stepOK_bind stepOK_readU32 fun v => stepOK_pure _) size) fun avs => ?_
    exact stepOK_bind stepOK_readEndBracket fun _ => stepOK_pure _
  refine stepOK_bind stepOK_readBool fun b3 => ?_
  refine stepOK_bind (stepOK_mIf _ ?_ (stepOK_pure _)) fun obj3 => ?_
  · refine stepOK_bind stepOK_readU32 fun size => ?_
    refine stepOK_bind stepOK_readBeginBracket fun _ => ?_
    refine stepOK_bind (stepOK_repN ?_ size) fun tls => ?_
    · refine stepOK_bind stepOK_readU32 fun sz => ?_
      refine stepOK_bind stepOK_readBeginBracket fun _ => ?_
      refine stepOK_bind (stepOK_repN (stepOK_bind stepOK_readU32 fun m =>
        stepOK_bind stepOK_readU32 fun v => stepOK_pure _) sz) fun ms => ?_
      exact stepOK_bind stepOK_readEndBracket fun _ => stepOK_pure _
    exact stepOK_bind stepOK_readEndBracket fun _ => stepOK_pure _
  refine stepOK_bind stepOK_readBool fun b4 => ?_
  refine stepOK_bind (stepOK_mIf _ ?_ (stepOK_pure _)) fun obj4 => ?_
  · refine stepOK_bind stepOK_readU32 fun size => ?_
    refine stepOK_bind stepOK_readBeginBracket fun _ => ?_
    refine stepOK_bind (stepOK_repN ?_ size) fun tls => ?_
    · refine stepOK_bind stepOK_readU32 fun sz => ?_
      refine stepOK_bind stepOK_readBeginBracket fun _ => ?_
      refine stepOK_bind (stepOK_repN (stepOK_bind hrec fun r =>
        stepOK_bind (stepOK_castIf _ _) fun a =>
        stepOK_bind stepOK_readU32 fun v => stepOK_pure _) sz) fun avs => ?_
      exact stepOK_bind stepOK_readEndBracket fun _ => stepOK_pure _
    exact stepOK_bind stepOK_readEndBracket fun _ => stepOK_pure _
  refine stepOK_bind stepOK_readBool fun b5 => ?_
  refine stepOK_bind (stepOK_mIf _ ?_ (stepOK_pure _)) fun _ => ?_
  · refine stepOK_bind stepOK_readU32 fun size => ?_
    refine stepOK_bind stepOK_readBeginBracket fun _ => ?_
    refine stepOK_bind (stepOK_repN (stepOK_bind hrec fun _ =>
      stepOK_bind stepOK_readU32 fun _ => stepOK_pure _) size) fun _ => ?_
    exact stepOK_readEndBracket
  refine stepOK_bind stepOK_readU32 fun rh => ?_
  refine stepOK_bind stepOK_readU32 fun _ => ?_
  refine stepOK_bind stepOK_readU32 fun _ => ?_
  refine stepOK_bind stepOK_readStr fun _ => ?_
  refine stepOK_bind stepOK_readBool fun _ => ?_
  refine stepOK_bind (stepOK_readObjectIfTrue hrec) fun _ => ?_
  refine stepOK_bind (stepOK_readObjectIfTrue hrec) fun _ => ?_
  refine stepOK_bind stepOK_getVersion fun v => ?_
  refine stepOK_bind (stepOK_mIf _ ?_ (stepOK_pure _)) fun _ => ?_
  · refine stepOK_bind stepOK_readBool fun b6 => ?_
    refine stepOK_mIf _ ?_ (stepOK_pure _)
    refine stepOK_bind stepOK_readU32 fun size => ?_
    refine stepOK_bind stepOK_readBeginBracket fun _ => ?_
    refine stepOK_bind (stepOK_repN (stepOK_bind stepOK_readStr fun _ =>
      stepOK_bind stepOK_readStr fun _ =>
      stepOK_bind stepOK_readI32 fun _ => stepOK_pure _) size) fun _ => ?_
    exact stepOK_readEndBracket
  exact stepOK_pure _

theorem stepOK_fieldsStateAttribute {rec : M (Option Nat)} (hrec : stepOK rec) :
    stepOK (fieldsStateAttribute rec) := by
  unfold fieldsStateAttribute
  refine stepOK_bind (stepOK_readObjectIfTrue hrec) fun _ => ?_
  exact stepOK_bind (stepOK_readObjectIfTrue hrec) fun _ => stepOK_pure _

theorem stepOK_fieldsMaterial (obj : MaterialD) : stepOK (fieldsMaterial obj) := by
  unfold fieldsMaterial
  refine stepOK_bind stepOK_readU32 fun _ => ?_
  refine stepOK_bind stepOK_readBool fun b1 => ?_
  refine stepOK_bind (stepOK_mIf _ ?_ (stepOK_pure _)) fun obj1 => ?_
  · refine stepOK_bind stepOK_readBool fun fab => ?_
    refine stepOK_bind stepOK_readVec4f fun fr => ?_
    exact stepOK_bind stepOK_readVec4f fun bk => stepOK_pure _
  refine stepOK_bind stepOK_readBool fun b2 => ?_
  refine stepOK_bind (stepOK_mIf _ ?_ (stepOK_pure _)) fun obj2 => ?_
  · refine stepOK_bind stepOK_readBool fun fab => ?_
    refine stepOK_bind stepOK_readVec4f fun fr => ?_
    exact stepOK_bind stepOK_readVec4f fun bk => stepOK_pure _
  refine stepOK_bind stepOK_readBool fun b3 => ?_
  refine stepOK_bind (stepOK_mIf _ ?_ (stepOK_pure _)) fun obj3 => ?_
  · refine stepOK_bind stepOK_readBool fun fab => ?_
    refine stepOK_bind stepOK_readVec4f fun fr => ?_
    exact stepOK_bind stepOK_readVec4f fun bk => stepOK_pure _
  refine stepOK_bind stepOK_readBool fun b4 => ?_
  refine stepOK_bind (stepOK_mIf _ ?_ (stepOK_pure _)) fun obj4 => ?_
  · refine stepOK_bind stepOK_readBool fun fab => ?_
    refine stepOK_bind stepOK_readVec4f fun fr => ?_
    exact stepOK_bind stepOK_readVec4f fun bk => stepOK_pure _
  refine stepOK_bind stepOK_readBool fun b5 => ?_
  refine stepOK_bind (stepOK_mIf _ ?_ (stepOK_pure _)) fun obj5 => ?_
  · refine stepOK_bind stepOK_readBool fun fab => ?_
    refine stepOK_bind stepOK_readF32 fun fr => ?_
    exact stepOK_bind stepOK_readF32 fun bk => stepOK_pure _
  exact stepOK_pure _

theorem stepOK_fieldsTexture (obj : Tex2DD) : stepOK (fieldsTexture obj) := by
  unfold fieldsTexture
  refine stepOK_bind stepOK_readBool fun b1 => ?_
  refine stepOK_bind (stepOK_mIf _ (stepOK_bind stepOK_readU32 fun w => stepOK_pure _)
    (stepOK_pure _)) fun obj1 => ?_
  refine stepOK_bind stepOK_readBool fun b2 => ?_
  refine stepOK_bind (stepOK_mIf _ (stepOK_bind stepOK_readU32 fun w => stepOK_pure _)
    (stepOK_pure _)) fun obj2 => ?_
  refine stepOK_bind stepOK_readBool fun b3 => ?_
  refine stepOK_bind (stepOK_mIf _ (stepOK_bind stepOK_readU32 fun w => stepOK_pure _)
    (stepOK_pure _)) fun obj3 => ?_
  refine stepOK_bind stepOK_readBool fun b4 => ?_
  refine stepOK_bind (stepOK_mIf _ (stepOK_bind stepOK_readU32 fun _ => stepOK_pure _)
    (stepOK_pure _)) fun _ => ?_
  refine stepOK_bind stepOK_readBool fun b5 => ?_
  refine stepOK_bind (stepOK_mIf _ (stepOK_bind stepOK_readU32 fun _ => stepOK_pure _)
    (stepOK_pure _)) fun _ => ?_
  refine stepOK_bind stepOK_readF32 fun _ => ?_
  refine stepOK_bind stepOK_readBool fun _ => ?_
  refine stepOK_bind stepOK_readBool fun _ => ?_
  refine stepOK_bind stepOK_readBool fun _ => ?_
  refine stepOK_bind stepOK_readBool fun _ => ?_
  refine stepOK_bind (stepOK_readSkip 32) fun _ => ?_
  refine stepOK_bind stepOK_readI32 fun _ => ?_
  refine stepOK_bind stepOK_readI32 fun _ => ?_
  refine stepOK_bind stepOK_readBool fun b6 => ?_
  refine stepOK_bind (stepOK_mIf _ (stepOK_bind stepOK_readU32 fun _ => stepOK_pure _)
    (stepOK_pure _)) fun _ => ?_
  refine stepOK_bind stepOK_readBool fun b7 => ?_
  refine stepOK_bind (stepOK_mIf _ (stepOK_bind stepOK_readU32 fun _ => stepOK_pure _)
    (stepOK_pure _)) fun _ => ?_
  refine stepOK_bind stepOK_readBool fun b8 => ?_
  refine stepOK_bind (stepOK_mIf _ (stepOK_bind stepOK_readU32 fun _ => stepOK_pure _)
    (stepOK_pure _)) fun _ => ?_
  refine stepOK_bind stepOK_readBool fun _ => ?_
  refine stepOK_bind stepOK_readU32 fun _ => ?_
  refine stepOK_bind stepOK_readU32 fun _ => ?_
  refine stepOK_bind stepOK_readF32 fun _ => ?_
  refine stepOK_bind stepOK_getVersion fun v => ?_
  refine stepOK_bind (stepOK_mIf _ ?_ (stepOK_pure _)) fun _ => ?_
  · refine stepOK_bind stepOK_readBool fun b9 => ?_
    exact stepOK_mIf _ (stepOK_readSkip 24) (stepOK_pure _)
  refine stepOK_bind (stepOK_mIf _ ?_ (stepOK_pure _)) fun _ => ?_
  · refine stepOK_bind stepOK_readBool fun b10 => ?_
    exact stepOK_mIf _ (stepOK_bind stepOK_readStr fun _ => stepOK_pure _) (stepOK_pure _)
  refine stepOK_bind (stepOK_mIf _ ?_ (stepOK_pure _)) fun _ => ?_
  · refine stepOK_bind stepOK_readF32 fun _ => ?_
    refine stepOK_bind stepOK_readF32 fun _ => ?_
    exact stepOK_bind stepOK_readF32 fun _ => stepOK_pure _
  exact stepOK_pure _

theorem stepOK_fieldsTexture2D {rec : M (Option Nat)} (hrec : stepOK rec) (obj : Tex2DD) :
    stepOK (fieldsTexture2D rec obj) := by
  unfold fieldsTexture2D
  refine stepOK_bind (stepOK_readImage hrec) fun img => ?_
  refine stepOK_bind stepOK_readU32 fun _ => ?_
  exact stepOK_bind stepOK_readU32 fun _ => stepOK_pure _

theorem stepOK_fieldsDefaultUDC {rec : M (Option Nat)} (hrec : stepOK rec) :
    stepOK (fieldsDefaultUDC rec) := by
  unfold fieldsDefaultUDC
  refine stepOK_bind stepOK_readBool fun b1 => ?_
  refine stepOK_bind (stepOK_mIf _ ?_ (stepOK_pure _)) fun _ => ?_
  · refine stepOK_bind stepOK_readBeginBracket fun _ => ?_
    exact stepOK_bind hrec fun _ => stepOK_readEndBracket
  refine stepOK_bind stepOK_readBool fun b2 => ?_
  refine stepOK_bind (stepOK_mIf _ ?_ (stepOK_pure _)) fun _ => ?_
  · refine stepOK_bind stepOK_readU32 fun size => ?_
    refine stepOK_bind stepOK_readBeginBracket fun _ => ?_
    exact stepOK_bind (stepOK_repN stepOK_readStr size) fun _ => stepOK_readEndBracket
  refine stepOK_bind stepOK_readBool fun b3 => ?_
  refine stepOK_bind (stepOK_mIf _ ?_ (stepOK_pure _)) fun _ => ?_
  · refine stepOK_bind stepOK_readU32 fun size => ?_
    refine stepOK_bind stepOK_readBeginBracket fun _ => ?_
    exact stepOK_bind (stepOK_repN hrec size) fun _ => stepOK_readEndBracket
  exact stepOK_pure _

/-! ## Slice-end bounds for the dispatched object data readers -/

theorem fieldsArray_ok {obj : ArrD} {s : St} {a : ArrD} {s' : St}
    (h : fieldsArray obj s = Except.ok (a, s')) :
    a.elementData = some s'.pos ∧ a.elementSize = obj.elementSize ∧
      a.elementCount = a.elementCount := by
  unfold fieldsArray at h
  obtain ⟨bd, s1, h1, h⟩ := bind_ok h
  obtain ⟨nz, s2, h2, h⟩ := bind_ok h
  obtain ⟨pd, s3, h3, h⟩ := bind_ok h
  obtain ⟨c, s4, h4, h⟩ := bind_ok h
  obtain ⟨p, s5, h5, h⟩ := bind_ok h
  obtain ⟨hp, rfl⟩ := getPos_ok h5
  obtain ⟨rfl, rfl⟩ := pure_ok h
  subst hp
  exact ⟨rfl, rfl, rfl⟩

theorem fieldsVec2Array_ok {a : ArrD} {s : St} {a2 : ArrD} {s' : St}
    (h : fieldsVec2Array a s = Except.ok (a2, s')) :
    a2 = a ∧ s'.pos = s.pos + a.elementCount * 4 * 2 := by
  unfold fieldsVec2Array at h
  obtain ⟨u, s1, h1, h⟩ := bind_ok h
  rw [skipN_ok h1] at h
  obtain ⟨rfl, rfl⟩ := pure_ok h
  exact ⟨rfl, rfl⟩

theorem fieldsVec3Array_ok {a : ArrD} {s : St} {a2 : ArrD} {s' : St}
    (h : fieldsVec3Array a s = Except.ok (a2, s')) :
    a2 = a ∧ s'.pos = s.pos + a.elementCount * 4 * 3 := by
  unfold fieldsVec3Array at h
  obtain ⟨u, s1, h1, h⟩ := bind_ok h
  rw [skipN_ok h1] at h
  obtain ⟨rfl, rfl⟩ := pure_ok h
  exact ⟨rfl, rfl⟩

theorem fieldsPrimitiveSet_ok {obj : PrimD} {s : St} {p : PrimD} {s' : St}
    (h : fieldsPrimitiveSet obj s = Except.ok (p, s')) :
    p.indexData = some s'.pos := by
  unfold fieldsPrimitiveSet at h
  obtain ⟨ni, s1, h1, h⟩ := bind_ok h
  obtain ⟨mode, s2, h2, h⟩ := bind_ok h
  obtain ⟨c, s3, h3, h⟩ := bind_ok h
  obtain ⟨q, s4, h4, h⟩ := bind_ok h
  obtain ⟨hq, rfl⟩ := getPos_ok h4
  obtain ⟨rfl, rfl⟩ := pure_ok h
  subst hq
  rfl

theorem fieldsDrawElementsUInt_ok {p : PrimD} {s : St} {p2 : PrimD} {s' : St}
    (h : fieldsDrawElementsUInt p s = Except.ok (p2, s')) :
    p2 = p ∧ s'.pos = s.pos + p.indexCount * 4 := by
  unfold fieldsDrawElementsUInt at h
  obtain ⟨u, s1, h1, h⟩ := bind_ok h
  rw [skipN_ok h1] at h
  obtain ⟨rfl, rfl⟩ := pure_ok h
  exact ⟨rfl, rfl⟩

theorem readDataPagedLOD_end {rec : M (Option Nat)} {s : St} {o : HObj} {s' : St}
    (h : readDataPagedLOD rec s = Except.ok (o, s')) : bodySliceEnd o.body ≤ s'.pos := by
  unfold readDataPagedLOD at h
  obtain ⟨u1, s1, h1, h⟩ := bind_ok h
  obtain ⟨ss, s2, h2, h⟩ := bind_ok h
  obtain ⟨o1, s3, h3, h⟩ := bind_ok h
  obtain ⟨o2, s4, h4, h⟩ := bind_ok h
  obtain ⟨rfl, rfl⟩ := pure_ok h
  simp [bodySliceEnd]

theorem readDataGroup_end {rec : M (Option Nat)} {s : St} {o : HObj} {s' : St}
    (h : readDataGroup rec s = Except.ok (o, s')) : bodySliceEnd o.body ≤ s'.pos := by
  unfold readDataGroup at h
  obtain ⟨u1, s1, h1, h⟩ := bind_ok h
  obtain ⟨ss, s2, h2, h⟩ := bind_ok h
  obtain ⟨o1, s3, h3, h⟩ := bind_ok h
  obtain ⟨rfl, rfl⟩ := pure_ok h
  simp [bodySliceEnd]

theorem readDataGeode_end {rec : M (Option Nat)} {s : St} {o : HObj} {s' : St}
    (h : readDataGeode rec s = Except.ok (o, s')) : bodySliceEnd o.body ≤ s'.pos := by
  unfold readDataGeode at h
  obtain ⟨u1, s1, h1, h⟩ := bind_ok h
  obtain ⟨ss, s2, h2, h⟩ := bind_ok h
  obtain ⟨o1, s3, h3, h⟩ := bind_ok h
  obtain ⟨rfl, rfl⟩ := pure_ok h
  simp [bodySliceEnd]

theorem readDataGeometry_end {rec : M (Option Nat)} {s : St} {o : HObj} {s' : St}
    (h : readDataGeometry rec s = Except.ok (o, s')) : bodySliceEnd o.body ≤ s'.pos := by
  unfold readDataGeometry at h
  obtain ⟨u1, s1, h1, h⟩ := bind_ok h
  obtain ⟨v, s2, h2, h⟩ := bind_ok h
  obtain ⟨ssN, s3, h3, h⟩ := bind_ok h
  obtain ⟨ssD, s4, h4, h⟩ := bind_ok h
  obtain ⟨o1, s5, h5, h⟩ := bind_ok h
  obtain ⟨rfl, rfl⟩ := pure_ok h
  simp [bodySliceEnd]

theorem readDataStateSet_end {rec : M (Option Nat)} {s : St} {o : HObj} {s' : St}
    (h : readDataStateSet rec s = Except.ok (o, s')) : bodySliceEnd o.body ≤ s'.pos := by
  unfold readDataStateSet at h
  obtain ⟨u1, s1, h1, h⟩ := bind_ok h
  obtain ⟨ss, s2, h2, h⟩ := bind_ok h
  obtain ⟨rfl, rfl⟩ := pure_ok h
  simp [bodySliceEnd]

theorem readDataMaterial_end {rec : M (Option Nat)} {s : St} {o : HObj} {s' : St}
    (h : readDataMaterial rec s = Except.ok (o, s')) : bodySliceEnd o.body ≤ s'.pos := by
  unfold readDataMaterial at h
  obtain ⟨u1, s1, h1, h⟩ := bind_ok h
  obtain ⟨u2, s2, h2, h⟩ := bind_ok h
  obtain ⟨m, s3, h3, h⟩ := bind_ok h
  obtain ⟨rfl, rfl⟩ := pure_ok h
  simp [bodySliceEnd]

theorem readDataTexture2D_end {rec : M (Option Nat)} {s : St} {o : HObj} {s' : St}
    (h : readDataTexture2D rec s = Except.ok (o, s')) : bodySliceEnd o.body ≤ s'.pos := by
  unfold readDataTexture2D at h
  obtain ⟨u1, s1, h1, h⟩ := bind_ok h
  obtain ⟨u2, s2, h2, h⟩ := bind_ok h
  obtain ⟨t1, s3, h3, h⟩ := bind_ok h
  obtain ⟨t2, s4, h4, h⟩ := bind_ok h
  obtain ⟨rfl, rfl⟩ := pure_ok h
  simp [bodySliceEnd]

theorem readDataDefaultUDC_end {rec : M (Option Nat)} {s : St} {o : HObj} {s' : St}
    (h : readDataDefaultUDC rec s = Except.ok (o, s')) : bodySliceEnd o.body ≤ s'.pos := by
  unfold readDataDefaultUDC at h
  obtain ⟨u1, s1, h1, h⟩ := bind_ok h
  obtain ⟨u2, s2, h2, h⟩ := bind_ok h
  obtain ⟨rfl, rfl⟩ := pure_ok h
  simp [bodySliceEnd]

theorem readDataDrawElementsUInt_end {rec : M (Option Nat)} {s : St} {o : HObj} {s' : St}
    (h : readDataDrawElementsUInt rec s = Except.ok (o, s')) : bodySliceEnd o.body ≤ s'.pos := by
  unfold readDataDrawElementsUInt at h
  obtain ⟨u1, s1, h1, h⟩ := bind_ok h
  obtain ⟨p, s2, h2, h⟩ := bind_ok h
  obtain ⟨p2, s3, h3, h⟩ := bind_ok h
  obtain ⟨rfl, rfl⟩ := pure_ok h
  have hd := fieldsPrimitiveSet_ok h2
  obtain ⟨heq, hpos⟩ := fieldsDrawElementsUInt_ok h3
  simp only [bodySliceEnd, heq, hd, hpos]
  omega

theorem readDataVec3Array_end {rec : M (Option Nat)} {s : St} {o : HObj} {s' : St}
    (h : readDataVec3Array rec s = Except.ok (o, s')) : bodySliceEnd o.body ≤ s'.pos := by
  unfold readDataVec3Array at h
  obtain ⟨u1, s1, h1, h⟩ := bind_ok h
  obtain ⟨a, s2, h2, h⟩ := bind_ok h
  obtain ⟨a2, s3, h3, h⟩ := bind_ok h
  obtain ⟨rfl, rfl⟩ := pure_ok h
  obtain ⟨hd, hes, _⟩ := fieldsArray_ok h2
  obtain ⟨heq, hpos⟩ := fieldsVec3Array_ok h3
  simp only [bodySliceEnd, heq, hd, hes, hpos, vec3ArrD]
  omega

theorem readDataVec2Array_end {rec : M (Option Nat)} {s : St} {o : HObj} {s' : St}
    (h : readDataVec2Array rec s = Except.ok (o, s')) : bodySliceEnd o.body ≤ s'.pos := by
  unfold readDataVec2Array at h
  obtain ⟨u1, s1, h1, h⟩ := bind_ok h
  obtain ⟨a, s2, h2, h⟩ := bind_ok h
  obtain ⟨a2, s3, h3, h⟩ := bind_ok h
  obtain ⟨rfl, rfl⟩ := pure_ok h
  obtain ⟨hd, hes, _⟩ := fieldsArray_ok h2
  obtain ⟨heq, hpos⟩ := fieldsVec2Array_ok h3
  simp only [bodySliceEnd, heq, hd, hes, hpos, vec2ArrD]
  omega

/-! ## stepOK for the object data readers, the dispatcher, readObject
and the header -/

theorem stepOK_readDataPagedLOD {rec : M (Option Nat)} (hrec : stepOK rec) :
    stepOK (readDataPagedLOD rec) := by
  unfold readDataPagedLOD
  refine stepOK_bind (stepOK_fieldsObject hrec) fun _ => ?_
  refine stepOK_bind (stepOK_fieldsNode hrec) fun ss => ?_
  refine stepOK_bind (stepOK_fieldsLOD _) fun o1 => ?_
  exact stepOK_bind (stepOK_fieldsPagedLOD hrec _) fun o2 => stepOK_pure _

theorem stepOK_readDataGroup {rec : M (Option Nat)} (hrec : stepOK rec) :
    stepOK (readDataGroup rec) := by
  unfold readDataGroup
  refine stepOK_bind (stepOK_fieldsObject hrec) fun _ => ?_
  refine stepOK_bind (stepOK_fieldsNode hrec) fun ss => ?_
  exact stepOK_bind (stepOK_fieldsGroup hrec _) fun o1 => stepOK_pure _

theorem stepOK_readDataGeode {rec : M (Option Nat)} (hrec : stepOK rec) :
    stepOK (readDataGeode rec) := by
  unfold readDataGeode
  refine stepOK_bind (stepOK_fieldsObject hrec) fun _ => ?_
  refine stepOK_bind (stepOK_fieldsNode hrec) fun ss => ?_
  exact stepOK_bind (stepOK_fieldsGeode hrec _) fun o1 => stepOK_pure _

theorem stepOK_readDataGeometry {rec : M (Option Nat)} (hrec : stepOK rec) :
    stepOK (readDataGeometry rec) := by
  unfold readDataGeometry
  refine stepOK_bind (stepOK_fieldsObject hrec) fun _ => ?_
  refine stepOK_bind stepOK_getVersion fun v => ?_
  refine stepOK_bind (stepOK_mIf _ (stepOK_fieldsNode hrec) (stepOK_pure _)) fun ssN => ?_
  refine stepOK_bind (stepOK_fieldsDrawable hrec) fun ssD => ?_
  exact stepOK_bind (stepOK_fieldsGeometry hrec _) fun o1 => stepOK_pure _

theorem stepOK_readDataStateSet {rec : M (Option Nat)} (hrec : stepOK rec) :
    stepOK (readDataStateSet rec) := by
  unfold readDataStateSet
  refine stepOK_bind (stepOK_fieldsObject hrec) fun _ => ?_
  exact stepOK_bind (stepOK_fieldsStateSet hrec _) fun ss => stepOK_pure _

theorem stepOK_readDataMaterial {rec : M (Option Nat)} (hrec : stepOK rec) :
    stepOK (readDataMaterial rec) := by
  unfold readDataMaterial
  refine stepOK_bind (stepOK_fieldsObject hrec) fun _ => ?_
  refine stepOK_bind (stepOK_fieldsStateAttribute hrec) fun _ => ?_
  exact stepOK_bind (stepOK_fieldsMaterial _) fun m => stepOK_pure _

theorem stepOK_readDataTexture2D {rec : M (Option Nat)} (hrec : stepOK rec) :
    stepOK (readDataTexture2D rec) := by
  unfold readDataTexture2D
  refine stepOK_bind (stepOK_fieldsObject hrec) fun _ => ?_
  refine stepOK_bind (stepOK_fieldsStateAttribute hrec) fun _ => ?_
  refine stepOK_bind (stepOK_fieldsTexture _) fun t1 => ?_
  exact stepOK_bind (stepOK_fieldsTexture2D hrec _) fun t2 => stepOK_pure _

theorem stepOK_readDataDefaultUDC {rec : M (Option Nat)} (hrec : stepOK rec) :
    stepOK (readDataDefaultUDC rec) := by
  unfold readDataDefaultUDC
  refine stepOK_bind (stepOK_fieldsObject hrec) fun _ => ?_
  exact stepOK_bind (stepOK_fieldsDefaultUDC hrec) fun _ => stepOK_pure _

theorem stepOK_readDataDrawElementsUInt {rec : M (Option Nat)} (hrec : stepOK rec) :
    stepOK (readDataDrawElementsUInt rec) := by
  unfold readDataDrawElementsUInt
  refine stepOK_bind (stepOK_fieldsObject hrec) fun _ => ?_
  refine stepOK_bind (stepOK_fieldsPrimitiveSet _) fun p => ?_
  exact stepOK_bind (stepOK_fieldsDrawElementsUInt _) fun p2 => stepOK_pure _

theorem stepOK_readDataVec3Array {rec : M (Option Nat)} (hrec : stepOK rec) :
    stepOK (readDataVec3Array rec) := by
  unfold readDataVec3Array
  refine stepOK_bind (stepOK_fieldsObject hrec) fun _ => ?_
  refine stepOK_bind (stepOK_fieldsArray _) fun a => ?_
  exact stepOK_bind (stepOK_fieldsVec3Array _) fun a2 => stepOK_pure _

theorem stepOK_readDataVec2Array {rec : M (Option Nat)} (hrec : stepOK rec) :
    stepOK (readDataVec2Array rec) := by
  unfold readDataVec2Array
  refine stepOK_bind (stepOK_fieldsObject hrec) fun _ => ?_
  refine stepOK_bind (stepOK_fieldsArray _) fun a => ?_
  exact stepOK_bind (stepOK_fieldsVec2Array _) fun a2 => stepOK_pure _

set_option maxHeartbeats 2000000 in
theorem stepOK_dispatchClass {rec : M (Option Nat)} (hrec : stepOK rec)
    (cn : List UInt8) : stepOK (dispatchClass rec cn) := by
  unfold dispatchClass
  repeat' split
  all_goals first
    | exact stepOK_readDataPagedLOD hrec
    | exact stepOK_readDataGroup hrec
    | exact stepOK_readDataGeode hrec
    | exact stepOK_readDataGeometry hrec
    | exact stepOK_readDataStateSet hrec
    | exact stepOK_readDataMaterial hrec
    | exact stepOK_readDataTexture2D hrec
    | exact stepOK_readDataDefaultUDC hrec
    | exact stepOK_readDataDrawElementsUInt hrec
    | exact stepOK_readDataVec3Array hrec
    | exact stepOK_readDataVec2Array hrec
    | exact stepOK_throwCur _

set_option maxHeartbeats 2000000 in
theorem dispatchClass_end {rec : M (Option Nat)} {cn : List UInt8}
    {s : St} {o : HObj} {s' : St} (h : dispatchClass rec cn s = Except.ok (o, s')) :
    bodySliceEnd o.body ≤ s'.pos := by
  unfold dispatchClass at h
  repeat' split at h
  all_goals first
    | exact readDataPagedLOD_end h
    | exact readDataGroup_end h
    | exact readDataGeode_end h
    | exact readDataGeometry_end h
    | exact readDataStateSet_end h
    | exact readDataMaterial_end h
    | exact readDataTexture2D_end h
    | exact readDataDefaultUDC_end h
    | exact readDataDrawElementsUInt_end h
    | exact readDataVec3Array_end h
    | exact readDataVec2Array_end h
    | cases h

theorem stepOK_readObjectStep {rec : M (Option Nat)} (hrec : stepOK rec) :
    stepOK (readObjectStep rec) := by
  unfold readObjectStep
  refine stepOK_bind stepOK_readStr fun cn => ?_
  refine stepOK_ite (stepOK_pure _) ?_
  refine stepOK_bind stepOK_readBeginBracket fun _ => ?_
  refine stepOK_bind stepOK_readU32 fun u => ?_
  refine stepOK_bind (stepOK_findObj u) fun fo => ?_
  cases fo with
  | some i => exact stepOK_pure _
  | none =>
    intro s v s' h0
    obtain ⟨obj, s1, hd1, hrest1⟩ := bind_ok h0
    have hs1 := S3.of_step (stepOK_dispatchClass hrec cn) hd1
    have hend := dispatchClass_end hd1
    obtain ⟨uu, s2, hd2, hrest2⟩ := bind_ok hrest1
    obtain ⟨huu, hs2eq⟩ := pure_ok hd2
    obtain ⟨inst, s3, hd3, hrest3⟩ := bind_ok hrest2
    obtain ⟨hinst, hs3eq⟩ := alloc_ok hd3
    obtain ⟨uv, s4, hd4, hrest4⟩ := bind_ok hrest3
    have hs4 := S3.of_step (stepOK_insertObj u inst) hd4
    have hs5 := S3.of_step (stepOK_pure _) hrest4
    have hs23 : S3 s1 s3 := by
      rw [hs3eq, hs2eq]
      exact ⟨le_refl _, rfl, fun hh => heapOk_push hh hend⟩
    exact hs1.trans (hs23.trans (hs4.trans hs5))

theorem stepOK_readObjectF : ∀ fuel, stepOK (readObjectF fuel) := by
  intro fuel
  induction fuel with
  | zero => exact stepOK_throwCur _
  | succ fuel ih => exact stepOK_readObjectStep ih

theorem stepOK_readHeader : stepOK readHeader := by
  unfold readHeader
  refine stepOK_bind stepOK_readU64 fun magic => ?_
  refine stepOK_ite (stepOK_throwCur _) ?_
  refine stepOK_bind stepOK_readU32 fun t => ?_
  refine stepOK_ite (stepOK_throwCur _) ?_
  refine stepOK_bind stepOK_readU32 fun v => ?_
  refine stepOK_bind (stepOK_setVersion v) fun _ => ?_
  refine stepOK_bind stepOK_readU32 fun attrs => ?_
  refine stepOK_ite (stepOK_throwCur _) ?_
  refine stepOK_bind (stepOK_setBB _) fun _ => ?_
  refine stepOK_bind stepOK_readStr fun comp => ?_
  exact stepOK_ite (stepOK_throwCur _) (stepOK_pure _)

/-- A body whose recorded slice ends within the buffer passes both
boolean slice checks. -/
theorem sliceOk_of_end {len : Nat} {b : ObjBody} (h : bodySliceEnd b ≤ len) :
    (arrSliceOk len b && deuSliceOk len b) = true := by
  cases b with
  | vec2Array a =>
    cases hd : a.elementData with
    | none => simp [arrSliceOk, deuSliceOk, hd]
    | some st =>
      simp only [bodySliceEnd, hd] at h
      simp [arrSliceOk, deuSliceOk, hd, h]
  | vec3Array a =>
    cases hd : a.elementData with
    | none => simp [arrSliceOk, deuSliceOk, hd]
    | some st =>
      simp only [bodySliceEnd, hd] at h
      simp [arrSliceOk, deuSliceOk, hd, h]
  | vec4Array a =>
    cases hd : a.elementData with
    | none => simp [arrSliceOk, deuSliceOk, hd]
    | some st =>
      simp only [bodySliceEnd, hd] at h
      simp [arrSliceOk, deuSliceOk, hd, h]
  | drawElementsUInt p =>
    cases hd : p.indexData with
    | none => simp [arrSliceOk, deuSliceOk, hd]
    | some st =>
      simp only [bodySliceEnd, hd] at h
      simp [arrSliceOk, deuSliceOk, hd, h]
  | group g => simp [arrSliceOk, deuSliceOk]
  | geode g => simp [arrSliceOk, deuSliceOk]
  | pagedLOD p => simp [arrSliceOk, deuSliceOk]
  | geometry g => simp [arrSliceOk, deuSliceOk]
  | stateSet ss => simp [arrSliceOk, deuSliceOk]
  | material m => simp [arrSliceOk, deuSliceOk]
  | texture2D t => simp [arrSliceOk, deuSliceOk]
  | defaultUDC => simp [arrSliceOk, deuSliceOk]
  | primitiveSet p => simp [arrSliceOk, deuSliceOk]
  | image i => simp [arrSliceOk, deuSliceOk]

/-- C4: for every buffer whose parse succeeds (`Data::read` non-null),
every Array in the resulting graph has an `elementData` slice of exactly
`elementCount * elementSize` bytes lying entirely within the input
buffer, and every DrawElementsUInt has an `indexData` slice of exactly
`indexCount * 4` bytes within the buffer - even though the cursor
advances past these payloads without an explicit bounds check.  The
proof runs the cursor-monotonicity and slice invariant through the whole
reader and uses that success requires `ended()`, so the final cursor,
which bounds every recorded slice, equals the buffer length. -/
theorem c4_slices_within_buffer (buf : List UInt8) (out : ParseOut)
    (h : dataRead buf = some out) :
    out.final.heap.all
      (fun o => arrSliceOk buf.length o.body && deuSliceOk buf.length o.body) = true := by
  unfold dataRead at h
  revert h
  cases hrun : runParse buf with
  | error e =>
    intro h
    cases h
  | ok p =>
    obtain ⟨r, s⟩ := p
    cases r with
    | none =>
      intro h
      cases h
    | some root =>
      intro h
      have h2 : (if ended s = true then some (⟨root, s⟩ : ParseOut) else none) = some out := h
      unfold runParse at hrun
      have hs3 : S3 { buf := buf } s :=
        S3.of_step (stepOK_bind stepOK_readHeader fun _ =>
          stepOK_readObjectF (buf.length + 1)) hrun
      have hhk : heapOk s := hs3.2.2 (fun o ho => absurd ho (by simp))
      have hbuf : s.buf = buf := hs3.2.1
      by_cases he : ended s = true
      · rw [if_pos he] at h2
        cases h2
        have hpos : s.pos = buf.length := by
          have : s.pos = s.buf.length := by simpa [ended] using he
          rw [this, hbuf]
        refine List.all_eq_true.mpr fun o ho => ?_
        refine sliceOk_of_end ?_
        calc bodySliceEnd o.body ≤ s.pos := hhk o ho
          _ = buf.length := hpos
      · rw [if_neg he] at h2
        cases h2

/-- Concrete evaluation fact used by the C4 witness. -/
theorem dataRead_bufVec3Root_isSome : (dataRead bufVec3Root).isSome = true := by
  decide

/-- Witness for C4: a concrete successful parse (root Vec3Array with two
elements) on which the theorem's hypothesis holds and the conclusion
evaluates. -/
theorem c4_witness :
    (dataRead bufVec3Root).map
      (fun o => o.final.heap.all
        (fun h => arrSliceOk bufVec3Root.length h.body &&
          deuSliceOk bufVec3Root.length h.body)) = some true := by
  cases hd : dataRead bufVec3Root with
  | none =>
    have hsome : (dataRead bufVec3Root).isSome = true := dataRead_bufVec3Root_isSome
    rw [hd] at hsome
    cases hsome
  | some o => simp [c4_slices_within_buffer bufVec3Root o hd]

/-- C5: at every position where the parser reads a boolean, a byte whose
value is anything other than 0 and 1 (for instance 2) fails the parse
with the "invalid bool value" error reporting that byte's offset.  All
boolean reads of the reader go through the `read<bool>` specialization
modelled by `readBool`. -/
theorem c5_invalid_bool_byte (s : St) (h1 : s.pos < s.buf.length)
    (h2 : s.buf.getD s.pos 0 ≠ 0) (h3 : s.buf.getD s.pos 0 ≠ 1) :
    readBool s = Except.error ⟨s.pos, ErrMsg.invalidBool⟩ := by
  unfold readBool
  rw [if_neg (by omega), if_pos ⟨h2, h3⟩]

/-- Witness for C5: a boolean byte of value 2 at offset 0 fails with
InvalidBool at offset 0. -/
theorem c5_witness :
    readBool { buf := [2] } = Except.error ⟨0, ErrMsg.invalidBool⟩ :=
  c5_invalid_bool_byte { buf := [2] } (by decide) (by decide) (by decide)

/-- Counterexample for C7: the claim says the Drawable layer reads all
six callback flags before the three display-list booleans; on the bytes
of `stDrawable` the source's layer succeeds while the claimed order
(`claimDrawableOrder`, interpreted by the same schema interpreter) reads
byte 4 as a callback flag and fails - so the layer is not equivalent to
the claimed order. -/
theorem c7_counterexample :
    fieldsDrawable (readObjectF 1) stDrawable ≠
      interpSteps (readObjectF 1) claimDrawableOrder none stDrawable ∧
    fieldsDrawable (readObjectF 1) stDrawable =
      Except.ok (none, { stDrawable with pos := 11 }) ∧
    interpSteps (readObjectF 1) claimDrawableOrder none stDrawable =
      Except.error ⟨9, ErrMsg.readBeyond⟩ := by
  refine ⟨?_, rfl, rfl⟩
  intro hcon
  have h1 : fieldsDrawable (readObjectF 1) stDrawable =
      Except.ok (none, { stDrawable with pos := 11 }) := rfl
  have h2 : interpSteps (readObjectF 1) claimDrawableOrder none stDrawable =
      Except.error ⟨9, ErrMsg.readBeyond⟩ := rfl
  rw [h1, h2] at hcon
  cases hcon

/-- C7 (amended): the Drawable field layer consumes its fields in this
order: optional state set, optional 6-double initial bound, the
compute-bounding-box and shape callback reads, then the three booleans
supportsDisplayList / useDisplayList / useVertexBufferObjects, and only
then the update, event, cull and draw callback reads.  Stated as an
equivalence, for every recursion callback and state, between the layer
and the schema interpreter run on `codeDrawableOrder`. -/
theorem c7_drawable_field_order (rec : M (Option Nat)) (s : St) :
    fieldsDrawable rec s = interpSteps rec codeDrawableOrder none s := rfl

/-- C8: parsing is deterministic - two runs of the embedded reader on
the same buffer produce identical results and identical reported errors
(kind, message payload and offset).  The embedding is a pure function of
the buffer, which is exactly the determinism property of the
single-threaded source reader (no global state, no hidden inputs). -/
theorem c8_parse_deterministic (buf : List UInt8) :
    dataRead buf = dataRead buf ∧ dataReadError buf = dataReadError buf :=
  ⟨rfl, rfl⟩

/-- Counterexample for C2: on the spec's empty-scene buffer `Data::read`
returns null (the claim says it returns a non-null result with a null
root). -/
theorem c2_counterexample : dataRead bufEmptyScene = none := rfl

/-- C2 (amended): parsing the spec's empty-scene buffer raises no error
and produces a null root, but `readObject` reads the bracket word as the
(empty) class-name length and returns before the remaining 4 bytes, so
`ended()` is false and `Data::read` returns null (it also requires a
non-null root). -/
theorem c2_empty_scene :
    runObs bufEmptyScene = some (none, false, bufEmptyScene.length - 4) ∧
    dataRead bufEmptyScene = none ∧
    dataReadError bufEmptyScene = none :=
  ⟨rfl, rfl, rfl⟩

/-- C10: bracket-prefix skips and zero-copy payload skips advance the
cursor with no bounds check.  Concretely: (1) a begin-bracket skip moves
the cursor to 22 in a 20-byte buffer without an error; (2) a
DrawElementsUInt index skip and an inline image payload skip do the same
from offset 10 of an 11-byte buffer; (3) a root Vec3Array with a huge
element count parses past the end silently and the parse fails only
because `ended()` is false (null result, no error); (4) a Vec3Array
element skip with elementCount 99999 overshoots a 12-byte buffer
silently (the skip itself succeeds, cursor at 1199998), and the next
one-byte read of the surrounding layer then throws "read beyond data
length" at that overshot offset. -/
theorem c10_unchecked_skips :
    (readBeginBracket stBracket = Except.ok ((), { stBracket with pos := 22 }) ∧
      stBracket.buf.length < 22) ∧
    (fieldsDrawElementsUInt { indexCount := 1000 } { buf := List.replicate 11 0, pos := 10 } =
      Except.ok ({ indexCount := 1000 },
        { buf := List.replicate 11 0, pos := 4010 })) ∧
    (imgPayload 0 500 { buf := List.replicate 11 0, pos := 10 } =
      Except.ok ((), { buf := List.replicate 11 0, pos := 510 })) ∧
    (dataRead bufOvershootEnd = none ∧ dataReadError bufOvershootEnd = none) ∧
    (fieldsVec3Array { arrayType := 28, elementSize := 12, elementCount := 99999 } stOvershoot =
      Except.ok ({ arrayType := 28, elementSize := 12, elementCount := 99999 },
        { stOvershoot with pos := 1199998 }) ∧
      stOvershoot.buf.length < 1199998 ∧
      overshootThenRead { arrayType := 28, elementSize := 12, elementCount := 99999 } stOvershoot =
        Except.error ⟨1199998, ErrMsg.readBeyond⟩) := by
  refine ⟨⟨rfl, by decide⟩, rfl, rfl, ⟨rfl, rfl⟩, rfl, by decide, rfl⟩

/-- Registry-miss path of the dispatcher: when the identity is not yet
registered, the dispatched object is allocated at the end of the heap
with its identity stamped in, and registered after its fields were
parsed. -/
theorem readObjectStep_miss (R : M (Option Nat)) (s : St) (cn : List UInt8) (s1 : St)
    (u : Nat) (s2 : St) (obj : HObj) (s3 : St)
    (h1 : readStr s = Except.ok (cn, s1)) (hcn : cn ≠ [])
    (h2 : M.bind readBeginBracket (fun _ => readU32) s1 = Except.ok (u, s2))
    (hmiss : alookup s2.objects u = none)
    (hd : dispatchClass R cn s2 = Except.ok (obj, s3)) :
    readObjectStep R s = Except.ok (some s3.heap.length,
      { s3 with
        heap := s3.heap ++ [{ obj with uid := u }]
        objects := ainsert s3.objects u s3.heap.length }) := by
  obtain ⟨bv, s1b, hb, hu⟩ := bind_ok h2
  unfold readObjectStep
  simp only [bindM_def]
  rw [bind_eq_of_ok h1, if_neg hcn, bind_eq_of_ok hb, bind_eq_of_ok hu]
  have hf : findObj u s2 = Except.ok (none, s2) := by
    show Except.ok (alookup s2.objects u, s2) = _
    rw [hmiss]
  rw [bind_eq_of_ok hf]
  show (M.bind (dispatchClass R cn) (fun obj => M.bind readEndBracket (fun _ =>
      M.bind (alloc { obj with uid := u }) (fun inst => M.bind (insertObj u inst) (fun _ =>
        M.pure (some inst)))))) s2 = _
  rw [bind_eq_of_ok hd]
  rfl

theorem dupObjLayerI (R : M (Option Nat)) :
    fieldsObject R (dupS 86) = Except.ok ((), dupS 95) := rfl

theorem dupNodeLayerI (R : M (Option Nat)) :
    fieldsNode R (dupS 95) = Except.ok (none, dupS 106) := rfl

theorem dupGroupLayerI (R : M (Option Nat)) :
    fieldsGroup R { stateSet := none } (dupS 106) =
      Except.ok ({ stateSet := none }, dupS 107) := rfl

theorem dupDispatchI (R : M (Option Nat)) :
    dispatchClass R (lit "osg::Group") (dupS 86) =
      Except.ok ({ body := ObjBody.group {} }, dupS 107) := by
  show readDataGroup R (dupS 86) = _
  show (M.bind (fieldsObject R) (fun _ => M.bind (fieldsNode R) (fun ss =>
      M.bind (fieldsGroup R { stateSet := ss }) (fun o =>
        M.pure ({ body := ObjBody.group o } : HObj))))) (dupS 86) = _
  rw [bind_eq_of_ok (dupObjLayerI R), bind_eq_of_ok (dupNodeLayerI R),
    bind_eq_of_ok (dupGroupLayerI R)]
  rfl

/-- The nested occurrence of identity 5 in `bufDupId` misses the (still
empty) registry and allocates the fresh instance 0. -/
theorem dupInnerParse (n : Nat) :
    readObjectF (n + 1) (dupS 68) = Except.ok (some 0, dupT 107) := by
  show readObjectStep (readObjectF n) (dupS 68) = _
  exact readObjectStep_miss (readObjectF n) (dupS 68) (lit "osg::Group") (dupS 82) 5
    (dupS 86) { body := ObjBody.group {} } (dupS 107) rfl (by decide) rfl rfl
    (dupDispatchI (readObjectF n))

theorem dupChildLoop (n : Nat) :
    readNodeRefs (readObjectF (n + 1)) [none] 1 (dupS 68) =
      Except.ok (([some 0], [some 0]), dupT 107) := by
  unfold readNodeRefs
  show (M.bind (M.bind (readObjectF (n + 1)) (fun r => castIf isNode r))
      (fun a => M.pure ([a], [a]))) (dupS 68) = _
  have hact : M.bind (readObjectF (n + 1)) (fun r => castIf isNode r) (dupS 68) =
      Except.ok (some 0, dupT 107) := by
    rw [bind_eq_of_ok (dupInnerParse n)]
    rfl
  rw [bind_eq_of_ok hact]
  rfl

theorem dupGroupLayerO (n : Nat) :
    fieldsGroup (readObjectF (n + 1)) { stateSet := none } (dupS 63) =
      Except.ok ({ stateSet := none, children := [some 0] }, dupT 107) := by
  unfold fieldsGroup
  simp only [bindM_def]
  rw [bind_eq_of_ok (show readBool (dupS 63) = Except.ok (true, dupS 64) from rfl)]
  rw [if_pos rfl]
  rw [bind_eq_of_ok (show readU32 (dupS 64) = Except.ok (1, dupS 68) from rfl)]
  show (M.bind readBeginBracket (fun _ => M.bind (readNodeRefs (readObjectF (n + 1)) [none] 1)
      (fun p => M.bind readEndBracket (fun _ =>
        M.pure ({ stateSet := none, children := p.1 } : GroupD))))) (dupS 68) = _
  rw [bind_eq_of_ok (show readBeginBracket (dupS 68) = Except.ok ((), dupS 68) from rfl)]
  rw [bind_eq_of_ok (dupChildLoop n)]
  rfl

theorem dupDispatchO (n : Nat) :
    dispatchClass (readObjectF (n + 1)) (lit "osg::Group") (dupS 43) =
      Except.ok ({ body := ObjBody.group { children := [some 0] } }, dupT 107) := by
  show readDataGroup (readObjectF (n + 1)) (dupS 43) = _
  show (M.bind (fieldsObject (readObjectF (n + 1))) (fun _ =>
      M.bind (fieldsNode (readObjectF (n + 1))) (fun ss =>
      M.bind (fieldsGroup (readObjectF (n + 1)) { stateSet := ss }) (fun o =>
        M.pure ({ body := ObjBody.group o } : HObj))))) (dupS 43) = _
  rw [bind_eq_of_ok (show fieldsObject (readObjectF (n + 1)) (dupS 43) =
    Except.ok ((), dupS 52) from rfl)]
  rw [bind_eq_of_ok (show fieldsNode (readObjectF (n + 1)) (dupS 52) =
    Except.ok (none, dupS 63) from rfl)]
  rw [bind_eq_of_ok (dupGroupLayerO n)]
  rfl

/-- The whole root-object read of `bufDupId`, for every sufficient
fuel. -/
theorem dupOuterParse (n : Nat) :
    readObjectF (n + 2) (dupS 25) = Except.ok (some 1, sFinC1) := by
  show readObjectStep (readObjectF (n + 1)) (dupS 25) = _
  exact readObjectStep_miss (readObjectF (n + 1)) (dupS 25) (lit "osg::Group") (dupS 39) 5
    (dupS 43) { body := ObjBody.group { children := [some 0] } } (dupT 107) rfl (by decide)
    rfl rfl (dupDispatchO n)

/-- Counterexample for C1: in `bufDupId` the uniqueId 5 occurs twice -
on the root Group and again on its child back-reference.  The parse
succeeds, but because the dispatcher registers an object only AFTER its
fields are parsed, the second (nested) occurrence misses the registry
and builds a fresh instance: the result's root is heap instance 1, its
only child is the distinct heap instance 0, and both instances carry
uniqueId 5 - the claim that every later occurrence resolves to the first
occurrence's instance fails on this successful parse. -/
theorem c1_counterexample :
    (dataRead bufDupId).map
      (fun o => (o.root, childrenOf o.final o.root, heapUid o.final 0, heapUid o.final 1)) =
      some (1, [some 0], 5, 5) ∧ (0 : Nat) ≠ 1 := by
  have hH : readHeader { buf := bufDupId } = Except.ok ((), dupS 25) := rfl
  have hO : readObjectF (bufDupId.length + 1) (dupS 25) = Except.ok (some 1, sFinC1) := by
    show readObjectF (106 + 2) (dupS 25) = _
    exact dupOuterParse 106
  have hR : runParse bufDupId = Except.ok (some 1, sFinC1) := by
    unfold runParse
    simp only [bindM_def]
    rw [bind_eq_of_ok hH]
    exact hO
  have hD : dataRead bufDupId = some ⟨1, sFinC1⟩ := by
    unfold dataRead
    rw [hR]
    rfl
  refine ⟨?_, by decide⟩
  rw [hD]
  rfl

/-- C1 (amended): when the dispatcher reads a class name, a bracket
prefix and a 4-byte identity that IS already in the object registry, it
returns exactly the cached instance, consumes nothing beyond the class
name, bracket prefix and identity (the final state is the state right
after the identity read), and leaves all three registries and the heap
untouched.  (The registration-after-fields order means this cache hit is
only guaranteed for occurrences after the first occurrence's field
readers have returned; `c1_counterexample` shows the claim's universal
form fails for an occurrence nested inside the first one's fields.) -/
theorem c1_cached_backref (fuel : Nat) (s : St) (cn : List UInt8) (s1 : St)
    (u : Nat) (s2 : St) (inst : Nat)
    (h1 : readStr s = Except.ok (cn, s1)) (hcn : cn ≠ [])
    (h2 : M.bind readBeginBracket (fun _ => readU32) s1 = Except.ok (u, s2))
    (hfind : alookup s.objects u = some inst) :
    readObjectF (fuel + 1) s = Except.ok (some inst, s2) ∧
    s2.objects = s.objects ∧ s2.images = s.images ∧ s2.arrays = s.arrays ∧
    s2.heap = s.heap := by
  obtain ⟨bv, s1b, hb, hu⟩ := bind_ok h2
  obtain ⟨k, hs1, _⟩ := readStr_ok h1
  have hs1b := readBeginBracket_ok hb
  obtain ⟨hs2, _⟩ := readU32_ok hu
  have hpres : s2.objects = s.objects ∧ s2.images = s.images ∧ s2.arrays = s.arrays ∧
      s2.heap = s.heap := by
    rw [hs2, hs1b, hs1]
    exact ⟨rfl, rfl, rfl, rfl⟩
  refine ⟨?_, hpres.1, hpres.2.1, hpres.2.2.1, hpres.2.2.2⟩
  show readObjectStep (readObjectF fuel) s = Except.ok (some inst, s2)
  unfold readObjectStep
  simp only [bindM_def]
  rw [bind_eq_of_ok h1]
  rw [if_neg hcn]
  rw [bind_eq_of_ok hb]
  rw [bind_eq_of_ok hu]
  have hf : findObj u s2 = Except.ok (some inst, s2) := by
    show Except.ok (alookup s2.objects u, s2) = Except.ok (some inst, s2)
    rw [show s2.objects = s.objects from by rw [hs2, hs1b, hs1], hfind]
  rw [bind_eq_of_ok hf]
  rfl

/-- Witness for C1 (amended): on `cachedStC1` the dispatcher returns the
cached instance 3, stops exactly after the 4-byte identity (offset 18),
and the heap is untouched. -/
theorem c1_witness :
    readObjectF 1 cachedStC1 = Except.ok (some 3, { cachedStC1 with pos := 18 }) ∧
    ({ cachedStC1 with pos := 18 } : St).heap = cachedStC1.heap := by
  have h := c1_cached_backref 0 cachedStC1 (lit "osg::Group") { cachedStC1 with pos := 14 } 9
    { cachedStC1 with pos := 18 } 3 (by rfl) (by decide) (by rfl) (by rfl)
  exact ⟨h.1, h.2.2.2.2⟩

theorem c9ObjLayer (R : M (Option Nat)) :
    fieldsObject R (c9S 21) = Except.ok ((), c9S 30) := rfl

theorem c9SSLayer (R : M (Option Nat)) :
    fieldsStateSet R {} (c9S 30) = Except.ok ({}, c9S 54) := rfl

theorem c9Dispatch (R : M (Option Nat)) :
    dispatchClass R (lit "osg::StateSet") (c9S 21) =
      Except.ok ({ body := ObjBody.stateSet {} }, c9S 54) := by
  show readDataStateSet R (c9S 21) = _
  show (M.bind (fieldsObject R) (fun _ => M.bind (fieldsStateSet R {}) (fun ss =>
      M.pure ({ body := ObjBody.stateSet ss } : HObj)))) (c9S 21) = _
  rw [bind_eq_of_ok (c9ObjLayer R), bind_eq_of_ok (c9SSLayer R)]
  rfl

/-- The StateSet child payload of `bufC9` parses fully: instance 0,
identity 2 registered, all 54 bytes consumed. -/
theorem c9Parse (n : Nat) :
    readObjectF (n + 1) (c9S 0) = Except.ok (some 0, stC9Fin) := by
  show readObjectStep (readObjectF n) (c9S 0) = _
  exact readObjectStep_miss (readObjectF n) (c9S 0) (lit "osg::StateSet") (c9S 17) 2
    (c9S 21) { body := ObjBody.stateSet {} } (c9S 54) rfl (by decide) rfl rfl
    (c9Dispatch (readObjectF n))

/-- The child loop over the StateSet payload: the cast to Node nulls the
entry, while the StateSet stays parsed and registered. -/
theorem c9Loop :
    readNodeRefs (readObjectF 1) [none] 1 (c9S 0) =
      Except.ok (([none], [none]), stC9Fin) := by
  unfold readNodeRefs
  show (M.bind (M.bind (readObjectF 1) (fun r => castIf isNode r))
      (fun a => M.pure ([a], [a]))) (c9S 0) = _
  have hact : M.bind (readObjectF 1) (fun r => castIf isNode r) (c9S 0) =
      Except.ok (none, stC9Fin) := by
    rw [bind_eq_of_ok (c9Parse 0)]
    rfl
  rw [bind_eq_of_ok hact]
  rfl

theorem zipWith_fst : ∀ (gs : List α) (l : List β), gs.length = l.length →
    List.zipWith (fun a _ => a) gs l = gs := by
  intro gs
  induction gs with
  | nil => intro l _; rfl
  | cons g t ih =>
    intro l hl
    cases l with
    | nil => cases hl
    | cons b bt =>
      simp only [List.zipWith_cons_cons]
      rw [ih bt (by simpa using hl)]

/-- C9: (1) the Group/PagedLOD child loop over a slot list of length `n`
produces a children list of exactly `n` entries, and entry `i` is
exactly the `i`-th loop-body result (the `dynamic_pointer_cast<Node>` of
the dispatched object - so a non-Node child object is kept as a null
entry in place, not dropped); (2) the same for the Geode drawable loop;
(3) the Group field layer stores the loop's list verbatim as the
children sequence of size given by the wire count; (4) concretely,
running the child loop over an osg::StateSet child payload consumes all
54 of its bytes, registers the StateSet as instance 0 under identity 2,
and stores a null child entry. -/
theorem c9_children_null_entries :
    (∀ rec (l : List (Option Nat)) (n : Nat) (s : St) cs gs s',
        readNodeRefs rec l n s = Except.ok ((cs, gs), s') → l.length = n →
        cs.length = n ∧ cs = gs) ∧
    (∀ rec (l : List (Option Nat)) (n : Nat) (s : St) ds gs s',
        readDrawableRefs rec l n s = Except.ok ((ds, gs), s') → l.length = n →
        ds.length = n ∧ ds = gs) ∧
    (∀ rec (obj : GroupD) (s s1 s2 s3 s4 : St) (n : Nat) cs gs,
        readBool s = Except.ok (true, s1) →
        readU32 s1 = Except.ok (n, s2) →
        readBeginBracket s2 = Except.ok ((), s3) →
        readNodeRefs rec (resizeL none obj.children n) n s3 = Except.ok ((cs, gs), s4) →
        fieldsGroup rec obj s = Except.ok ({ obj with children := cs }, s4)) ∧
    (readNodeRefs (readObjectF 1) [none] 1 (c9S 0) =
        Except.ok (([none], [none]), stC9Fin) ∧
      bufC9.length = 54 ∧ alookup stC9Fin.objects 2 = some 0 ∧
      isStateSet (heapBody stC9Fin 0) = true) := by
  have loopZip : ∀ (act : M (Option Nat)) (l : List (Option Nat)) (n : Nat) (s : St) cs gs s',
      setN act (fun a _ => a) 0 n l s = Except.ok ((cs, gs), s') → l.length = n →
      cs.length = n ∧ cs = gs := by
    intro act l n s cs gs s' h hl
    have h' : setN act (fun a _ => a) ([] : List (Option Nat)).length n ([] ++ l) s =
        Except.ok ((cs, gs), s') := h
    obtain ⟨hg, hp⟩ := setN_zip h' hl
    have hg2 : gs.length = n := hg
    have hp2 : cs = [] ++ List.zipWith (fun a (_ : Option Nat) => a) gs l := hp
    rw [List.nil_append] at hp2
    have hcg : cs = gs := by
      rw [hp2, zipWith_fst gs l (by rw [hg2, hl])]
    exact ⟨by rw [hcg, hg2], hcg⟩
  refine ⟨?_, ?_, ?_, c9Loop, rfl, rfl, rfl⟩
  · intro rec l n s cs gs s' h hl
    exact loopZip _ l n s cs gs s' h hl
  · intro rec l n s ds gs s' h hl
    exact loopZip _ l n s ds gs s' h hl
  · intro rec obj s s1 s2 s3 s4 n cs gs h1 h2 h3 h4
    unfold fieldsGroup
    simp only [bindM_def]
    rw [bind_eq_of_ok h1, if_pos rfl, bind_eq_of_ok h2]
    show (M.bind readBeginBracket (fun _ =>
        M.bind (readNodeRefs rec (resizeL none obj.children n) n) (fun p =>
        M.bind readEndBracket (fun _ =>
          M.pure ({ obj with children := p.1 } : GroupD))))) s2 = _
    rw [bind_eq_of_ok h3, bind_eq_of_ok h4]
    rfl

theorem resizeL_length (d : β) (l : List β) (n : Nat) : (resizeL d l n).length = n := by
  simp only [resizeL, List.length_append, List.length_take, List.length_replicate]
  omega

theorem zipWith_map_keep (f : α → β → β) (g : β → γ) (hk : ∀ a b, g (f a b) = g b) :
    ∀ (as : List α) (bs : List β), as.length = bs.length →
      (List.zipWith f as bs).map g = bs.map g := by
  intro as
  induction as with
  | nil =>
    intro bs hl
    cases bs with
    | nil => rfl
    | cons b bt => cases hl
  | cons a t ih =>
    intro bs hl
    cases bs with
    | nil => cases hl
    | cons b bt =>
      simp only [List.zipWith_cons_cons, List.map_cons, hk]
      rw [ih bt (by simpa using hl)]

theorem zipWith_map_self (f : α → β → β) (g : β → α) (hk : ∀ a b, g (f a b) = a) :
    ∀ (as : List α) (bs : List β), as.length = bs.length →
      (List.zipWith f as bs).map g = as := by
  intro as
  induction as with
  | nil => intro bs _; rfl
  | cons a t ih =>
    intro bs hl
    cases bs with
    | nil => cases hl
    | cons b bt =>
      simp only [List.zipWith_cons_cons, List.map_cons, hk]
      rw [ih bt (by simpa using hl)]

theorem c6Loop1 :
    setN readStr (fun fn (e : RangeData) => { e with filename := fn }) 0 2
      ([default, default] : List RangeData) (c6S 4) =
    Except.ok ((([{ filename := lit "a.osgb" }, { filename := lit "b.osgb" }] : List RangeData),
      [lit "a.osgb", lit "b.osgb"]), c6S 24) := rfl

theorem c6Loop2c :
    setN act2C6 upd2C6 2 1 [r1C6, r2C6, default] (c6S 44) =
      Except.ok (([r1C6, r2C6, r3C6], [((0x3E800000 : Nat), (0x3FA00000 : Nat))]), c6S 52) := by
  show (M.bind act2C6 (fun a => M.pure ([r1C6, r2C6, upd2C6 a default], [a]))) (c6S 44) = _
  rw [bind_eq_of_ok
    (show act2C6 (c6S 44) = Except.ok (((0x3E800000 : Nat), (0x3FA00000 : Nat)), c6S 52) from rfl)]
  rfl

theorem c6Loop2b :
    setN act2C6 upd2C6 1 2 [r1C6, { filename := lit "b.osgb" }, default] (c6S 36) =
      Except.ok (([r1C6, r2C6, r3C6],
        [((0x3F000000 : Nat), (0x3FC00000 : Nat)), ((0x3E800000 : Nat), (0x3FA00000 : Nat))]),
        c6S 52) := by
  show (M.bind act2C6 (fun a =>
      M.bind (setN act2C6 upd2C6 2 1 [r1C6, upd2C6 a { filename := lit "b.osgb" }, default])
        (fun p => M.pure (p.1, a :: p.2)))) (c6S 36) = _
  rw [bind_eq_of_ok
    (show act2C6 (c6S 36) = Except.ok (((0x3F000000 : Nat), (0x3FC00000 : Nat)), c6S 44) from rfl)]
  show (M.bind (setN act2C6 upd2C6 2 1 [r1C6, r2C6, default])
      (fun p => M.pure (p.1, ((0x3F000000 : Nat), (0x3FC00000 : Nat)) :: p.2))) (c6S 44) = _
  rw [bind_eq_of_ok c6Loop2c]
  rfl

theorem c6Loop2a :
    setN act2C6 upd2C6 0 3
      ([{ filename := lit "a.osgb" }, { filename := lit "b.osgb" }, default] : List RangeData)
      (c6S 28) =
      Except.ok (([r1C6, r2C6, r3C6], pairsC6), c6S 52) := by
  show (M.bind act2C6 (fun a =>
      M.bind (setN act2C6 upd2C6 1 2
          [upd2C6 a { filename := lit "a.osgb" }, { filename := lit "b.osgb" }, default])
        (fun p => M.pure (p.1, a :: p.2)))) (c6S 28) = _
  rw [bind_eq_of_ok
    (show act2C6 (c6S 28) = Except.ok (((0 : Nat), (0x3F800000 : Nat)), c6S 36) from rfl)]
  show (M.bind (setN act2C6 upd2C6 1 2 [r1C6, { filename := lit "b.osgb" }, default])
      (fun p => M.pure (p.1, ((0 : Nat), (0x3F800000 : Nat)) :: p.2))) (c6S 36) = _
  rw [bind_eq_of_ok c6Loop2b]
  rfl

/-- The whole RangedDataList block of `bufC6`, stepped through
layer-by-layer. -/
theorem c6Run :
    readRangedDataList [] (c6S 0) =
      Except.ok (((2, 3, [lit "a.osgb", lit "b.osgb"], pairsC6), rdC6), c6S 52) := by
  unfold readRangedDataList
  simp only [bindM_def, pureM_def]
  rw [bind_eq_of_ok (show readU32 (c6S 0) = Except.ok (2, c6S 4) from rfl)]
  show (M.bind readBeginBracket (fun _ =>
      M.bind (setN readStr (fun fn (e : RangeData) => { e with filename := fn }) 0 2
          [default, default]) (fun p =>
      M.bind readEndBracket (fun _ =>
      M.bind readU32 (fun psize =>
      M.bind readBeginBracket (fun _ =>
      M.bind (setN act2C6 upd2C6 0 psize
          (if psize > 2 then resizeL default p.1 psize else p.1)) (fun q =>
      M.bind readEndBracket (fun _ =>
      M.pure ((2, psize, p.2, q.2), q.1))))))))) (c6S 4) = _
  rw [bind_eq_of_ok (show readBeginBracket (c6S 4) = Except.ok ((), c6S 4) from rfl)]
  rw [bind_eq_of_ok c6Loop1]
  rw [bind_eq_of_ok (show readEndBracket (c6S 24) = Except.ok ((), c6S 24) from rfl)]
  rw [bind_eq_of_ok (show readU32 (c6S 24) = Except.ok (3, c6S 28) from rfl)]
  rw [bind_eq_of_ok (show readBeginBracket (c6S 28) = Except.ok ((), c6S 28) from rfl)]
  show (M.bind (setN act2C6 upd2C6 0 3
      ([{ filename := lit "a.osgb" }, { filename := lit "b.osgb" }, default] : List RangeData))
      (fun q => M.bind readEndBracket (fun _ =>
        M.pure ((2, 3, [lit "a.osgb", lit "b.osgb"], q.2), q.1)))) (c6S 28) = _
  rw [bind_eq_of_ok c6Loop2a]
  rfl

/-- C6: when the RangedDataList block reads psize > fsize, the resulting
rangeDataList has exactly psize entries; entry-by-entry, its filenames
are the fsize filenames read from the stream followed by psize - fsize
empty filenames, and its priority pairs are exactly the psize pairs read
from the stream; the ghost observations have the corresponding
lengths. -/
theorem c6_rangedata_expansion (rd0 : List RangeData) (s : St)
    (fsize psize : Nat) (fnames : List (List UInt8)) (pairs : List (Nat × Nat))
    (rd : List RangeData) (s' : St)
    (h : readRangedDataList rd0 s = Except.ok (((fsize, psize, fnames, pairs), rd), s'))
    (hgt : fsize < psize) :
    rd.length = psize ∧
    rd.map RangeData.filename = fnames ++ List.replicate (psize - fsize) [] ∧
    rd.map (fun e => (e.priorityOffset, e.priorityScale)) = pairs ∧
    fnames.length = fsize ∧ pairs.length = psize := by
  unfold readRangedDataList at h
  simp only [bindM_def] at h
  obtain ⟨fs1, s1, hfs, h⟩ := bind_ok h
  obtain ⟨u2, s2, hbb, h⟩ := bind_ok h
  obtain ⟨p1, s3, hset1, h⟩ := bind_ok h
  obtain ⟨rdF, fnames1⟩ := p1
  obtain ⟨u4, s4, heb, h⟩ := bind_ok h
  obtain ⟨ps1, s5, hps, h⟩ := bind_ok h
  obtain ⟨u6, s6, hbb2, h⟩ := bind_ok h
  obtain ⟨p2, s7, hset2, h⟩ := bind_ok h
  obtain ⟨rdP, pairs1⟩ := p2
  obtain ⟨u8, s8, heb2, h⟩ := bind_ok h
  obtain ⟨heq, hs⟩ := pure_ok h
  injection heq with heq1 heqrd
  injection heq1 with heqf heq2
  injection heq2 with heqp heq3
  injection heq3 with heqfn heqpr
  subst heqf
  subst heqp
  subst heqfn
  subst heqpr
  subst heqrd
  have hset1' : setN readStr (fun fn e => { e with filename := fn })
      ([] : List RangeData).length fsize ([] ++ resizeL default rd0 fsize) s2 =
      Except.ok ((rdF, fnames), s3) := hset1
  obtain ⟨hfl, hrdF⟩ := setN_zip hset1' (resizeL_length default rd0 fsize)
  have hfl2 : fnames.length = fsize := hfl
  have hrdF2 : rdF = List.zipWith (fun fn e => { e with filename := fn }) fnames
      (resizeL default rd0 fsize) := by
    have h0 : rdF = [] ++ List.zipWith (fun fn e => { e with filename := fn }) fnames
        (resizeL default rd0 fsize) := hrdF
    rw [List.nil_append] at h0
    exact h0
  rw [if_pos hgt] at hset2
  have hset2' : setN (M.bind readF32 (fun po => M.bind readF32 (fun ps => M.pure (po, ps))))
      (fun a e => { e with priorityOffset := a.1, priorityScale := a.2 })
      ([] : List RangeData).length psize ([] ++ resizeL default rdF psize) s6 =
      Except.ok ((rd, pairs), s7) := hset2
  obtain ⟨hpl, hrdP⟩ := setN_zip hset2' (resizeL_length default rdF psize)
  have hpl2 : pairs.length = psize := hpl
  have hrdP2 : rd = List.zipWith
      (fun a e => { e with priorityOffset := a.1, priorityScale := a.2 }) pairs
      (resizeL default rdF psize) := by
    have h0 : rd = [] ++ List.zipWith
        (fun a e => { e with priorityOffset := a.1, priorityScale := a.2 }) pairs
        (resizeL default rdF psize) := hrdP
    rw [List.nil_append] at h0
    exact h0
  have hrdFlen : rdF.length = fsize := by
    rw [hrdF2, List.length_zipWith, resizeL_length, hfl2, Nat.min_self]
  have hR : resizeL default rdF psize = rdF ++ List.replicate (psize - fsize) default := by
    unfold resizeL
    rw [List.take_of_length_le (by rw [hrdFlen]; omega), hrdFlen]
  refine ⟨?_, ?_, ?_, hfl2, hpl2⟩
  · rw [hrdP2, List.length_zipWith, resizeL_length, hpl2, Nat.min_self]
  · rw [hrdP2]
    rw [zipWith_map_keep (fun a e => { e with priorityOffset := a.1, priorityScale := a.2 })
      RangeData.filename (fun a b => rfl) pairs (resizeL default rdF psize)
      (by rw [hpl2, resizeL_length])]
    rw [hR, List.map_append, List.map_replicate, hrdF2]
    rw [zipWith_map_self (fun fn e => { e with filename := fn }) RangeData.filename
      (fun a b => rfl) fnames (resizeL default rd0 fsize)
      (by rw [hfl2, resizeL_length])]
    rfl
  · rw [hrdP2]
    rw [zipWith_map_self (fun a e => { e with priorityOffset := a.1, priorityScale := a.2 })
      (fun e => (e.priorityOffset, e.priorityScale)) (fun a b => rfl) pairs
      (resizeL default rdF psize) (by rw [hpl2, resizeL_length])]

/-- Witness for C6: the spec's example block - two filenames, three
priority pairs - expands to three entries with an empty third filename
and all three priority pairs stored. -/
theorem c6_witness :
    rdC6.length = 3 ∧
    rdC6.map RangeData.filename = [lit "a.osgb", lit "b.osgb"] ++ List.replicate 1 [] ∧
    rdC6.map (fun e => (e.priorityOffset, e.priorityScale)) = pairsC6 ∧
    ([lit "a.osgb", lit "b.osgb"] : List (List UInt8)).length = 2 ∧ pairsC6.length = 3 := by
  have h := c6_rangedata_expansion [] (c6S 0) 2 3 [lit "a.osgb", lit "b.osgb"]
    pairsC6 rdC6 (c6S 52) c6Run (by decide)
  exact h

/-- Witness for C9: the loop lemma applied to a two-slot loop whose body
consumes nothing and returns null, and the Group-layer lemma applied to
the five-byte block flag 1 / count 2 / empty loop body. -/
theorem c9_witness :
    (([none, none] : List (Option Nat)).length = 2 ∧
      ([none, none] : List (Option Nat)) = [none, none]) ∧
    fieldsGroup (M.pure none) {} { buf := [1, 2, 0, 0, 0] } =
      Except.ok ({ stateSet := none, children := [none, none] },
        { buf := [1, 2, 0, 0, 0], pos := 5 }) := by
  constructor
  · exact c9_children_null_entries.1 (M.pure none) [none, none] 2 { buf := [] }
      [none, none] [none, none] { buf := [] } (by rfl) (by rfl)
  · exact c9_children_null_entries.2.2.1 (M.pure none) {} { buf := [1, 2, 0, 0, 0] }
      { buf := [1, 2, 0, 0, 0], pos := 1 } { buf := [1, 2, 0, 0, 0], pos := 5 }
      { buf := [1, 2, 0, 0, 0], pos := 5 } { buf := [1, 2, 0, 0, 0], pos := 5 }
      2 [none, none] [none, none] (by rfl) (by rfl) (by rfl) (by rfl)

/-- Registry-miss path of the spec-modelled dispatcher: the placeholder
instance is allocated and registered BEFORE the field readers run, and
overwritten with the completed object afterwards. -/
theorem readObjectSpecStep_miss (R : M (Option Nat)) (s : St) (cn : List UInt8) (s1 : St)
    (u : Nat) (s2 : St) (obj : HObj) (s3 : St)
    (h1 : readStr s = Except.ok (cn, s1)) (hcn : cn ≠ [])
    (h2 : M.bind readBeginBracket (fun _ => readU32) s1 = Except.ok (u, s2))
    (hmiss : alookup s2.objects u = none)
    (hd : dispatchClass R cn
      { s2 with
        objects := ainsert s2.objects u s2.heap.length
        heap := s2.heap ++ [{ uid := u, body := bodyDefaultFor cn }] } =
      Except.ok (obj, s3)) :
    readObjectSpecStep R s = Except.ok (some s2.heap.length,
      { s3 with heap := s3.heap.set s2.heap.length { obj with uid := u } }) := by
  obtain ⟨bv, s1b, hb, hu⟩ := bind_ok h2
  unfold readObjectSpecStep
  simp only [bindM_def]
  rw [bind_eq_of_ok h1, if_neg hcn, bind_eq_of_ok hb, bind_eq_of_ok hu]
  have hf : findObj u s2 = Except.ok (none, s2) := by
    show Except.ok (alookup s2.objects u, s2) = _
    rw [hmiss]
  rw [bind_eq_of_ok hf]
  show (M.bind (dispatchClass R cn) (fun obj => M.bind readEndBracket (fun _ =>
      M.bind (setHeap s2.heap.length { obj with uid := u }) (fun _ =>
        M.pure (some s2.heap.length)))))
    { s2 with
      objects := ainsert s2.objects u s2.heap.length
      heap := s2.heap ++ [{ uid := u, body := bodyDefaultFor cn }] } = _
  rw [bind_eq_of_ok hd]
  rfl

theorem selFieldsObjErr (n : Nat) :
    fieldsObject (readObjectF n) (selS 86) = Except.error ⟨86, ErrMsg.readBeyond⟩ := rfl

theorem selDispatchErrI (n : Nat) :
    dispatchClass (readObjectF n) (lit "osg::Group") (selS 86) =
      Except.error ⟨86, ErrMsg.readBeyond⟩ := by
  show readDataGroup (readObjectF n) (selS 86) = _
  show (M.bind (fieldsObject (readObjectF n)) (fun _ =>
      M.bind (fieldsNode (readObjectF n)) (fun ss =>
      M.bind (fieldsGroup (readObjectF n) { stateSet := ss }) (fun o =>
        M.pure ({ body := ObjBody.group o } : HObj))))) (selS 86) = _
  rw [bind_eq_of_error (selFieldsObjErr n)]

/-- The bare inner back-reference of `bufSelfRef` misses the registry
(the root has not been registered yet) and dies re-parsing a full object
past the buffer end. -/
theorem selInnerErr (n : Nat) :
    readObjectF (n + 1) (selS 68) = Except.error ⟨86, ErrMsg.readBeyond⟩ := by
  show readObjectStep (readObjectF n) (selS 68) = _
  unfold readObjectStep
  simp only [bindM_def]
  rw [bind_eq_of_ok (show readStr (selS 68) = Except.ok (lit "osg::Group", selS 82) from rfl)]
  rw [if_neg (by decide)]
  rw [bind_eq_of_ok (show readBeginBracket (selS 82) = Except.ok ((), selS 82) from rfl)]
  rw [bind_eq_of_ok (show readU32 (selS 82) = Except.ok (7, selS 86) from rfl)]
  rw [bind_eq_of_ok (show findObj 7 (selS 86) = Except.ok (none, selS 86) from rfl)]
  show (M.bind (dispatchClass (readObjectF n) (lit "osg::Group")) (fun obj =>
      M.bind readEndBracket (fun _ =>
      M.bind (alloc { obj with uid := 7 }) (fun inst =>
      M.bind (insertObj 7 inst) (fun _ => M.pure (some inst)))))) (selS 86) = _
  rw [bind_eq_of_error (selDispatchErrI n)]

theorem selLoopErr (n : Nat) :
    readNodeRefs (readObjectF (n + 1)) [none] 1 (selS 68) =
      Except.error ⟨86, ErrMsg.readBeyond⟩ := by
  unfold readNodeRefs
  show (M.bind (M.bind (readObjectF (n + 1)) (fun r => castIf isNode r))
      (fun a => M.pure ([a], [a]))) (selS 68) = _
  have hact : M.bind (readObjectF (n + 1)) (fun r => castIf isNode r) (selS 68) =
      Except.error ⟨86, ErrMsg.readBeyond⟩ := by
    rw [bind_eq_of_error (selInnerErr n)]
  rw [bind_eq_of_error hact]

theorem selGroupErr (n : Nat) :
    fieldsGroup (readObjectF (n + 1)) { stateSet := none } (selS 63) =
      Except.error ⟨86, ErrMsg.readBeyond⟩ := by
  unfold fieldsGroup
  simp only [bindM_def]
  rw [bind_eq_of_ok (show readBool (selS 63) = Except.ok (true, selS 64) from rfl)]
  rw [if_pos rfl]
  rw [bind_eq_of_ok (show readU32 (selS 64) = Except.ok (1, selS 68) from rfl)]
  show (M.bind readBeginBracket (fun _ =>
      M.bind (readNodeRefs (readObjectF (n + 1)) [none] 1) (fun p =>
      M.bind readEndBracket (fun _ =>
        M.pure ({ stateSet := none, children := p.1 } : GroupD))))) (selS 68) = _
  rw [bind_eq_of_ok (show readBeginBracket (selS 68) = Except.ok ((), selS 68) from rfl)]
  rw [bind_eq_of_error (selLoopErr n)]

theorem selDispatchErrO (n : Nat) :
    dispatchClass (readObjectF (n + 1)) (lit "osg::Group") (selS 43) =
      Except.error ⟨86, ErrMsg.readBeyond⟩ := by
  show readDataGroup (readObjectF (n + 1)) (selS 43) = _
  show (M.bind (fieldsObject (readObjectF (n + 1))) (fun _ =>
      M.bind (fieldsNode (readObjectF (n + 1))) (fun ss =>
      M.bind (fieldsGroup (readObjectF (n + 1)) { stateSet := ss }) (fun o =>
        M.pure ({ body := ObjBody.group o } : HObj))))) (selS 43) = _
  rw [bind_eq_of_ok (show fieldsObject (readObjectF (n + 1)) (selS 43) =
    Except.ok ((), selS 52) from rfl)]
  rw [bind_eq_of_ok (show fieldsNode (readObjectF (n + 1)) (selS 52) =
    Except.ok (none, selS 63) from rfl)]
  rw [bind_eq_of_error (selGroupErr n)]

theorem selOuterErr (n : Nat) :
    readObjectF (n + 2) (selS 25) = Except.error ⟨86, ErrMsg.readBeyond⟩ := by
  show readObjectStep (readObjectF (n + 1)) (selS 25) = _
  unfold readObjectStep
  simp only [bindM_def]
  rw [bind_eq_of_ok (show readStr (selS 25) = Except.ok (lit "osg::Group", selS 39) from rfl)]
  rw [if_neg (by decide)]
  rw [bind_eq_of_ok (show readBeginBracket (selS 39) = Except.ok ((), selS 39) from rfl)]
  rw [bind_eq_of_ok (show readU32 (selS 39) = Except.ok (7, selS 43) from rfl)]
  rw [bind_eq_of_ok (show findObj 7 (selS 43) = Except.ok (none, selS 43) from rfl)]
  show (M.bind (dispatchClass (readObjectF (n + 1)) (lit "osg::Group")) (fun obj =>
      M.bind readEndBracket (fun _ =>
      M.bind (alloc { obj with uid := 7 }) (fun inst =>
      M.bind (insertObj 7 inst) (fun _ => M.pure (some inst)))))) (selS 43) = _
  rw [bind_eq_of_error (selDispatchErrO n)]

theorem selSpecInner (R : M (Option Nat)) :
    readObjectSpecStep R (selT 68) = Except.ok (some 0, selT 86) := rfl

theorem selSpecLoop (n : Nat) :
    readNodeRefs (readObjectSpecF (n + 1)) [none] 1 (selT 68) =
      Except.ok (([some 0], [some 0]), selT 86) := by
  unfold readNodeRefs
  show (M.bind (M.bind (readObjectSpecF (n + 1)) (fun r => castIf isNode r))
      (fun a => M.pure ([a], [a]))) (selT 68) = _
  have hin : readObjectSpecF (n + 1) (selT 68) = Except.ok (some 0, selT 86) :=
    selSpecInner (readObjectSpecF n)
  have hact : M.bind (readObjectSpecF (n + 1)) (fun r => castIf isNode r) (selT 68) =
      Except.ok (some 0, selT 86) := by
    rw [bind_eq_of_ok hin]
    rfl
  rw [bind_eq_of_ok hact]
  rfl

theorem selSpecGroup (n : Nat) :
    fieldsGroup (readObjectSpecF (n + 1)) { stateSet := none } (selT 63) =
      Except.ok ({ stateSet := none, children := [some 0] }, selT 86) := by
  unfold fieldsGroup
  simp only [bindM_def]
  rw [bind_eq_of_ok (show readBool (selT 63) = Except.ok (true, selT 64) from rfl)]
  rw [if_pos rfl]
  rw [bind_eq_of_ok (show readU32 (selT 64) = Except.ok (1, selT 68) from rfl)]
  show (M.bind readBeginBracket (fun _ =>
      M.bind (readNodeRefs (readObjectSpecF (n + 1)) [none] 1) (fun p =>
      M.bind readEndBracket (fun _ =>
        M.pure ({ stateSet := none, children := p.1 } : GroupD))))) (selT 68) = _
  rw [bind_eq_of_ok (show readBeginBracket (selT 68) = Except.ok ((), selT 68) from rfl)]
  rw [bind_eq_of_ok (selSpecLoop n)]
  rfl

theorem selSpecDispatch (n : Nat) :
    dispatchClass (readObjectSpecF (n + 1)) (lit "osg::Group") (selT 43) =
      Except.ok ({ body := ObjBody.group { children := [some 0] } }, selT 86) := by
  show readDataGroup (readObjectSpecF (n + 1)) (selT 43) = _
  show (M.bind (fieldsObject (readObjectSpecF (n + 1))) (fun _ =>
      M.bind (fieldsNode (readObjectSpecF (n + 1))) (fun ss =>
      M.bind (fieldsGroup (readObjectSpecF (n + 1)) { stateSet := ss }) (fun o =>
        M.pure ({ body := ObjBody.group o } : HObj))))) (selT 43) = _
  rw [bind_eq_of_ok (show fieldsObject (readObjectSpecF (n + 1)) (selT 43) =
    Except.ok ((), selT 52) from rfl)]
  rw [bind_eq_of_ok (show fieldsNode (readObjectSpecF (n + 1)) (selT 52) =
    Except.ok (none, selT 63) from rfl)]
  rw [bind_eq_of_ok (selSpecGroup n)]
  rfl

/-- The spec-modelled root read of `bufSelfRef`: the placeholder is
registered first, the nested back-reference hits it, and the completed
root contains itself as its only child. -/
theorem selSpecOuter (n : Nat) :
    readObjectSpecF (n + 2) (selS 25) = Except.ok (some 0, specFinC3) := by
  show readObjectSpecStep (readObjectSpecF (n + 1)) (selS 25) = _
  exact readObjectSpecStep_miss (readObjectSpecF (n + 1)) (selS 25) (lit "osg::Group")
    (selS 39) 7 (selS 43) { body := ObjBody.group { children := [some 0] } } (selT 86)
    rfl (by decide) rfl rfl (selSpecDispatch n)

/-- Counterexample for C3: on `bufSelfRef` - a root Group whose single
child is a bare back-reference to the root's own identity 7, the buffer
ending right there - the source parser FAILS: `readObject` registers an
object only after its fields are parsed, so the nested occurrence of
identity 7 misses the registry and re-parses a full object past the
buffer end ("read beyond data length" at offset 86).  The spec-modelled
register-before-fields dispatcher (`dataReadSpec`, identical except for
the registration point) parses the same buffer successfully and resolves
the self-reference to the same instance.  Hence the claim's lifecycle
sentence (registration before the field readers, self-reference
resolves) is false of the source for dispatcher objects. -/
theorem c3_counterexample :
    dataRead bufSelfRef = none ∧
    dataReadError bufSelfRef = some ⟨86, ErrMsg.readBeyond⟩ ∧
    (dataReadSpec bufSelfRef).map
      (fun o => (o.root, childrenOf o.final o.root, heapUid o.final o.root)) =
      some (0, [some 0], 7) := by
  have hRun : runParse bufSelfRef = Except.error ⟨86, ErrMsg.readBeyond⟩ := by
    unfold runParse
    simp only [bindM_def]
    rw [bind_eq_of_ok (show readHeader { buf := bufSelfRef } = Except.ok ((), selS 25) from rfl)]
    show readObjectF (85 + 2) (selS 25) = _
    exact selOuterErr 85
  have hO : readObjectSpecF (bufSelfRef.length + 1) (selS 25) =
      Except.ok (some 0, specFinC3) := by
    show readObjectSpecF (85 + 2) (selS 25) = _
    exact selSpecOuter 85
  have hSpec : dataReadSpec bufSelfRef = some ⟨0, specFinC3⟩ := by
    unfold dataReadSpec
    simp only [bindM_def]
    rw [bind_eq_of_ok (show readHeader { buf := bufSelfRef } = Except.ok ((), selS 25) from rfl)]
    rw [hO]
    rfl
  refine ⟨?_, ?_, ?_⟩
  · unfold dataRead
    rw [hRun]
  · unfold dataReadError
    rw [hRun]
  · rw [hSpec]
    rfl

/-- C3 (amended): the registration points of the three entity kinds.
(1) Dispatcher objects register AFTER their fields: on a registry miss
the field-reader chain (`dispatchClass`) runs against the state `s2` in
which the identity is still unregistered, and the completed instance is
allocated and registered only afterwards.  (2) Inline images register
BEFORE their remaining payload: after flag, class name (version > 94),
identity and a registry miss, `readImage` continues as `readImageTail`
from a state in which the fresh image instance is already allocated and
registered.  (3) Inline arrays likewise: after flag, identity, miss and
type tag 16, `ReadArray` continues as `readArrayTail` with the fresh
Vec3Array instance already allocated and registered. -/
theorem c3_register_timing :
    (∀ (R : M (Option Nat)) (s : St) (cn : List UInt8) (s1 : St) (u : Nat) (s2 : St)
        (obj : HObj) (s3 : St),
      readStr s = Except.ok (cn, s1) → cn ≠ [] →
      M.bind readBeginBracket (fun _ => readU32) s1 = Except.ok (u, s2) →
      alookup s2.objects u = none →
      dispatchClass R cn s2 = Except.ok (obj, s3) →
      readObjectStep R s = Except.ok (some s3.heap.length,
        { s3 with
          heap := s3.heap ++ [{ obj with uid := u }]
          objects := ainsert s3.objects u s3.heap.length })) ∧
    (∀ (R : M (Option Nat)) (s s1 : St) (cn : List UInt8) (s2 : St) (u : Nat) (s3 : St),
      readBool s = Except.ok (true, s1) → 94 < s1.version →
      readStr s1 = Except.ok (cn, s2) → readU32 s2 = Except.ok (u, s3) →
      alookup s3.images u = none →
      readImage R s = readImageTail R s3.heap.length
        { s3 with
          heap := s3.heap ++ [{ uid := u, body := ObjBody.image {} }]
          images := ainsert s3.images u s3.heap.length }) ∧
    (∀ (s s1 : St) (u : Nat) (s2 s3 : St),
      readBool s = Except.ok (true, s1) → readU32 s1 = Except.ok (u, s2) →
      alookup s2.arrays u = none → readI32 s2 = Except.ok (16, s3) →
      readArray s = readArrayTail s3.heap.length
        { s3 with
          heap := s3.heap ++ [{ uid := u, body := ObjBody.vec3Array vec3ArrD }]
          arrays := ainsert s3.arrays u s3.heap.length }) := by
  refine ⟨?_, ?_, ?_⟩
  · intro R s cn s1 u s2 obj s3 h1 hcn h2 hmiss hd
    exact readObjectStep_miss R s cn s1 u s2 obj s3 h1 hcn h2 hmiss hd
  · intro R s s1 cn s2 u s3 h1 hv h2 h3 hmiss
    unfold readImage
    simp only [bindM_def, pureM_def]
    rw [bind_eq_of_ok h1, if_pos rfl]
    rw [bind_eq_of_ok (show getVersion s1 = Except.ok (s1.version, s1) from rfl)]
    have hmf : mIf (94 < s1.version) (M.bind readStr (fun _ => M.pure ())) (M.pure ()) s1 =
        Except.ok ((), s2) := by
      unfold mIf
      rw [if_pos hv]
      rw [bind_eq_of_ok h2]
      rfl
    rw [bind_eq_of_ok hmf]
    rw [bind_eq_of_ok h3]
    have hf : findImg u s3 = Except.ok (none, s3) := by
      show Except.ok (alookup s3.images u, s3) = _
      rw [hmiss]
    rw [bind_eq_of_ok hf]
    show (M.bind (alloc { uid := u, body := ObjBody.image {} }) (fun inst =>
        M.bind (insertImg u inst) (fun _ => readImageTail R inst))) s3 = _
    rfl
  · intro s s1 u s2 s3 h1 h2 hmiss ht
    unfold readArray
    simp only [bindM_def, pureM_def]
    rw [bind_eq_of_ok h1, if_pos rfl, bind_eq_of_ok h2]
    have hf : findArr u s2 = Except.ok (none, s2) := by
      show Except.ok (alookup s2.arrays u, s2) = _
      rw [hmiss]
    rw [bind_eq_of_ok hf]
    show (M.bind readI32 (fun t =>
        M.bind (mIf (t = 15) (M.pure (ObjBody.vec2Array vec2ArrD))
          (mIf (t = 16) (M.pure (ObjBody.vec3Array vec3ArrD))
            (mIf (t = 17) (M.pure (ObjBody.vec4Array vec4ArrD))
              (throwCur (ErrMsg.unsupportedArrayType t))))) (fun body =>
        M.bind (alloc { uid := u, body := body }) (fun inst =>
        M.bind (insertArr u inst) (fun _ => readArrayTail inst))))) s2 = _
    rw [bind_eq_of_ok ht]
    have hbody : mIf ((16 : Int) = 15) (M.pure (ObjBody.vec2Array vec2ArrD))
        (mIf ((16 : Int) = 16) (M.pure (ObjBody.vec3Array vec3ArrD))
          (mIf ((16 : Int) = 17) (M.pure (ObjBody.vec4Array vec4ArrD))
            (throwCur (ErrMsg.unsupportedArrayType 16)))) s3 =
        Except.ok (ObjBody.vec3Array vec3ArrD, s3) := by
      unfold mIf
      rw [if_neg (by decide), if_pos rfl]
      rfl
    rw [bind_eq_of_ok hbody]
    rfl

/-- Witness for C3 (amended): the three registration-point equations at
concrete inputs - a childless Group payload, an inline-image prefix, and
an inline Vec3Array prefix. -/
theorem c3_witness :
    readObjectStep (M.pure none) { buf := wObjC3, version := 100 } =
      Except.ok (some 0,
        { buf := wObjC3, version := 100, pos := 39,
          heap := [{ uid := 4, body := ObjBody.group {} }], objects := [(4, 0)] }) ∧
    readImage (M.pure none) { buf := wImgC3, version := 100 } =
      readImageTail (M.pure none) 0
        { buf := wImgC3, version := 100, pos := 11,
          heap := [{ uid := 9, body := ObjBody.image {} }], images := [(9, 0)] } ∧
    readArray { buf := wArrC3 } =
      readArrayTail 0
        { buf := wArrC3, pos := 9,
          heap := [{ uid := 3, body := ObjBody.vec3Array vec3ArrD }], arrays := [(3, 0)] } := by
  refine ⟨?_, ?_, ?_⟩
  · exact c3_register_timing.1 (M.pure none) { buf := wObjC3, version := 100 }
      (lit "osg::Group") { buf := wObjC3, version := 100, pos := 14 } 4
      { buf := wObjC3, version := 100, pos := 18 } { body := ObjBody.group {} }
      { buf := wObjC3, version := 100, pos := 39 } (by rfl) (by decide) (by rfl) (by rfl)
      (by rfl)
  · exact c3_register_timing.2.1 (M.pure none) { buf := wImgC3, version := 100 }
      { buf := wImgC3, version := 100, pos := 1 } (lit "im")
      { buf := wImgC3, version := 100, pos := 7 } 9
      { buf := wImgC3, version := 100, pos := 11 } (by rfl) (by decide) (by rfl) (by rfl)
      (by rfl)
  · exact c3_register_timing.2.2 { buf := wArrC3 } { buf := wArrC3, pos := 1 } 3
      { buf := wArrC3, pos := 5 } { buf := wArrC3, pos := 9 } (by rfl) (by rfl) (by rfl)
      (by rfl)

end MiniOsgb
